import Mathlib

/-!
# VolumetricAudioSource: a shallow embedding of the geometry query and the tick scheduler

The development embeds `AVolumetricAudioSource` (Private/VolumetricAudioSource.cpp) and its
settings object (Private/VolumeAudioSourceSettings.h).

Numbers: every `float` of the source is a rational (`ℚ`). The functions are embedded twice.
The exact reading (`IsInside`, the decision block of `TickActor`) computes with the exact
rationals. The float reading rounds the result of every operation with the parameter
`FMath.Round` (`Round32` for single precision): it is used for the random SFX block of the
tick and for the copy `Rounded.IsInside` of the geometry query, and with the rounding that
keeps every number it is the exact reading. Overflow to infinity, NaN and subnormal numbers
are not modelled; the `MAX_FLT` sentinel of the search loop is.

Engine pieces that the source calls but that are not part of the repository:
* `FMath::InvSqrt` and `FMath::Sqrt` are parameters (`FMath`), nothing is assumed about them
  except where a theorem says so;
* vector algebra, `GetSafeNormal`, `FQuat` rotation and `FTransform` follow the engine's
  closed formulas;
* the cached component bounds (`Spline->Bounds`) are data of the spline component;
* random draws and the listener source are inputs of a tick.
-/

namespace VolumetricAudioSource

/-! ## Engine vector algebra -/

/-- The engine's `FVector`: three float components. -/
@[ext] structure FVector where
  X : ℚ
  Y : ℚ
  Z : ℚ
deriving DecidableEq, Repr

namespace FVector

/-- Model of `FVector::ZeroVector`. -/
def ZeroVector : FVector := ⟨0, 0, 0⟩

/-- Model of `FVector::UpVector`. -/
def UpVector : FVector := ⟨0, 0, 1⟩

instance : Add FVector := ⟨fun a b => ⟨a.X + b.X, a.Y + b.Y, a.Z + b.Z⟩⟩
instance : Sub FVector := ⟨fun a b => ⟨a.X - b.X, a.Y - b.Y, a.Z - b.Z⟩⟩
instance : HMul FVector ℚ FVector := ⟨fun a k => ⟨a.X * k, a.Y * k, a.Z * k⟩⟩
instance : HMul ℚ FVector FVector := ⟨fun k a => ⟨a.X * k, a.Y * k, a.Z * k⟩⟩
instance : HDiv FVector ℚ FVector := ⟨fun a k => ⟨a.X / k, a.Y / k, a.Z / k⟩⟩

/-- Model of `FVector::operator|` and `FVector::DotProduct`. -/
def Dot (a b : FVector) : ℚ := a.X * b.X + a.Y * b.Y + a.Z * b.Z

/-- Model of `FVector::CrossProduct`. -/
def CrossProduct (a b : FVector) : FVector :=
  ⟨a.Y * b.Z - a.Z * b.Y, a.Z * b.X - a.X * b.Z, a.X * b.Y - a.Y * b.X⟩

/-- Model of `FVector::SizeSquared`. -/
def SizeSquared (a : FVector) : ℚ := a.X * a.X + a.Y * a.Y + a.Z * a.Z

/-- Model of `FVector::DistSquared`. -/
def DistSquared (a b : FVector) : ℚ :=
  (b.X - a.X) * (b.X - a.X) + (b.Y - a.Y) * (b.Y - a.Y) + (b.Z - a.Z) * (b.Z - a.Z)

/-- Componentwise product, `FVector::operator*(const FVector&)`. -/
def Scale (a b : FVector) : FVector := ⟨a.X * b.X, a.Y * b.Y, a.Z * b.Z⟩

end FVector

/-- Model of `MAX_FLT`, the largest finite single precision float (3.402823466e+38F). -/
def MAX_FLT : ℚ := 340282346638528859811704183484516925440

/-- Model of `SMALL_NUMBER` (1.e-8f), the default tolerance of `GetSafeNormal`. -/
def SMALL_NUMBER : ℚ := 1 / 100000000

/-- Rounding of a rational to the nearest integer, a tie to the even one. -/
def RoundHalfEven (y : ℚ) : ℤ :=
  if y - ⌊y⌋ < 1 / 2 then ⌊y⌋
  else if 1 / 2 < y - ⌊y⌋ then ⌊y⌋ + 1
  else if ⌊y⌋ % 2 = 0 then ⌊y⌋ else ⌊y⌋ + 1

/-- The rounding of a real number to a single precision float (IEEE 754 binary32, round to
nearest, ties to even): the nearest number with 24 significant bits. The exponent range is
not bounded here: overflow to infinity and the subnormal numbers are not modelled. -/
def Round32 (x : ℚ) : ℚ :=
  if x = 0 then 0
  else (RoundHalfEven (x / (2 : ℚ) ^ (Int.log 2 |x| - 23)) : ℚ)
    * (2 : ℚ) ^ (Int.log 2 |x| - 23)

/-- The scalar engine functions the source relies on and the rounding of the float
arithmetic; they are parameters of the model. -/
structure FMath where
  /-- Model of `FMath::InvSqrt`, used by `FVector::GetSafeNormal`. -/
  InvSqrt : ℚ → ℚ
  /-- Model of `FMath::Sqrt`, used by `TickActor`. -/
  Sqrt : ℚ → ℚ
  /-- The rounding of the exact result of one float operation to a float. It is applied in
  the random SFX block of the tick and in the rounded reading of `IsInside` (`Rounded`). -/
  Round : ℚ → ℚ
  /-- Rounding does not make negative a number that is not. -/
  Round_nonneg : ∀ x, 0 ≤ x → 0 ≤ Round x

/-- Model of `FVector::GetSafeNormal(Tolerance = SMALL_NUMBER)`: the vector itself when its squared
length is exactly one, the zero vector below the tolerance, otherwise the vector scaled by
the inverse square root of its squared length. -/
def FVector.GetSafeNormal (M : FMath) (a : FVector) : FVector :=
  let SquareSum := a.X * a.X + a.Y * a.Y + a.Z * a.Z
  if SquareSum = 1 then a
  else if SquareSum < SMALL_NUMBER then FVector.ZeroVector
  else
    let Scale := M.InvSqrt SquareSum
    ⟨a.X * Scale, a.Y * Scale, a.Z * Scale⟩

/-! ### Float arithmetic

The operations of the engine's vector algebra with the result of every float operation
rounded by `M.Round`, in the order of the engine's scalar code. -/

namespace Rounded

/-- Model of `FVector::operator+` in float arithmetic. -/
def Add (M : FMath) (a b : FVector) : FVector :=
  ⟨M.Round (a.X + b.X), M.Round (a.Y + b.Y), M.Round (a.Z + b.Z)⟩

/-- Model of `FVector::operator-` in float arithmetic. -/
def Sub (M : FMath) (a b : FVector) : FVector :=
  ⟨M.Round (a.X - b.X), M.Round (a.Y - b.Y), M.Round (a.Z - b.Z)⟩

/-- Model of `FVector::operator*(float)` in float arithmetic. -/
def Mul (M : FMath) (a : FVector) (k : ℚ) : FVector :=
  ⟨M.Round (a.X * k), M.Round (a.Y * k), M.Round (a.Z * k)⟩

/-- Model of `FVector::operator/(float)` in float arithmetic: the product with the
reciprocal `1.f / Scale`. -/
def Div (M : FMath) (a : FVector) (k : ℚ) : FVector :=
  Mul M a (M.Round (1 / k))

/-- Model of `FVector::operator|` in float arithmetic: `X*V.X + Y*V.Y + Z*V.Z`. -/
def Dot (M : FMath) (a b : FVector) : ℚ :=
  M.Round (M.Round (M.Round (a.X * b.X) + M.Round (a.Y * b.Y)) + M.Round (a.Z * b.Z))

/-- Model of `FVector::CrossProduct` in float arithmetic. -/
def CrossProduct (M : FMath) (a b : FVector) : FVector :=
  ⟨M.Round (M.Round (a.Y * b.Z) - M.Round (a.Z * b.Y)),
    M.Round (M.Round (a.Z * b.X) - M.Round (a.X * b.Z)),
    M.Round (M.Round (a.X * b.Y) - M.Round (a.Y * b.X))⟩

/-- Model of `FVector::DistSquared` in float arithmetic: the sum of the squares of the
three differences `V2 - V1`. -/
def DistSquared (M : FMath) (a b : FVector) : ℚ :=
  M.Round (M.Round (M.Round (M.Round (b.X - a.X) * M.Round (b.X - a.X))
      + M.Round (M.Round (b.Y - a.Y) * M.Round (b.Y - a.Y)))
    + M.Round (M.Round (b.Z - a.Z) * M.Round (b.Z - a.Z)))

/-- Componentwise product in float arithmetic. -/
def Scale (M : FMath) (a b : FVector) : FVector :=
  ⟨M.Round (a.X * b.X), M.Round (a.Y * b.Y), M.Round (a.Z * b.Z)⟩

/-- Model of `FVector::GetSafeNormal` in float arithmetic; the tolerance is the float
`SMALL_NUMBER`. -/
def GetSafeNormal (M : FMath) (a : FVector) : FVector :=
  let SquareSum := M.Round (M.Round (M.Round (a.X * a.X) + M.Round (a.Y * a.Y))
    + M.Round (a.Z * a.Z))
  if SquareSum = 1 then a
  else if SquareSum < M.Round SMALL_NUMBER then FVector.ZeroVector
  else
    let Scale := M.InvSqrt SquareSum
    ⟨M.Round (a.X * Scale), M.Round (a.Y * Scale), M.Round (a.Z * Scale)⟩

end Rounded

/-- The engine's `FBox`. -/
structure FBox where
  Min : FVector
  Max : FVector
deriving DecidableEq, Repr

/-- Model of `FBox::GetCenter`. -/
def FBox.GetCenter (b : FBox) : FVector := (b.Min + b.Max) * ((1 : ℚ) / 2)

/-- The engine's `FBoxSphereBounds`, the type of the cached `USceneComponent::Bounds`
(the sphere radius is never read by the source and is left out). -/
structure FBoxSphereBounds where
  Origin : FVector
  BoxExtent : FVector
deriving DecidableEq, Repr

/-- Model of `FBoxSphereBounds::GetBox`. -/
def FBoxSphereBounds.GetBox (b : FBoxSphereBounds) : FBox :=
  ⟨b.Origin - b.BoxExtent, b.Origin + b.BoxExtent⟩

/-- The engine's `FQuat`. -/
structure FQuat where
  X : ℚ
  Y : ℚ
  Z : ℚ
  W : ℚ
deriving DecidableEq, Repr

/-- Model of `FQuat::Identity`. -/
def FQuat.Identity : FQuat := ⟨0, 0, 0, 1⟩

/-- Model of `FQuat::RotateVector`. -/
def FQuat.RotateVector (q : FQuat) (V : FVector) : FVector :=
  let Q : FVector := ⟨q.X, q.Y, q.Z⟩
  let T : FVector := (2 : ℚ) * FVector.CrossProduct Q V
  V + (q.W * T) + FVector.CrossProduct Q T

/-- Model of `FQuat::UnrotateVector`. -/
def FQuat.UnrotateVector (q : FQuat) (V : FVector) : FVector :=
  let Q : FVector := ⟨-q.X, -q.Y, -q.Z⟩
  let T : FVector := (2 : ℚ) * FVector.CrossProduct Q V
  V + (q.W * T) + FVector.CrossProduct Q T

/-- The engine's `FTransform`. -/
structure FTransform where
  Rotation : FQuat
  Translation : FVector
  Scale3D : FVector
deriving DecidableEq, Repr

/-- Model of `FTransform::Identity`. -/
def FTransform.Identity : FTransform := ⟨FQuat.Identity, ⟨0, 0, 0⟩, ⟨1, 1, 1⟩⟩

/-- One component of `FTransform::GetSafeScaleReciprocal`. -/
def SafeReciprocal (s : ℚ) : ℚ := if |s| ≤ SMALL_NUMBER then 0 else 1 / s

/-- Model of `FTransform::TransformPosition`. -/
def FTransform.TransformPosition (t : FTransform) (V : FVector) : FVector :=
  t.Rotation.RotateVector (FVector.Scale t.Scale3D V) + t.Translation

/-- Model of `FTransform::InverseTransformPosition`. -/
def FTransform.InverseTransformPosition (t : FTransform) (V : FVector) : FVector :=
  FVector.Scale (t.Rotation.UnrotateVector (V - t.Translation))
    ⟨SafeReciprocal t.Scale3D.X, SafeReciprocal t.Scale3D.Y, SafeReciprocal t.Scale3D.Z⟩

/-! ## Data model of the actor -/

/-- What the source reads of a `USplineComponent`: the `OutVal` of every entry of
`SplineCurves.Position.Points`, the component transform and the cached bounds. -/
structure USplineComponent where
  Points : List FVector
  ComponentToWorld : FTransform
  Bounds : FBoxSphereBounds
deriving DecidableEq, Repr

/-- What the source reads of a `USoundBase` (a `USoundCue` is one). -/
structure USoundBase where
  MaxDistance : ℚ
  Duration : ℚ
deriving DecidableEq, Repr

/-- What the source reads and writes of a `UAudioComponent`. -/
structure UAudioComponent where
  Sound : Option USoundBase
  WorldLocation : FVector
  bIsPlaying : Bool
deriving DecidableEq, Repr

/-- The members of `AVolumetricAudioSource` (VolumetricAudioSource.h), with
`PrimaryActorTick.TickInterval`. A null pointer is `none`. -/
structure AVolumetricAudioSource where
  SoundLoop : Option USoundBase
  MaxHeight : ℚ
  MaxDistance : ℚ
  RandomSFX : List (Option USoundBase)
  MinDelay : ℚ
  MaxDelay : ℚ
  Box : FBox
  Offset : ℚ
  Spline : USplineComponent
  AudioComponent : Option UAudioComponent
  CurrentDelay : ℚ
  TickInterval : ℚ
deriving DecidableEq, Repr

/-- Model of `UVolumeAudioSourceSettings`; `DistanceToTickInterval` is the evaluation function of the
curve (`GetRichCurveConst()->Eval`). -/
structure UVolumeAudioSourceSettings where
  DefaultSize : ℚ
  StopPlayingSoundOffset : ℚ
  DistanceToTickInterval : ℚ → ℚ

/-! ## `AVolumetricAudioSource::IsInside` -/

/-- Model of a float division whose divisor is a variable: the quotient when the divisor is
not zero. A division by zero (an infinity or a NaN in the source) has no value in the
model. -/
def FDiv (a b : ℚ) : Option ℚ := if b = 0 then none else some (a / b)

/-- One iteration of the loop of `IsInside` up to the tuple added to
`CachedLocationAndNormal`: the closest location on the segment starting at `Points[Idx]`
and the normal kept with it. An array access out of range is `none`, and so is a division
by zero. -/
def IsInside.Edge (M : FMath) (Points : List FVector) (LocalLocation : FVector) (Idx : ℕ) :
    Option (FVector × FVector) := do
  let NbPoints := Points.length
  let StartPoint ← Points[Idx]?
  let EndPoint ← Points[(Idx + 1) % NbPoints]?
  let Segment := EndPoint - StartPoint
  let VectToPoint := LocalLocation - StartPoint
  let Dot1 := FVector.Dot VectToPoint Segment
  if Dot1 ≤ 0 then
    let PreviousPoint ← Points[if 1 ≤ Idx then Idx - 1 else NbPoints - 1]?
    let Normal := ((StartPoint - PreviousPoint).GetSafeNormal M
      + (StartPoint - EndPoint).GetSafeNormal M) / (2 : ℚ)
    pure (StartPoint, Normal)
  else
    let Dot2 := FVector.Dot Segment Segment
    if Dot2 ≤ Dot1 then
      let NextPoint ← Points[if Idx + 2 < NbPoints then Idx + 2 else 0]?
      let Normal := ((EndPoint - StartPoint).GetSafeNormal M
        + (EndPoint - NextPoint).GetSafeNormal M) / (2 : ℚ)
      pure (EndPoint, Normal)
    else
      let t ← FDiv Dot1 Dot2
      let Normal := FVector.CrossProduct ((StartPoint - EndPoint).GetSafeNormal M)
        FVector.UpVector
      pure (StartPoint + Segment * t, Normal)

/-- The variables the loop of `IsInside` carries from one iteration to the next. -/
structure FLoopState where
  CachedLocationAndNormal : List (FVector × FVector)
  ClosestLocationIndex : ℕ
  ClosestLocationDistance : ℚ
deriving DecidableEq, Repr

/-- The loop state before the first iteration. -/
def IsInside.Init : FLoopState := ⟨[], 0, MAX_FLT⟩

/-- One full iteration of the loop of `IsInside`. -/
def IsInside.Body (M : FMath) (Points : List FVector) (LocalLocation : FVector)
    (st : FLoopState) (Idx : ℕ) : Option FLoopState := do
  let r ← IsInside.Edge M Points LocalLocation Idx
  let Distance := FVector.DistSquared r.1 LocalLocation
  if Distance < st.ClosestLocationDistance then
    pure ⟨st.CachedLocationAndNormal ++ [r], Idx, Distance⟩
  else
    pure ⟨st.CachedLocationAndNormal ++ [r], st.ClosestLocationIndex,
      st.ClosestLocationDistance⟩

/-- The loop of `IsInside`: `Idx` runs from `0` to `NbPoints - 1`. -/
def IsInside.Loop (M : FMath) (Points : List FVector) (LocalLocation : FVector) :
    Option FLoopState :=
  (List.range Points.length).foldlM (IsInside.Body M Points LocalLocation) IsInside.Init

/-- The part of `IsInside` after the loop: the cached closest location goes back to world
space, its height is snapped to the band of the prism, and the sign of the dot product
with the cached normal decides. -/
def IsInside.Result (A : AVolumetricAudioSource) (Location : FVector)
    (Closest : FVector × FVector) : Bool × FVector :=
  let Out0 := A.Spline.ComponentToWorld.TransformPosition Closest.1
  let Bounds := A.Spline.Bounds.GetBox
  let (OutZ, bOutside) :=
    if Location.Z < Bounds.Min.Z then (Bounds.Min.Z, true)
    else if Location.Z > Bounds.Max.Z + A.MaxHeight then (Bounds.Max.Z + A.MaxHeight, true)
    else (Location.Z, false)
  let Out1 : FVector := ⟨Out0.X, Out0.Y, OutZ⟩
  let DirectionToClosestLocation := Location - Out1
  if FVector.Dot DirectionToClosestLocation Closest.2 < 0 then
    (!bOutside, ⟨Location.X, Location.Y, Out1.Z⟩)
  else
    (false, Out1)

/-- Model of `AVolumetricAudioSource::IsInside`: the returned flag and `OutClosestLocation`; `none`
when an array is read out of range. -/
def IsInside (M : FMath) (A : AVolumetricAudioSource) (Location : FVector) :
    Option (Bool × FVector) := do
  let LocalLocation := A.Spline.ComponentToWorld.InverseTransformPosition Location
  let st ← IsInside.Loop M A.Spline.Points LocalLocation
  let Closest ← st.CachedLocationAndNormal[st.ClosestLocationIndex]?
  pure (IsInside.Result A Location Closest)

/-! ## `AVolumetricAudioSource::IsInside` in float arithmetic

The same function with every float operation rounded by `M.Round`: with the rounding that
keeps every number (`RationalMath`) it is the function above, with `Round32` it computes on
single precision floats. The fused multiply-add of some compilers is not modelled. -/

namespace Rounded

/-- Model of `FQuat::RotateVector` in float arithmetic. -/
def RotateVector (M : FMath) (q : FQuat) (V : FVector) : FVector :=
  let Q : FVector := ⟨q.X, q.Y, q.Z⟩
  let T : FVector := Mul M (CrossProduct M Q V) 2
  Add M (Add M V (Mul M T q.W)) (CrossProduct M Q T)

/-- Model of `FQuat::UnrotateVector` in float arithmetic. -/
def UnrotateVector (M : FMath) (q : FQuat) (V : FVector) : FVector :=
  let Q : FVector := ⟨-q.X, -q.Y, -q.Z⟩
  let T : FVector := Mul M (CrossProduct M Q V) 2
  Add M (Add M V (Mul M T q.W)) (CrossProduct M Q T)

/-- One component of `FTransform::GetSafeScaleReciprocal` in float arithmetic. -/
def SafeReciprocal (M : FMath) (s : ℚ) : ℚ :=
  if |s| ≤ M.Round SMALL_NUMBER then 0 else M.Round (1 / s)

/-- Model of `FTransform::TransformPosition` in float arithmetic. -/
def TransformPosition (M : FMath) (t : FTransform) (V : FVector) : FVector :=
  Add M (RotateVector M t.Rotation (Scale M t.Scale3D V)) t.Translation

/-- Model of `FTransform::InverseTransformPosition` in float arithmetic. -/
def InverseTransformPosition (M : FMath) (t : FTransform) (V : FVector) : FVector :=
  Scale M (UnrotateVector M t.Rotation (Sub M V t.Translation))
    ⟨SafeReciprocal M t.Scale3D.X, SafeReciprocal M t.Scale3D.Y, SafeReciprocal M t.Scale3D.Z⟩

/-- Model of `FBoxSphereBounds::GetBox` in float arithmetic. -/
def GetBox (M : FMath) (b : FBoxSphereBounds) : FBox :=
  ⟨Sub M b.Origin b.BoxExtent, Add M b.Origin b.BoxExtent⟩

/-- Model of a float division whose divisor is a variable, in float arithmetic. -/
def FDiv (M : FMath) (a b : ℚ) : Option ℚ := if b = 0 then none else some (M.Round (a / b))

/-- One iteration of the loop of `IsInside` in float arithmetic, up to the tuple added to
`CachedLocationAndNormal`. -/
def Edge (M : FMath) (Points : List FVector) (LocalLocation : FVector) (Idx : ℕ) :
    Option (FVector × FVector) := do
  let NbPoints := Points.length
  let StartPoint ← Points[Idx]?
  let EndPoint ← Points[(Idx + 1) % NbPoints]?
  let Segment := Sub M EndPoint StartPoint
  let VectToPoint := Sub M LocalLocation StartPoint
  let Dot1 := Dot M VectToPoint Segment
  if Dot1 ≤ 0 then
    let PreviousPoint ← Points[if 1 ≤ Idx then Idx - 1 else NbPoints - 1]?
    let Normal := Div M (Add M (GetSafeNormal M (Sub M StartPoint PreviousPoint))
      (GetSafeNormal M (Sub M StartPoint EndPoint))) 2
    pure (StartPoint, Normal)
  else
    let Dot2 := Dot M Segment Segment
    if Dot2 ≤ Dot1 then
      let NextPoint ← Points[if Idx + 2 < NbPoints then Idx + 2 else 0]?
      let Normal := Div M (Add M (GetSafeNormal M (Sub M EndPoint StartPoint))
        (GetSafeNormal M (Sub M EndPoint NextPoint))) 2
      pure (EndPoint, Normal)
    else
      let t ← FDiv M Dot1 Dot2
      let Normal := CrossProduct M (GetSafeNormal M (Sub M StartPoint EndPoint))
        FVector.UpVector
      pure (Add M StartPoint (Mul M Segment t), Normal)

/-- One full iteration of the loop of `IsInside` in float arithmetic: the squared distance
that is compared is a float. -/
def Body (M : FMath) (Points : List FVector) (LocalLocation : FVector)
    (st : FLoopState) (Idx : ℕ) : Option FLoopState := do
  let r ← Edge M Points LocalLocation Idx
  let Distance := DistSquared M r.1 LocalLocation
  if Distance < st.ClosestLocationDistance then
    pure ⟨st.CachedLocationAndNormal ++ [r], Idx, Distance⟩
  else
    pure ⟨st.CachedLocationAndNormal ++ [r], st.ClosestLocationIndex,
      st.ClosestLocationDistance⟩

/-- The loop of `IsInside` in float arithmetic. -/
def Loop (M : FMath) (Points : List FVector) (LocalLocation : FVector) :
    Option FLoopState :=
  (List.range Points.length).foldlM (Body M Points LocalLocation) IsInside.Init

/-- The part of `IsInside` after the loop, in float arithmetic. -/
def Result (M : FMath) (A : AVolumetricAudioSource) (Location : FVector)
    (Closest : FVector × FVector) : Bool × FVector :=
  let Out0 := TransformPosition M A.Spline.ComponentToWorld Closest.1
  let Bounds := GetBox M A.Spline.Bounds
  let (OutZ, bOutside) :=
    if Location.Z < Bounds.Min.Z then (Bounds.Min.Z, true)
    else if Location.Z > M.Round (Bounds.Max.Z + A.MaxHeight) then
      (M.Round (Bounds.Max.Z + A.MaxHeight), true)
    else (Location.Z, false)
  let Out1 : FVector := ⟨Out0.X, Out0.Y, OutZ⟩
  let DirectionToClosestLocation := Sub M Location Out1
  if Dot M DirectionToClosestLocation Closest.2 < 0 then
    (!bOutside, ⟨Location.X, Location.Y, Out1.Z⟩)
  else
    (false, Out1)

/-- Model of `AVolumetricAudioSource::IsInside` in float arithmetic. -/
def IsInside (M : FMath) (A : AVolumetricAudioSource) (Location : FVector) :
    Option (Bool × FVector) := do
  let LocalLocation := InverseTransformPosition M A.Spline.ComponentToWorld Location
  let st ← Loop M A.Spline.Points LocalLocation
  let Closest ← st.CachedLocationAndNormal[st.ClosestLocationIndex]?
  pure (Result M A Location Closest)

end Rounded

/-! ## The constructor -/

/-- The spline built by the constructor: a closed loop of four linear points around the
origin at height zero, identity transform; the cached bounds are the box of these points. -/
def DefaultSpline (HalfSize : ℚ) : USplineComponent where
  Points := [⟨HalfSize, HalfSize, 0⟩, ⟨HalfSize, -HalfSize, 0⟩,
    ⟨-HalfSize, -HalfSize, 0⟩, ⟨-HalfSize, HalfSize, 0⟩]
  ComponentToWorld := FTransform.Identity
  Bounds := ⟨⟨0, 0, 0⟩, ⟨HalfSize, HalfSize, 0⟩⟩

/-- Model of `AVolumetricAudioSource::AVolumetricAudioSource()`, with the member initialisers of the
header. -/
def AVolumetricAudioSource.Construct (PluginSettings : UVolumeAudioSourceSettings) :
    AVolumetricAudioSource where
  SoundLoop := none
  MaxHeight := 400
  MaxDistance := 0
  RandomSFX := []
  MinDelay := 5
  MaxDelay := 10
  Box := ⟨⟨-200, -200, -200⟩, ⟨200, 200, 200⟩⟩
  Offset := 0
  Spline := DefaultSpline (PluginSettings.DefaultSize / 2)
  AudioComponent := none
  CurrentDelay := 0
  TickInterval := 0

/-! ## `AVolumetricAudioSource::TickActor` -/

/-- The engine's `ELevelTick`. -/
inductive ELevelTick where
  | LEVELTICK_TimeOnly
  | LEVELTICK_ViewportsOnly
  | LEVELTICK_All
  | LEVELTICK_PauseTick
deriving DecidableEq, Repr

/-- What the source reads of an `APlayerController`. -/
structure APlayerController where
  bIsLocalController : Bool
  AudioListenerPosition : FVector
deriving DecidableEq, Repr

/-- What the source reads of a `UWorld`: the player controller iterator (an entry may be
null) and the position of listener 0 of the audio device. -/
structure UWorld where
  PlayerControllers : List (Option APlayerController)
  DeviceListenerPosition : FVector
deriving DecidableEq, Repr

/-- The outcomes of the `FMath::Rand()` calls of one tick, in the order of the calls; each
lies between `0` and `RAND_MAX`. -/
structure FRandomDraws where
  Delay : ℕ
  Index : ℕ
  PointX : ℕ
  PointY : ℕ
  PointZ : ℕ
deriving DecidableEq, Repr

/-- Everything outside the actor that one call of `TickActor` reads: build flags, the
platform constant `RAND_MAX`, console variables, the world and the random draws. -/
structure FTickContext where
  WITH_EDITOR : Bool
  UE_BUILD_SHIPPING : Bool
  RAND_MAX : ℕ
  Preview : ℤ
  Visualize : ℤ
  World : Option UWorld
  Rand : FRandomDraws
deriving DecidableEq, Repr

/-- The calls a tick makes on the audio backend. -/
inductive FAudioCommand where
  | SetWorldLocation (Location : FVector)
  | Play
  | Stop
  | PlaySoundAtLocation (Sound : USoundBase) (Location : FVector)
deriving DecidableEq, Repr

/-- Model of `FMath::FRand`: `Rand() / (float)RAND_MAX`, a float division, with the outcome
of `Rand()` as an argument. -/
def FRand (M : FMath) (RAND_MAX Rand : ℕ) : ℚ := M.Round ((Rand : ℚ) / (RAND_MAX : ℚ))

/-- Model of `FMath::FRandRange`, which is `FMath::RandRange(float, float)`:
`InMin + (InMax - InMin) * FRand()`, every operation rounded. -/
def FRandRange (M : FMath) (FRand InMin InMax : ℚ) : ℚ :=
  M.Round (InMin + M.Round (M.Round (InMax - InMin) * FRand))

/-- Model of `FMath::RandRange(int32, int32)` through `FMath::RandHelper`, which truncates
the float product `FRand() * Range`. -/
def RandRange (M : FMath) (FRand : ℚ) (Min Max : ℤ) : ℤ :=
  let Range := (Max - Min) + 1
  Min + (if 0 < Range then min ⌊M.Round (FRand * Range)⌋ (Range - 1) else 0)

/-- Model of `FMath::RandPointInBox`. -/
def RandPointInBox (M : FMath) (RAND_MAX : ℕ) (r : FRandomDraws) (Box : FBox) : FVector :=
  ⟨FRandRange M (FRand M RAND_MAX r.PointX) Box.Min.X Box.Max.X,
    FRandRange M (FRand M RAND_MAX r.PointY) Box.Min.Y Box.Max.Y,
    FRandRange M (FRand M RAND_MAX r.PointZ) Box.Min.Z Box.Max.Z⟩

/-- The condition of the edit mode block of `TickActor`: an editor build, a viewport tick
and the preview switched off. -/
def TickActor.IsEditModeTick (ctx : FTickContext) (TickType : ELevelTick) : Prop :=
  ctx.WITH_EDITOR = true ∧ TickType = ELevelTick.LEVELTICK_ViewportsOnly ∧ ctx.Preview = 0

instance (ctx : FTickContext) (TickType : ELevelTick) :
    Decidable (TickActor.IsEditModeTick ctx TickType) := by
  unfold TickActor.IsEditModeTick
  infer_instance

/-- The listener block of `TickActor`: the location of the first local player
controller, the device listener when the world has no player controller, and the initial
zero vector otherwise. -/
def TickActor.AudioListenerLocation (World : Option UWorld) : FVector :=
  match World with
  | none => FVector.ZeroVector
  | some W =>
    if 0 < W.PlayerControllers.length then
      match W.PlayerControllers.find?
          (fun pc => match pc with
            | some c => c.bIsLocalController
            | none => false) with
      | some (some c) => c.AudioListenerPosition
      | _ => FVector.ZeroVector
    else W.DeviceListenerPosition

/-- The edit mode block of `TickActor` (editor builds, viewport ticks, preview off): the
audio component is moved to the centre of the bounds and stopped. -/
def TickActor.EditMode (A : AVolumetricAudioSource) :
    AVolumetricAudioSource × List FAudioCommand :=
  let SplineCenter := A.Spline.Bounds.GetBox.GetCenter
  match A.AudioComponent with
  | some ac =>
    if ac.bIsPlaying then
      ({ A with AudioComponent := some { ac with WorldLocation := SplineCenter,
                                                 bIsPlaying := false } },
        [FAudioCommand.SetWorldLocation SplineCenter, FAudioCommand.Stop])
    else
      ({ A with AudioComponent := some { ac with WorldLocation := SplineCenter } },
        [FAudioCommand.SetWorldLocation SplineCenter])
  | none => (A, [])

/-- The decision block of `TickActor`: `bShouldPlay`, `ClosestLocation` and the value of
`PrimaryActorTick.TickInterval` after it. -/
def TickActor.Decide (M : FMath) (PluginSettings : UVolumeAudioSourceSettings)
    (A : AVolumetricAudioSource) (AudioListenerLocation : FVector)
    (r : Bool × FVector) : Bool × FVector × ℚ :=
  if r.1 then (true, AudioListenerLocation, A.TickInterval)
  else
    let ClosestLocation := r.2
    let SquaredDistance := (AudioListenerLocation - ClosestLocation).SizeSquared
    let SquaredMaxDistance := A.MaxDistance * A.MaxDistance
    if SquaredDistance ≤ SquaredMaxDistance then (true, ClosestLocation, A.TickInterval)
    else if SquaredDistance > SquaredMaxDistance + PluginSettings.StopPlayingSoundOffset then
      (false, ClosestLocation,
        PluginSettings.DistanceToTickInterval
          (M.Sqrt (SquaredDistance - SquaredMaxDistance)))
    else (false, ClosestLocation, A.TickInterval)

/-- The audio component part of the `bShouldPlay` branch. -/
def TickActor.PlayLoop (A : AVolumetricAudioSource) (ClosestLocation : FVector) :
    AVolumetricAudioSource × List FAudioCommand :=
  match A.AudioComponent with
  | some ac =>
    if ac.bIsPlaying then
      ({ A with AudioComponent := some { ac with WorldLocation := ClosestLocation } },
        [FAudioCommand.SetWorldLocation ClosestLocation])
    else
      ({ A with AudioComponent := some { ac with WorldLocation := ClosestLocation,
                                                 bIsPlaying := true } },
        [FAudioCommand.SetWorldLocation ClosestLocation, FAudioCommand.Play])
  | none => (A, [])

/-- The random SFX part of the `bShouldPlay` branch, in float arithmetic: the countdown and
the random values are rounded results; `none` when `RandomSFX` is read out of range. -/
def TickActor.UpdateRandomSFX (M : FMath) (ctx : FTickContext) (A : AVolumetricAudioSource)
    (DeltaTime : ℚ) (ClosestLocation : FVector) :
    Option (AVolumetricAudioSource × List FAudioCommand) :=
  if 0 < A.RandomSFX.length then
    let CurrentDelay := M.Round (A.CurrentDelay - DeltaTime)
    if CurrentDelay ≤ 0 then
      let A1 := { A with
        CurrentDelay :=
          FRandRange M (FRand M ctx.RAND_MAX ctx.Rand.Delay) A.MinDelay A.MaxDelay }
      let i := RandRange M (FRand M ctx.RAND_MAX ctx.Rand.Index) 0
        ((A.RandomSFX.length : ℤ) - 1)
      if i < 0 then none
      else
        match A.RandomSFX[i.toNat]? with
        | none => none
        | some none => some (A1, [])
        | some (some SFX) =>
          let RandomSFXLocation :=
            Rounded.Add M (Rounded.Add M ClosestLocation ⟨0, 0, A.Offset⟩)
              (RandPointInBox M ctx.RAND_MAX ctx.Rand A.Box)
          some (A1, [FAudioCommand.PlaySoundAtLocation SFX RandomSFXLocation])
    else some ({ A with CurrentDelay := CurrentDelay }, [])
  else some (A, [])

/-- The `else` branch of `bShouldPlay`: the loop is stopped when it is playing. -/
def TickActor.StopLoop (A : AVolumetricAudioSource) :
    AVolumetricAudioSource × List FAudioCommand :=
  match A.AudioComponent with
  | some ac =>
    if ac.bIsPlaying then
      ({ A with AudioComponent := some { ac with bIsPlaying := false } },
        [FAudioCommand.Stop])
    else (A, [])
  | none => (A, [])

/-- The visualisation block that ends `TickActor` (absent from shipping builds): the actor
is forced to tick every frame; what `Draw` renders is not modelled. -/
def TickActor.Visualization (ctx : FTickContext) (A : AVolumetricAudioSource) :
    AVolumetricAudioSource :=
  if !ctx.UE_BUILD_SHIPPING && ctx.Visualize != 0 then { A with TickInterval := 0 } else A

/-- Model of `AVolumetricAudioSource::TickActor`: the actor after the tick and the audio backend
calls made, in order; `none` when an array is read out of range. -/
def TickActor (M : FMath) (PluginSettings : UVolumeAudioSourceSettings) (ctx : FTickContext)
    (A : AVolumetricAudioSource) (DeltaTime : ℚ) (TickType : ELevelTick) :
    Option (AVolumetricAudioSource × List FAudioCommand) :=
  if TickActor.IsEditModeTick ctx TickType then
    some (TickActor.EditMode A)
  else do
    let AudioListenerLocation := TickActor.AudioListenerLocation ctx.World
    let r ← IsInside M A AudioListenerLocation
    let d := TickActor.Decide M PluginSettings A AudioListenerLocation r
    let A1 := { A with TickInterval := d.2.2 }
    if d.1 then
      let A2 := { A1 with TickInterval := 0 }
      let p := TickActor.PlayLoop A2 d.2.1
      let q ← TickActor.UpdateRandomSFX M ctx p.1 DeltaTime d.2.1
      pure (TickActor.Visualization ctx q.1, p.2 ++ q.2)
    else
      let p := TickActor.StopLoop A1
      pure (TickActor.Visualization ctx p.1, p.2)

/-! ## `AVolumetricAudioSource::PostEditChangeProperty` -/

/-- The property names `PostEditChangeProperty` tells apart. -/
inductive FPropertyName where
  | SoundLoop
  | RandomSFX
  | Other
deriving DecidableEq, Repr

/-- The loop of the `UpdateMaxDistance` lambda over `RandomSFX`. -/
def UpdateMaxDistance.Scan (MaxDistance : ℚ) : List (Option USoundBase) → ℚ
  | [] => MaxDistance
  | Sound :: rest =>
    match Sound with
    | some s =>
      if s.MaxDistance > MaxDistance then UpdateMaxDistance.Scan s.MaxDistance rest
      else UpdateMaxDistance.Scan MaxDistance rest
    | none => UpdateMaxDistance.Scan MaxDistance rest

/-- The `UpdateMaxDistance` lambda of `PostEditChangeProperty`. -/
def UpdateMaxDistance (A : AVolumetricAudioSource) : AVolumetricAudioSource :=
  match A.SoundLoop with
  | none => { A with MaxDistance := UpdateMaxDistance.Scan 0 A.RandomSFX }
  | some s => { A with MaxDistance := s.MaxDistance }

/-- Model of `AVolumetricAudioSource::PostEditChangeProperty`; a new audio component is attached at
the spline's location, not playing. -/
def PostEditChangeProperty (A : AVolumetricAudioSource) (PropertyName : FPropertyName) :
    AVolumetricAudioSource :=
  match PropertyName with
  | FPropertyName.SoundLoop =>
    match A.SoundLoop with
    | none =>
      match A.AudioComponent with
      | some _ => UpdateMaxDistance { A with AudioComponent := none }
      | none => A
    | some s =>
      let ac : UAudioComponent :=
        match A.AudioComponent with
        | none => ⟨none, A.Spline.ComponentToWorld.Translation, false⟩
        | some c => c
      UpdateMaxDistance { A with AudioComponent := some { ac with Sound := some s } }
  | FPropertyName.RandomSFX => UpdateMaxDistance A
  | FPropertyName.Other => A

/-- An edit of the sound configuration in the editor: the property receives its new value,
then `PostEditChangeProperty` runs with the name of the property. -/
inductive FEditEvent where
  | SetSoundLoop (Value : Option USoundBase)
  | SetRandomSFX (Value : List (Option USoundBase))
deriving DecidableEq, Repr

/-- The effect of one edit event. -/
def FEditEvent.Apply (A : AVolumetricAudioSource) : FEditEvent → AVolumetricAudioSource
  | FEditEvent.SetSoundLoop v =>
    PostEditChangeProperty { A with SoundLoop := v } FPropertyName.SoundLoop
  | FEditEvent.SetRandomSFX v =>
    PostEditChangeProperty { A with RandomSFX := v } FPropertyName.RandomSFX

/-- The call `IsInside(AudioListenerLocation, ClosestLocation)` of a tick: the tick goes
past the edit mode block, and the query on the listener location returns the flag and the
closest location `r`. -/
def TickActor.ListenerQuery (M : FMath) (ctx : FTickContext) (A : AVolumetricAudioSource)
    (TickType : ELevelTick) (r : Bool × FVector) : Prop :=
  ¬ TickActor.IsEditModeTick ctx TickType ∧
    IsInside M A (TickActor.AudioListenerLocation ctx.World) = some r

/-- The settings with the default values of the header and an empty curve, whose
evaluation is zero everywhere. -/
def DefaultSettings : UVolumeAudioSourceSettings := ⟨400, 500, fun _ => 0⟩

/-- The actor built by the constructor under the default settings. -/
def DefaultActor : AVolumetricAudioSource := AVolumetricAudioSource.Construct DefaultSettings

/-- The default actor with a sound loop of the given max-distance and an audio component
that plays it at the origin. -/
def PlayingActor (MaxDistance : ℚ) : AVolumetricAudioSource :=
  { DefaultActor with
    SoundLoop := some ⟨MaxDistance, 10⟩
    MaxDistance := MaxDistance
    AudioComponent := some ⟨some ⟨MaxDistance, 10⟩, ⟨0, 0, 0⟩, true⟩ }

/-- A tick of a shipping game build with one local player controller whose audio listener
is at the given location. -/
def GameContext (Listener : FVector) : FTickContext where
  WITH_EDITOR := false
  UE_BUILD_SHIPPING := true
  RAND_MAX := 32767
  Preview := 0
  Visualize := 0
  World := some ⟨[some ⟨true, Listener⟩], ⟨0, 0, 0⟩⟩
  Rand := ⟨0, 0, 0, 0, 0⟩

/-- The default settings with a negative stop offset. -/
def NegativeOffsetSettings : UVolumeAudioSourceSettings :=
  { DefaultSettings with StopPlayingSoundOffset := -500 }

/-- The maximum of zero and the max-distances of the catalog entries that are not null,
in the words of the specification. -/
def CatalogMaxDistance : List (Option USoundBase) → ℚ
  | [] => 0
  | none :: rest => CatalogMaxDistance rest
  | some s :: rest => max s.MaxDistance (CatalogMaxDistance rest)

/-- An L-shaped hexagon wound like the default square, with a reflex corner at
(100, 100); identity transform, bounds the box of the points. -/
def LShapeSpline : USplineComponent where
  Points := [⟨0, 0, 0⟩, ⟨0, 200, 0⟩, ⟨100, 200, 0⟩, ⟨100, 100, 0⟩, ⟨200, 100, 0⟩,
    ⟨200, 0, 0⟩]
  ComponentToWorld := FTransform.Identity
  Bounds := ⟨⟨100, 100, 0⟩, ⟨100, 100, 0⟩⟩

/-- The default actor with the L-shaped spline. -/
def LShapeActor : AVolumetricAudioSource := { DefaultActor with Spline := LShapeSpline }

/-- The shoelace sum of the claims: the sum over the closed loop of
`x_i * y_(i+1) - x_(i+1) * y_i`. -/
def ShoelaceSum (Points : List FVector) : ℚ :=
  ((List.range Points.length).map (fun i =>
    let a := Points.getD i FVector.ZeroVector
    let b := Points.getD ((i + 1) % Points.length) FVector.ZeroVector
    a.X * b.Y - b.X * a.Y)).sum

/-- The actor moved by the vector `t`: the translation of the component transform, hence
the world-space vertices, and the cached bounds shift by `t`. -/
def AVolumetricAudioSource.Translate (A : AVolumetricAudioSource) (t : FVector) :
    AVolumetricAudioSource :=
  { A with
    Spline := { A.Spline with
      ComponentToWorld := { A.Spline.ComponentToWorld with
        Translation := A.Spline.ComponentToWorld.Translation + t }
      Bounds := { A.Spline.Bounds with Origin := A.Spline.Bounds.Origin + t } } }

/-- The default actor with a polygon of two equal points: fewer than three vertices and
two edges of length zero. -/
def DegenerateActor : AVolumetricAudioSource :=
  { DefaultActor with
    Spline := ⟨[⟨0, 0, 0⟩, ⟨0, 0, 0⟩], FTransform.Identity, ⟨⟨0, 0, 0⟩, ⟨0, 0, 0⟩⟩⟩ }

/-- The default actor with a sound loop of the given max-distance and an audio component
that is not playing. -/
def StoppedActor (MaxDistance : ℚ) : AVolumetricAudioSource :=
  { DefaultActor with
    SoundLoop := some ⟨MaxDistance, 10⟩
    MaxDistance := MaxDistance
    AudioComponent := some ⟨some ⟨MaxDistance, 10⟩, ⟨0, 0, 0⟩, false⟩ }

/-- A tick of a shipping game build without a world. -/
def NoWorldContext : FTickContext := { GameContext ⟨0, 0, 0⟩ with World := none }

/-- A tick of a shipping game build whose only player controller is not local. -/
def RemotePlayerContext : FTickContext :=
  { GameContext ⟨0, 0, 0⟩ with World := some ⟨[some ⟨false, ⟨5000, 0, 0⟩⟩], ⟨0, 0, 0⟩⟩ }

/-- The playing example actor with a catalog of one random SFX. -/
def AmbientActor (CurrentDelay : ℚ) : AVolumetricAudioSource :=
  { PlayingActor 5 with RandomSFX := [some ⟨1000, 2⟩], CurrentDelay := CurrentDelay }

/-- The playing example actor with an empty catalog of random SFX and a given countdown. -/
def EmptyCatalogActor (CurrentDelay : ℚ) : AVolumetricAudioSource :=
  { PlayingActor 5 with CurrentDelay := CurrentDelay }

/-- The default actor turned by half a turn about the vertical axis; the bounds of the
default square are the same box after the turn. -/
def HalfTurnActor : AVolumetricAudioSource :=
  { DefaultActor with
    Spline := { DefaultActor.Spline with
      ComponentToWorld := { FTransform.Identity with Rotation := ⟨0, 0, 1, 0⟩ } } }

/-- The default actor with the four points of its square listed in reverse order. -/
def ReversedActor : AVolumetricAudioSource :=
  { DefaultActor with
    Spline := { DefaultActor.Spline with Points := DefaultActor.Spline.Points.reverse } }

/-- The default actor with a square of side 1/100000 (half side 1/200000): a strictly convex
square whose sides are shorter than the tolerance of `GetSafeNormal`. -/
def TinyActor : AVolumetricAudioSource :=
  { DefaultActor with Spline := DefaultSpline (1 / 200000) }

/-- The default actor with a thin rectangle, 200 long and 1/128 wide, wound like the default
square; identity transform, bounds the box of the points. -/
def SliverActor : AVolumetricAudioSource :=
  { DefaultActor with
    Spline := ⟨[⟨100, 0, 0⟩, ⟨-100, 0, 0⟩, ⟨-100, 1 / 128, 0⟩, ⟨100, 1 / 128, 0⟩],
      FTransform.Identity, ⟨⟨0, 1 / 256, 0⟩, ⟨100, 1 / 256, 0⟩⟩⟩ }

/-- The default actor with the square of half side 6554583/32768, the float nearest to
200.03. -/
def WideSquareActor : AVolumetricAudioSource :=
  { DefaultActor with Spline := DefaultSpline (6554583 / 32768) }

/-- The ambient example actor with a countdown that has run out, MinDelay 9646899/4194304
and MaxDelay 16567501/2097152, the floats nearest to 2.3 and 7.9. -/
def FloatDelayActor : AVolumetricAudioSource :=
  { AmbientActor 0 with MinDelay := 9646899 / 4194304, MaxDelay := 16567501 / 2097152 }

/-- A tick of a shipping game build with the listener at the origin in which the first
call of `Rand()` returns `RAND_MAX`. -/
def MaxDrawContext : FTickContext :=
  { GameContext ⟨0, 0, 0⟩ with Rand := ⟨32767, 0, 0, 0, 0⟩ }

/-- The vertex of index `i` of a polygon. -/
def Vertex (Points : List FVector) (i : ℕ) : FVector := Points.getD i FVector.ZeroVector

/-- The side of the horizontal position of `p` with respect to the directed line from `S`
to `E`: the vertical component of the cross product of `E - S` and `p - S`; negative on
the right of the line, the side of the centre for the default square. -/
def EdgeSide (S E p : FVector) : ℚ :=
  (E.X - S.X) * (p.Y - S.Y) - (E.Y - S.Y) * (p.X - S.X)

/-- A strictly convex polygon wound like the default square: at least three vertices, and
every vertex that is not an end of a given edge lies strictly on the right of the line of
that edge (so no three vertices are collinear). -/
def StrictlyConvex (Points : List FVector) : Prop :=
  3 ≤ Points.length ∧
    ∀ i, i < Points.length → ∀ k, k < Points.length → k ≠ i →
      k ≠ (i + 1) % Points.length →
      EdgeSide (Vertex Points i) (Vertex Points ((i + 1) % Points.length))
        (Vertex Points k) < 0

/-- The horizontal position of `q` is strictly inside a convex polygon wound like the
default square: strictly on the right of the line of every edge. -/
def StrictlyInside (Points : List FVector) (q : FVector) : Prop :=
  ∀ i, i < Points.length →
    EdgeSide (Vertex Points i) (Vertex Points ((i + 1) % Points.length)) q < 0

/-- The horizontal position of `q` is strictly outside a convex polygon wound like the
default square: strictly on the left of the line of some edge. -/
def StrictlyOutside (Points : List FVector) (q : FVector) : Prop :=
  ∃ i, i < Points.length ∧
    0 < EdgeSide (Vertex Points i) (Vertex Points ((i + 1) % Points.length)) q

instance (Points : List FVector) : Decidable (StrictlyConvex Points) := by
  unfold StrictlyConvex
  infer_instance

instance (Points : List FVector) (q : FVector) : Decidable (StrictlyInside Points q) := by
  unfold StrictlyInside
  infer_instance

instance (Points : List FVector) (q : FVector) : Decidable (StrictlyOutside Points q) := by
  unfold StrictlyOutside
  infer_instance

/-- Reference inverse square root and square root on the rationals: exact on squares of
rationals, a positive approximation on the other positive rationals. -/
def RationalMath : FMath where
  InvSqrt := fun x => (Nat.sqrt x.den : ℚ) / (Nat.sqrt x.num.toNat : ℚ)
  Sqrt := fun x => (Nat.sqrt x.num.toNat : ℚ) / (Nat.sqrt x.den : ℚ)
  Round := fun x => x
  Round_nonneg := fun _ h => h

/-- Single precision arithmetic: every result is rounded to the nearest float; the square
roots are the rounded values of the reference ones. -/
def Float32Math : FMath where
  InvSqrt := fun x => Round32 (RationalMath.InvSqrt x)
  Sqrt := fun x => Round32 (RationalMath.Sqrt x)
  Round := Round32
  Round_nonneg := by
    intro x hx
    unfold Round32
    split_ifs with h0
    · exact le_refl _
    · apply mul_nonneg
      · have hy : 0 ≤ x / (2 : ℚ) ^ (Int.log 2 |x| - 23) :=
          div_nonneg hx (le_of_lt (zpow_pos (by norm_num) _))
        have hf := Int.floor_nonneg.mpr hy
        have : (0 : ℤ) ≤ RoundHalfEven (x / (2 : ℚ) ^ (Int.log 2 |x| - 23)) := by
          unfold RoundHalfEven
          split_ifs <;> omega
        exact_mod_cast this
      · exact le_of_lt (zpow_pos (by norm_num) _)

/-- The state of the loop of `IsInside` after `k` iterations. -/
structure LoopInv (M : FMath) (Points : List FVector) (q : FVector) (k : ℕ)
    (st : FLoopState) : Prop where
  length_eq : st.CachedLocationAndNormal.length = k
  cached : ∀ j, j < k → st.CachedLocationAndNormal[j]? = IsInside.Edge M Points q j
  le_max : st.ClosestLocationDistance ≤ MAX_FLT
  found : st.ClosestLocationDistance < MAX_FLT → st.ClosestLocationIndex < k ∧
    ∃ r, IsInside.Edge M Points q st.ClosestLocationIndex = some r ∧
      FVector.DistSquared r.1 q = st.ClosestLocationDistance
  untouched : st.ClosestLocationDistance = MAX_FLT → st.ClosestLocationIndex = 0
  least : ∀ j, j < k → ∀ r, IsInside.Edge M Points q j = some r →
    st.ClosestLocationDistance ≤ FVector.DistSquared r.1 q

/-- The state of the loop of `IsInside` in float arithmetic after `k` iterations. -/
structure Rounded.LoopInv (M : FMath) (Points : List FVector) (q : FVector) (k : ℕ)
    (st : FLoopState) : Prop where
  length_eq : st.CachedLocationAndNormal.length = k
  cached : ∀ j, j < k → st.CachedLocationAndNormal[j]? = Rounded.Edge M Points q j
  le_max : st.ClosestLocationDistance ≤ MAX_FLT
  found : st.ClosestLocationDistance < MAX_FLT → st.ClosestLocationIndex < k ∧
    ∃ r, Rounded.Edge M Points q st.ClosestLocationIndex = some r ∧
      Rounded.DistSquared M r.1 q = st.ClosestLocationDistance
  untouched : st.ClosestLocationDistance = MAX_FLT → st.ClosestLocationIndex = 0
  least : ∀ j, j < k → ∀ r, Rounded.Edge M Points q j = some r →
    st.ClosestLocationDistance ≤ Rounded.DistSquared M r.1 q
  first : ∀ j, j < st.ClosestLocationIndex → ∀ r, Rounded.Edge M Points q j = some r →
    st.ClosestLocationDistance < Rounded.DistSquared M r.1 q

/-! ## Vector algebra lemmas -/

@[simp] theorem FVector.add_def (a b : FVector) :
    a + b = ⟨a.X + b.X, a.Y + b.Y, a.Z + b.Z⟩ := rfl
@[simp] theorem FVector.sub_def (a b : FVector) :
    a - b = ⟨a.X - b.X, a.Y - b.Y, a.Z - b.Z⟩ := rfl
@[simp] theorem FVector.mul_def (a : FVector) (k : ℚ) :
    a * k = ⟨a.X * k, a.Y * k, a.Z * k⟩ := rfl
@[simp] theorem FVector.smul_def (k : ℚ) (a : FVector) :
    k * a = ⟨a.X * k, a.Y * k, a.Z * k⟩ := rfl
@[simp] theorem FVector.div_def (a : FVector) (k : ℚ) :
    a / k = ⟨a.X / k, a.Y / k, a.Z / k⟩ := rfl

/-! ## The search loop of `IsInside` -/

/-- The division has a value, the quotient, when the divisor is positive. -/
theorem FDiv_pos (a b : ℚ) (h : 0 < b) : FDiv a b = some (a / b) := by
  unfold FDiv
  rw [if_neg (ne_of_gt h)]

/-- The division has no value when the divisor is zero. -/
theorem FDiv_zero (a : ℚ) : FDiv a 0 = none := by
  unfold FDiv
  rw [if_pos rfl]

/-- Inside the array every access of one iteration succeeds; the tuple it caches. -/
theorem Edge_spec (M : FMath) (Points : List FVector) (q : FVector) (Idx : ℕ)
    (h : Idx < Points.length) :
    ∃ S E Pv Nx, Points[Idx]? = some S ∧ Points[(Idx + 1) % Points.length]? = some E
      ∧ Points[if 1 ≤ Idx then Idx - 1 else Points.length - 1]? = some Pv
      ∧ Points[if Idx + 2 < Points.length then Idx + 2 else 0]? = some Nx
      ∧ IsInside.Edge M Points q Idx = some
        (if FVector.Dot (q - S) (E - S) ≤ 0 then
          (S, ((S - Pv).GetSafeNormal M + (S - E).GetSafeNormal M) / (2 : ℚ))
        else if FVector.Dot (E - S) (E - S) ≤ FVector.Dot (q - S) (E - S) then
          (E, ((E - S).GetSafeNormal M + (E - Nx).GetSafeNormal M) / (2 : ℚ))
        else
          (S + (E - S) * (FVector.Dot (q - S) (E - S) / FVector.Dot (E - S) (E - S)),
            FVector.CrossProduct ((S - E).GetSafeNormal M) FVector.UpVector)) := by
  have hpos : 0 < Points.length := Nat.lt_of_le_of_lt (Nat.zero_le _) h
  have h1 : (Idx + 1) % Points.length < Points.length := Nat.mod_lt _ hpos
  have h2 : (if 1 ≤ Idx then Idx - 1 else Points.length - 1) < Points.length := by
    split_ifs <;> omega
  have h3 : (if Idx + 2 < Points.length then Idx + 2 else 0) < Points.length := by
    split_ifs <;> omega
  refine ⟨Points[Idx], Points[(Idx + 1) % Points.length],
    Points[if 1 ≤ Idx then Idx - 1 else Points.length - 1],
    Points[if Idx + 2 < Points.length then Idx + 2 else 0],
    List.getElem?_eq_getElem h, List.getElem?_eq_getElem h1, List.getElem?_eq_getElem h2,
    List.getElem?_eq_getElem h3, ?_⟩
  unfold IsInside.Edge
  simp only [List.getElem?_eq_getElem h, List.getElem?_eq_getElem h1,
    List.getElem?_eq_getElem h2, List.getElem?_eq_getElem h3, Option.bind_eq_bind,
    Option.some_bind, Option.pure_def]
  by_cases hd1 : FVector.Dot (q - Points[Idx]) (Points[(Idx + 1) % Points.length] - Points[Idx])
      ≤ 0
  · simp only [if_pos hd1]
  · by_cases hd2 : FVector.Dot (Points[(Idx + 1) % Points.length] - Points[Idx])
        (Points[(Idx + 1) % Points.length] - Points[Idx])
        ≤ FVector.Dot (q - Points[Idx]) (Points[(Idx + 1) % Points.length] - Points[Idx])
    · simp only [if_neg hd1, if_pos hd2]
    · simp only [if_neg hd1, if_neg hd2,
        FDiv_pos _ _ (lt_trans (not_le.mp hd1) (not_le.mp hd2)), Option.some_bind]

/-- An iteration inside the array caches a tuple. -/
theorem Edge_isSome (M : FMath) (Points : List FVector) (q : FVector) (Idx : ℕ)
    (h : Idx < Points.length) : ∃ r, IsInside.Edge M Points q Idx = some r := by
  obtain ⟨S, E, Pv, Nx, -, -, -, -, h5⟩ := Edge_spec M Points q Idx h
  exact ⟨_, h5⟩

/-- The loop runs through any prefix of the indices and keeps its invariant. -/
theorem Loop_invariant (M : FMath) (Points : List FVector) (q : FVector) (k : ℕ)
    (hk : k ≤ Points.length) :
    ∃ st, (List.range k).foldlM (IsInside.Body M Points q) IsInside.Init = some st ∧
      LoopInv M Points q k st := by
  induction k with
  | zero =>
    refine ⟨IsInside.Init, rfl, ⟨rfl, ?_, le_refl _, ?_, fun _ => rfl, ?_⟩⟩
    · intro j hj; omega
    · intro h; exact absurd h (lt_irrefl _)
    · intro j hj; omega
  | succ k ih =>
    obtain ⟨st, hst, inv⟩ := ih (Nat.le_of_succ_le hk)
    obtain ⟨r, hr⟩ := Edge_isSome M Points q k (Nat.lt_of_succ_le hk)
    have hcached : ∀ j, j < k + 1 →
        (st.CachedLocationAndNormal ++ [r])[j]? = IsInside.Edge M Points q j := by
      intro j hj
      rcases Nat.lt_succ_iff_lt_or_eq.mp hj with hlt | heq
      · rw [List.getElem?_append_left (by rw [inv.length_eq]; exact hlt)]
        exact inv.cached j hlt
      · subst heq
        rw [List.getElem?_append_right (by rw [inv.length_eq]), inv.length_eq, hr]
        simp
    rw [List.range_succ, List.foldlM_append, hst]
    simp only [Option.bind_eq_bind, Option.some_bind, List.foldlM_cons, List.foldlM_nil,
      IsInside.Body, hr, Option.pure_def]
    by_cases hd : FVector.DistSquared r.1 q < st.ClosestLocationDistance
    · rw [if_pos hd]
      refine ⟨_, rfl, ⟨by simp [inv.length_eq], hcached, ?_, ?_, ?_, ?_⟩⟩
      · exact le_trans (le_of_lt hd) inv.le_max
      · intro _; exact ⟨Nat.lt_succ_self k, r, hr, rfl⟩
      · intro h
        exact absurd (lt_of_lt_of_le hd inv.le_max) (by simpa using h.ge)
      · intro j hj r' hr'
        rcases Nat.lt_succ_iff_lt_or_eq.mp hj with hlt | heq
        · exact le_trans (le_of_lt hd) (inv.least j hlt r' hr')
        · subst heq
          rw [hr] at hr'
          cases hr'
          exact le_refl _
    · rw [if_neg hd]
      refine ⟨_, rfl, ⟨by simp [inv.length_eq], hcached, inv.le_max, ?_, inv.untouched, ?_⟩⟩
      · intro h
        obtain ⟨h1, h2⟩ := inv.found h
        exact ⟨Nat.lt_succ_of_lt h1, h2⟩
      · intro j hj r' hr'
        rcases Nat.lt_succ_iff_lt_or_eq.mp hj with hlt | heq
        · exact inv.least j hlt r' hr'
        · subst heq
          rw [hr] at hr'
          cases hr'
          exact not_lt.mp hd

/-- The closest location computed for one segment is a point of the segment, and no point
of the segment is closer to the query. -/
theorem Edge_nearest (M : FMath) (Points : List FVector) (q : FVector) (j : ℕ)
    (r : FVector × FVector) (S E : FVector) (hj : j < Points.length)
    (hr : IsInside.Edge M Points q j = some r) (hS : Points[j]? = some S)
    (hE : Points[(j + 1) % Points.length]? = some E) :
    (∃ t : ℚ, 0 ≤ t ∧ t ≤ 1 ∧ r.1 = S + (E - S) * t) ∧
    ∀ t : ℚ, 0 ≤ t → t ≤ 1 →
      FVector.DistSquared r.1 q ≤ FVector.DistSquared (S + (E - S) * t) q := by
  obtain ⟨S', E', Pv, Nx, hS', hE', -, -, hedge⟩ := Edge_spec M Points q j hj
  rw [hS] at hS'; rw [hE] at hE'
  cases hS'; cases hE'
  rw [hr] at hedge
  have hr' := Option.some.inj hedge
  clear hedge hr
  obtain ⟨sx, sy, sz⟩ := S
  obtain ⟨ex, ey, ez⟩ := E
  obtain ⟨qx, qy, qz⟩ := q
  simp only [FVector.sub_def, FVector.Dot, FVector.add_def, FVector.mul_def] at hr' ⊢
  by_cases h1 : (qx - sx) * (ex - sx) + (qy - sy) * (ey - sy) + (qz - sz) * (ez - sz) ≤ 0
  · rw [if_pos h1] at hr'
    subst hr'
    refine ⟨⟨0, le_refl _, zero_le_one, by simp⟩, ?_⟩
    intro t ht0 ht1
    simp only [FVector.DistSquared]
    linarith [mul_nonneg ht0 (neg_nonneg.mpr h1), sq_nonneg (t * (ex - sx)),
      sq_nonneg (t * (ey - sy)), sq_nonneg (t * (ez - sz))]
  · rw [if_neg h1] at hr'
    have h1' := not_le.mp h1
    by_cases h2 : (ex - sx) * (ex - sx) + (ey - sy) * (ey - sy) + (ez - sz) * (ez - sz)
        ≤ (qx - sx) * (ex - sx) + (qy - sy) * (ey - sy) + (qz - sz) * (ez - sz)
    · rw [if_pos h2] at hr'
      subst hr'
      refine ⟨⟨1, zero_le_one, le_refl _, by simp⟩, ?_⟩
      intro t ht0 ht1
      simp only [FVector.DistSquared]
      have hd2 : 0 ≤ (ex - sx) * (ex - sx) + (ey - sy) * (ey - sy) + (ez - sz) * (ez - sz) :=
        add_nonneg (add_nonneg (mul_self_nonneg _) (mul_self_nonneg _)) (mul_self_nonneg _)
      linarith [mul_nonneg (sub_nonneg.mpr ht1) (sub_nonneg.mpr h2),
        mul_nonneg (sub_nonneg.mpr ht1) (mul_nonneg (sub_nonneg.mpr ht1) hd2)]
    · rw [if_neg h2] at hr'
      have h2' := not_le.mp h2
      subst hr'
      have hd2 : 0 < (ex - sx) * (ex - sx) + (ey - sy) * (ey - sy) + (ez - sz) * (ez - sz) :=
        lt_trans h1' h2'
      obtain ⟨t0, ht0def⟩ : ∃ t0 : ℚ,
          t0 = ((qx - sx) * (ex - sx) + (qy - sy) * (ey - sy) + (qz - sz) * (ez - sz)) /
            ((ex - sx) * (ex - sx) + (ey - sy) * (ey - sy) + (ez - sz) * (ez - sz)) :=
        ⟨_, rfl⟩
      have key : t0 * ((ex - sx) * (ex - sx) + (ey - sy) * (ey - sy) + (ez - sz) * (ez - sz))
          = (qx - sx) * (ex - sx) + (qy - sy) * (ey - sy) + (qz - sz) * (ez - sz) := by
        rw [ht0def]; field_simp
      rw [← ht0def]
      refine ⟨⟨t0, ?_, ?_, rfl⟩, ?_⟩
      · rw [ht0def]; exact le_of_lt (div_pos h1' hd2)
      · rw [ht0def]; exact le_of_lt ((div_lt_one hd2).mpr h2')
      · intro t _ _
        simp only [FVector.DistSquared]
        have hsq := mul_nonneg (le_of_lt hd2) (sq_nonneg (t - t0))
        have hid : ((qx - (sx + (ex - sx) * t)) * (qx - (sx + (ex - sx) * t))
            + (qy - (sy + (ey - sy) * t)) * (qy - (sy + (ey - sy) * t))
            + (qz - (sz + (ez - sz) * t)) * (qz - (sz + (ez - sz) * t)))
            - ((qx - (sx + (ex - sx) * t0)) * (qx - (sx + (ex - sx) * t0))
            + (qy - (sy + (ey - sy) * t0)) * (qy - (sy + (ey - sy) * t0))
            + (qz - (sz + (ez - sz) * t0)) * (qz - (sz + (ez - sz) * t0)))
            = ((ex - sx) * (ex - sx) + (ey - sy) * (ey - sy) + (ez - sz) * (ez - sz))
              * (t - t0) ^ 2 := by
          linear_combination (2 * (t - t0)) * key
        linarith

/-- With at least one point the query runs to its end: the loop ends in a state that
satisfies the invariant, the selected index is inside the cache, and the result is
computed from the tuple cached there. -/
theorem IsInside_spec (M : FMath) (A : AVolumetricAudioSource) (Location : FVector)
    (hn : 0 < A.Spline.Points.length) :
    ∃ st c,
      IsInside.Loop M A.Spline.Points
        (A.Spline.ComponentToWorld.InverseTransformPosition Location) = some st ∧
      LoopInv M A.Spline.Points (A.Spline.ComponentToWorld.InverseTransformPosition Location)
        A.Spline.Points.length st ∧
      st.ClosestLocationIndex < A.Spline.Points.length ∧
      st.CachedLocationAndNormal[st.ClosestLocationIndex]? = some c ∧
      IsInside.Edge M A.Spline.Points
        (A.Spline.ComponentToWorld.InverseTransformPosition Location)
        st.ClosestLocationIndex = some c ∧
      IsInside M A Location = some (IsInside.Result A Location c) := by
  obtain ⟨st, hst, inv⟩ := Loop_invariant M A.Spline.Points
    (A.Spline.ComponentToWorld.InverseTransformPosition Location) _ (le_refl _)
  have hidx : st.ClosestLocationIndex < A.Spline.Points.length := by
    rcases lt_or_eq_of_le inv.le_max with h | h
    · exact (inv.found h).1
    · rw [inv.untouched h]; exact hn
  obtain ⟨c, hc⟩ := Edge_isSome M A.Spline.Points
    (A.Spline.ComponentToWorld.InverseTransformPosition Location) _ hidx
  have hcached := inv.cached _ hidx
  rw [hc] at hcached
  have hloop : IsInside.Loop M A.Spline.Points
      (A.Spline.ComponentToWorld.InverseTransformPosition Location) = some st := hst
  refine ⟨st, c, hloop, inv, hidx, hcached, hc, ?_⟩
  unfold IsInside
  simp only [hloop, hcached, Option.bind_eq_bind, Option.some_bind, Option.pure_def]

/-! ## The default square -/

/-- Model of `GetSafeNormal` scales its argument by a factor that is positive when the squared
length reaches the tolerance and the inverse square root is positive there. -/
theorem GetSafeNormal_scale (M : FMath) (a : FVector) :
    ∃ κ : ℚ, a.GetSafeNormal M = a * κ ∧
      (SMALL_NUMBER ≤ a.SizeSquared → 0 < M.InvSqrt a.SizeSquared → 0 < κ) ∧
      (0 ≤ M.InvSqrt a.SizeSquared → 0 ≤ κ) := by
  unfold FVector.GetSafeNormal FVector.SizeSquared
  by_cases h1 : a.X * a.X + a.Y * a.Y + a.Z * a.Z = 1
  · refine ⟨1, ?_, fun _ _ => one_pos, fun _ => zero_le_one⟩
    simp [h1]
  · by_cases h2 : a.X * a.X + a.Y * a.Y + a.Z * a.Z < SMALL_NUMBER
    · refine ⟨0, ?_, fun h _ => absurd h2 (not_lt.mpr h), fun _ => le_refl _⟩
      simp [h1, h2, FVector.ZeroVector]
    · refine ⟨M.InvSqrt (a.X * a.X + a.Y * a.Y + a.Z * a.Z), ?_, fun _ h => h, fun h => h⟩
      simp [h1, h2]

/-- The tuple cached when the projection falls strictly inside the segment. -/
theorem Edge_interior (M : FMath) (Points : List FVector) (q : FVector) (Idx : ℕ)
    (S E : FVector) (hS : Points[Idx]? = some S)
    (hE : Points[(Idx + 1) % Points.length]? = some E)
    (h1 : 0 < FVector.Dot (q - S) (E - S))
    (h2 : FVector.Dot (q - S) (E - S) < FVector.Dot (E - S) (E - S)) :
    IsInside.Edge M Points q Idx = some
      (S + (E - S) * (FVector.Dot (q - S) (E - S) / FVector.Dot (E - S) (E - S)),
        FVector.CrossProduct ((S - E).GetSafeNormal M) FVector.UpVector) := by
  unfold IsInside.Edge
  simp only [hS, hE, Option.bind_eq_bind, Option.some_bind, Option.pure_def,
    if_neg (not_le.mpr h1), if_neg (not_le.mpr h2), FDiv_pos _ _ (lt_trans h1 h2)]

/-- The identity transform leaves positions unchanged, in both directions. -/
theorem Identity_transform (V : FVector) :
    FTransform.Identity.TransformPosition V = V ∧
      FTransform.Identity.InverseTransformPosition V = V := by
  obtain ⟨x, y, z⟩ := V
  constructor
  · simp [FTransform.TransformPosition, FTransform.Identity, FQuat.Identity,
      FQuat.RotateVector, FVector.Scale, FVector.CrossProduct]
  · have h : ¬ (1 : ℚ) ≤ SMALL_NUMBER := by norm_num [SMALL_NUMBER]
    simp [FTransform.InverseTransformPosition, FTransform.Identity, FQuat.Identity,
      FQuat.UnrotateVector, FVector.Scale, FVector.CrossProduct, SafeReciprocal, h]

/-- On the default square every segment caches, for a query on the vertical axis through
the centre, the middle of the segment and a normal that points away from the centre. -/
theorem Edge_default_square_axis (M : FMath) (H z : ℚ) (hH : 0 < H)
    (hTol : SMALL_NUMBER ≤ 4 * H * H) (hInv : 0 < M.InvSqrt (4 * H * H))
    (i : ℕ) (hi : i < 4) (c : FVector × FVector)
    (hc : IsInside.Edge M (DefaultSpline H).Points ⟨0, 0, z⟩ i = some c) :
    c.1.X * c.1.X + c.1.Y * c.1.Y = H * H ∧ c.1.Z = 0 ∧ c.2.Z = 0 ∧
      0 < c.1.X * c.2.X + c.1.Y * c.2.Y := by
  have hHH : 0 < H * H := mul_pos hH hH
  have hne : (4 : ℚ) * H * H ≠ 0 := by positivity
  have key : ∀ (S E : FVector), (DefaultSpline H).Points[i]? = some S →
      (DefaultSpline H).Points[(i + 1) % (DefaultSpline H).Points.length]? = some E →
      FVector.Dot ((⟨0, 0, z⟩ : FVector) - S) (E - S) = 2 * H * H →
      FVector.Dot (E - S) (E - S) = 4 * H * H →
      c = (S + (E - S) * ((1 : ℚ) / 2),
        FVector.CrossProduct ((S - E).GetSafeNormal M) FVector.UpVector) := by
    intro S E hS hE hd1 hd2
    have h := Edge_interior M (DefaultSpline H).Points ⟨0, 0, z⟩ i S E hS hE
      (by rw [hd1]; linarith) (by rw [hd1, hd2]; linarith)
    rw [hc, hd1, hd2] at h
    have hhalf : 2 * H * H / (4 * H * H) = (1 : ℚ) / 2 := by
      field_simp; ring
    rw [hhalf] at h
    exact Option.some.inj h
  have norm : ∀ a : FVector, a.SizeSquared = 4 * H * H →
      ∃ κ : ℚ, 0 < κ ∧ a.GetSafeNormal M = a * κ := by
    intro a ha
    obtain ⟨κ, h1, h2, -⟩ := GetSafeNormal_scale M a
    exact ⟨κ, h2 (by rw [ha]; exact hTol) (by rw [ha]; exact hInv), h1⟩
  interval_cases i
  · have h := key ⟨H, H, 0⟩ ⟨H, -H, 0⟩ rfl rfl (by simp [FVector.Dot]; ring)
      (by simp [FVector.Dot]; ring)
    obtain ⟨κ, hκ, hn⟩ := norm ((⟨H, H, 0⟩ : FVector) - ⟨H, -H, 0⟩)
      (by simp [FVector.SizeSquared]; ring)
    rw [hn] at h
    subst h
    simp [FVector.CrossProduct, FVector.UpVector]
    refine ⟨by ring, by positivity⟩
  · have h := key ⟨H, -H, 0⟩ ⟨-H, -H, 0⟩ rfl rfl (by simp [FVector.Dot]; ring)
      (by simp [FVector.Dot]; ring)
    obtain ⟨κ, hκ, hn⟩ := norm ((⟨H, -H, 0⟩ : FVector) - ⟨-H, -H, 0⟩)
      (by simp [FVector.SizeSquared]; ring)
    rw [hn] at h
    subst h
    simp [FVector.CrossProduct, FVector.UpVector]
    refine ⟨by ring, by linarith [mul_pos hHH hκ]⟩
  · have h := key ⟨-H, -H, 0⟩ ⟨-H, H, 0⟩ rfl rfl (by simp [FVector.Dot]; ring)
      (by simp [FVector.Dot]; ring)
    obtain ⟨κ, hκ, hn⟩ := norm ((⟨-H, -H, 0⟩ : FVector) - ⟨-H, H, 0⟩)
      (by simp [FVector.SizeSquared]; ring)
    rw [hn] at h
    subst h
    simp [FVector.CrossProduct, FVector.UpVector]
    refine ⟨by ring, by linarith [mul_pos hHH hκ]⟩
  · have h := key ⟨-H, H, 0⟩ ⟨H, H, 0⟩ rfl (by simp [DefaultSpline]) (by simp [FVector.Dot]; ring)
      (by simp [FVector.Dot]; ring)
    obtain ⟨κ, hκ, hn⟩ := norm ((⟨-H, H, 0⟩ : FVector) - ⟨H, H, 0⟩)
      (by simp [FVector.SizeSquared]; ring)
    rw [hn] at h
    subst h
    simp [FVector.CrossProduct, FVector.UpVector]
    refine ⟨by ring, by linarith [mul_pos hHH hκ]⟩

/-- The query on the default square for a location on the vertical axis through the
centre: the flag is true exactly in the band of the prism, the returned location is the
query location with its height snapped to the band, and the location cached by the loop
is the middle of a side. -/
theorem IsInside_default_square_axis (M : FMath) (A : AVolumetricAudioSource) (H z : ℚ)
    (hH : 0 < H) (hSpline : A.Spline = DefaultSpline H)
    (hTol : SMALL_NUMBER ≤ 4 * H * H) (hInv : 0 < M.InvSqrt (4 * H * H)) :
    ∃ st c, IsInside.Loop M A.Spline.Points ⟨0, 0, z⟩ = some st ∧
      st.CachedLocationAndNormal[st.ClosestLocationIndex]? = some c ∧
      c.1.X * c.1.X + c.1.Y * c.1.Y = H * H ∧ c.1.Z = 0 ∧
      IsInside M A ⟨0, 0, z⟩ = some
        (if z < 0 then (false, ⟨0, 0, 0⟩)
         else if z > A.MaxHeight then (false, ⟨0, 0, A.MaxHeight⟩)
         else (true, ⟨0, 0, z⟩)) := by
  have hn : 0 < A.Spline.Points.length := by rw [hSpline]; simp [DefaultSpline]
  obtain ⟨st, c, hloop, -, hidx, hcached, hedge, hres⟩ := IsInside_spec M A ⟨0, 0, z⟩ hn
  have hT : A.Spline.ComponentToWorld = FTransform.Identity := by rw [hSpline]; rfl
  rw [hT, (Identity_transform _).2] at hloop hedge
  have hlen : A.Spline.Points.length = 4 := by rw [hSpline]; rfl
  rw [hlen] at hidx
  have hedge' := hedge
  rw [hSpline] at hedge'
  obtain ⟨h1, h2, h3, h4⟩ := Edge_default_square_axis M H z hH hTol hInv _ hidx c hedge'
  refine ⟨st, c, hloop, hcached, h1, h2, ?_⟩
  rw [hres]
  congr 1
  unfold IsInside.Result
  rw [hT, (Identity_transform _).1]
  have hmin : A.Spline.Bounds.GetBox.Min.Z = 0 := by
    rw [hSpline]; simp [DefaultSpline, FBoxSphereBounds.GetBox]
  have hmax : A.Spline.Bounds.GetBox.Max.Z = 0 := by
    rw [hSpline]; simp [DefaultSpline, FBoxSphereBounds.GetBox]
  dsimp only
  rw [hmin, hmax]
  have hdot : ∀ w : ℚ, FVector.Dot ((⟨0, 0, z⟩ : FVector) - ⟨c.1.X, c.1.Y, w⟩) c.2 < 0 := by
    intro w
    simp only [FVector.Dot, FVector.sub_def, h3]
    linarith
  by_cases hz1 : z < 0
  · simp only [if_pos hz1, hdot, if_true, Bool.not_true]
  · by_cases hz2 : z > 0 + A.MaxHeight
    · have hz2' : z > A.MaxHeight := by linarith
      simp only [if_neg hz1, if_pos hz2, if_pos hz2', hdot, if_true, Bool.not_true, zero_add]
    · have hz2' : ¬ z > A.MaxHeight := by intro h; exact hz2 (by linarith)
      simp only [if_neg hz1, if_neg hz2, if_neg hz2', hdot, if_true, Bool.not_false]

/-- The reference inverse square root at the squared side of the default square. -/
theorem RationalMath_InvSqrt_160000 : RationalMath.InvSqrt 160000 = 1 / 400 := by
  have h : Nat.sqrt 160000 = 400 := Nat.sqrt_eq 400
  simp [RationalMath, h]

/-- The default square meets the side conditions of the lemmas on the default square. -/
theorem DefaultActor_conditions :
    (0 : ℚ) < 200 ∧ DefaultActor.Spline = DefaultSpline 200 ∧
      SMALL_NUMBER ≤ 4 * 200 * 200 ∧ 0 < RationalMath.InvSqrt (4 * 200 * 200) := by
  refine ⟨by norm_num, ?_, by norm_num [SMALL_NUMBER], ?_⟩
  · simp only [DefaultActor, AVolumetricAudioSource.Construct, DefaultSettings]
    norm_num
  · have h : (4 : ℚ) * 200 * 200 = 160000 := by norm_num
    rw [h, RationalMath_InvSqrt_160000]
    norm_num

/-! ## The tick -/

/-- The index drawn for the random SFX is inside the catalog. -/
theorem RandRange_index (M : FMath) (RAND_MAX Rand n : ℕ) (hn : 0 < n) :
    0 ≤ RandRange M (FRand M RAND_MAX Rand) 0 ((n : ℤ) - 1) ∧
      (RandRange M (FRand M RAND_MAX Rand) 0 ((n : ℤ) - 1)).toNat < n := by
  unfold RandRange
  have hR : (0 : ℤ) < (n : ℤ) - 1 - 0 + 1 := by omega
  simp only [if_pos hR, zero_add]
  have hf : (0 : ℚ) ≤ FRand M RAND_MAX Rand := by
    unfold FRand
    exact M.Round_nonneg _ (by positivity)
  have hfl : (0 : ℤ)
      ≤ ⌊M.Round (FRand M RAND_MAX Rand * (((n : ℤ) - 1 - 0 + 1 : ℤ) : ℚ))⌋ := by
    apply Int.floor_nonneg.mpr
    apply M.Round_nonneg
    apply mul_nonneg hf
    exact_mod_cast le_of_lt hR
  constructor
  · exact le_min hfl (by omega)
  · have h2 : min ⌊M.Round (FRand M RAND_MAX Rand * (((n : ℤ) - 1 - 0 + 1 : ℤ) : ℚ))⌋
        ((n : ℤ) - 1 - 0 + 1 - 1)
        ≤ (n : ℤ) - 1 := le_trans (min_le_right _ _) (by omega)
    have h3 := le_min hfl (show (0 : ℤ) ≤ (n : ℤ) - 1 - 0 + 1 - 1 by omega)
    omega

/-- The random SFX block always runs to its end; it touches only the countdown and issues
nothing but one-shot sounds. -/
theorem UpdateRandomSFX_spec (M : FMath) (ctx : FTickContext) (A : AVolumetricAudioSource)
    (DeltaTime : ℚ) (ClosestLocation : FVector) :
    ∃ A1 cmds,
      TickActor.UpdateRandomSFX M ctx A DeltaTime ClosestLocation = some (A1, cmds) ∧
      A1.AudioComponent = A.AudioComponent ∧ A1.TickInterval = A.TickInterval ∧
      A1.MaxDistance = A.MaxDistance ∧
      ∀ cmd ∈ cmds, ∃ s l, cmd = FAudioCommand.PlaySoundAtLocation s l := by
  unfold TickActor.UpdateRandomSFX
  by_cases hn : 0 < A.RandomSFX.length
  · rw [if_pos hn]
    by_cases hd : M.Round (A.CurrentDelay - DeltaTime) ≤ 0
    · simp only [if_pos hd]
      obtain ⟨h0, h1⟩ := RandRange_index M ctx.RAND_MAX ctx.Rand.Index A.RandomSFX.length hn
      rw [if_neg (not_lt.mpr h0), List.getElem?_eq_getElem h1]
      cases A.RandomSFX[(RandRange M (FRand M ctx.RAND_MAX ctx.Rand.Index) 0
          ((A.RandomSFX.length : ℤ) - 1)).toNat] with
      | none => exact ⟨_, _, rfl, rfl, rfl, rfl, by simp⟩
      | some SFX =>
        refine ⟨_, _, rfl, rfl, rfl, rfl, ?_⟩
        intro cmd hcmd
        simp only [List.mem_singleton] at hcmd
        exact ⟨_, _, hcmd⟩
    · simp only [if_neg hd]
      exact ⟨_, _, rfl, rfl, rfl, rfl, by simp⟩
  · rw [if_neg hn]
    exact ⟨_, _, rfl, rfl, rfl, rfl, by simp⟩

/-- The tick interval after the visualisation block when the play branch has reset it. -/
theorem Visualization_zero (ctx : FTickContext) (A : AVolumetricAudioSource)
    (h : A.TickInterval = 0) : (TickActor.Visualization ctx A).TickInterval = 0 ∧
      (TickActor.Visualization ctx A).AudioComponent = A.AudioComponent := by
  unfold TickActor.Visualization
  split_ifs
  · exact ⟨rfl, rfl⟩
  · exact ⟨h, rfl⟩

/-- The visualisation block does nothing when it is compiled out or switched off. -/
theorem Visualization_off (ctx : FTickContext) (A : AVolumetricAudioSource)
    (h : ctx.UE_BUILD_SHIPPING = true ∨ ctx.Visualize = 0) :
    TickActor.Visualization ctx A = A := by
  unfold TickActor.Visualization
  rcases h with h | h
  · simp [h]
  · simp [h]

/-- A game tick in which the decision block decides to play. -/
theorem TickActor_play (M : FMath) (PluginSettings : UVolumeAudioSourceSettings)
    (ctx : FTickContext) (A : AVolumetricAudioSource) (DeltaTime : ℚ) (TickType : ELevelTick)
    (r : Bool × FVector) (Target : FVector)
    (hGame : ¬ TickActor.IsEditModeTick ctx TickType)
    (hr : IsInside M A (TickActor.AudioListenerLocation ctx.World) = some r)
    (hd1 : (TickActor.Decide M PluginSettings A
      (TickActor.AudioListenerLocation ctx.World) r).1 = true)
    (hd2 : (TickActor.Decide M PluginSettings A
      (TickActor.AudioListenerLocation ctx.World) r).2.1 = Target) :
    ∃ A1 cmds, TickActor M PluginSettings ctx A DeltaTime TickType = some (A1, cmds) ∧
      A1.TickInterval = 0 ∧
      (∀ ac, A.AudioComponent = some ac →
        A1.AudioComponent = some { ac with WorldLocation := Target, bIsPlaying := true } ∧
        (FAudioCommand.Play ∈ cmds ↔ ac.bIsPlaying = false) ∧
        FAudioCommand.SetWorldLocation Target ∈ cmds) ∧
      (A.AudioComponent = none → A1.AudioComponent = none) ∧
      FAudioCommand.Stop ∉ cmds := by
  unfold TickActor
  simp only [if_neg hGame, hr, Option.bind_eq_bind, Option.some_bind, hd1, if_true, hd2]
  obtain ⟨A2, cmds2, h2, hac, hti, -, hcm⟩ := UpdateRandomSFX_spec M ctx
    (TickActor.PlayLoop { A with TickInterval := 0 } Target).1 DeltaTime Target
  simp only [h2, Option.some_bind, Option.pure_def]
  refine ⟨_, _, rfl, ?_, ?_, ?_, ?_⟩
  · apply (Visualization_zero ctx A2 _).1
    rw [hti]
    unfold TickActor.PlayLoop
    cases A.AudioComponent with
    | none => rfl
    | some ac => dsimp only; split_ifs <;> rfl
  · intro ac hA
    have hnp : ∀ cmd ∈ cmds2, cmd ≠ FAudioCommand.Play ∧
        cmd ≠ FAudioCommand.SetWorldLocation Target := by
      intro cmd h
      obtain ⟨s, l, e⟩ := hcm cmd h
      subst e
      exact ⟨by simp, by simp⟩
    rw [(Visualization_zero ctx A2 (by
      rw [hti]; unfold TickActor.PlayLoop; rw [hA]; dsimp only; split_ifs <;> rfl)).2, hac]
    have hnPlay : FAudioCommand.Play ∉ cmds2 := fun h => (hnp _ h).1 rfl
    obtain ⟨snd, loc, pl⟩ := ac
    cases pl with
    | true => simp [TickActor.PlayLoop, hA, hnPlay]
    | false => simp [TickActor.PlayLoop, hA]
  · intro hA
    rw [(Visualization_zero ctx A2 (by
      rw [hti]; unfold TickActor.PlayLoop; rw [hA])).2, hac]
    unfold TickActor.PlayLoop
    rw [hA]
  · intro hmem
    rcases List.mem_append.mp hmem with h | h
    · unfold TickActor.PlayLoop at h
      cases hA : A.AudioComponent with
      | none => rw [hA] at h; simp at h
      | some ac =>
        rw [hA] at h
        dsimp only at h
        split_ifs at h <;> simp at h
    · obtain ⟨s, l, e⟩ := hcm _ h
      exact absurd e (by simp)

/-- A game tick in which the decision block decides not to play. -/
theorem TickActor_stop (M : FMath) (PluginSettings : UVolumeAudioSourceSettings)
    (ctx : FTickContext) (A : AVolumetricAudioSource) (DeltaTime : ℚ) (TickType : ELevelTick)
    (r : Bool × FVector) (Interval : ℚ)
    (hGame : ¬ TickActor.IsEditModeTick ctx TickType)
    (hr : IsInside M A (TickActor.AudioListenerLocation ctx.World) = some r)
    (hd1 : (TickActor.Decide M PluginSettings A
      (TickActor.AudioListenerLocation ctx.World) r).1 = false)
    (hd2 : (TickActor.Decide M PluginSettings A
      (TickActor.AudioListenerLocation ctx.World) r).2.2 = Interval) :
    ∃ A1 cmds, TickActor M PluginSettings ctx A DeltaTime TickType = some (A1, cmds) ∧
      (ctx.UE_BUILD_SHIPPING = true ∨ ctx.Visualize = 0 → A1.TickInterval = Interval) ∧
      (∀ ac, A.AudioComponent = some ac →
        A1.AudioComponent = some { ac with bIsPlaying := false } ∧
        cmds = if ac.bIsPlaying then [FAudioCommand.Stop] else []) ∧
      (A.AudioComponent = none → A1.AudioComponent = none ∧ cmds = []) ∧
      FAudioCommand.Play ∉ cmds := by
  unfold TickActor
  simp only [if_neg hGame, hr, Option.bind_eq_bind, Option.some_bind, hd1, hd2,
    Bool.false_eq_true, if_false, Option.pure_def]
  have hvis : ∀ B : AVolumetricAudioSource,
      (TickActor.Visualization ctx B).AudioComponent = B.AudioComponent := by
    intro B; unfold TickActor.Visualization; split_ifs <;> rfl
  refine ⟨_, _, rfl, ?_, ?_, ?_, ?_⟩
  · intro hv
    rw [Visualization_off ctx _ hv]
    unfold TickActor.StopLoop
    cases A.AudioComponent with
    | none => rfl
    | some ac => dsimp only; split_ifs <;> rfl
  · intro ac hA
    rw [hvis]
    obtain ⟨snd, loc, pl⟩ := ac
    cases pl <;> simp [TickActor.StopLoop, hA]
  · intro hA
    rw [hvis]
    simp [TickActor.StopLoop, hA]
  · unfold TickActor.StopLoop
    cases A.AudioComponent with
    | none => simp
    | some ac => dsimp only; split_ifs <;> simp

/-- A query that returns a result ran on a polygon with at least one point. -/
theorem IsInside_some_pos (M : FMath) (A : AVolumetricAudioSource) (Location : FVector)
    (r : Bool × FVector) (h : IsInside M A Location = some r) :
    0 < A.Spline.Points.length := by
  by_contra hn
  have h0 : A.Spline.Points = [] := List.length_eq_zero.mp (by omega)
  unfold IsInside at h
  rw [h0] at h
  simp [IsInside.Loop, IsInside.Init] at h

/-- The closest location returned together with a false flag: its height is the height
of the query snapped to the band of the prism; horizontally it is the query itself when the
dot product test succeeds, which then happens above or below the band only, and the
closest location kept by the loop, taken to world space, when the test fails. -/
theorem IsInside_false_location (M : FMath) (A : AVolumetricAudioSource)
    (Location c : FVector) (h : IsInside M A Location = some (false, c)) :
    ∃ st cl,
      IsInside.Loop M A.Spline.Points
        (A.Spline.ComponentToWorld.InverseTransformPosition Location) = some st ∧
      st.CachedLocationAndNormal[st.ClosestLocationIndex]? = some cl ∧
      c.Z = (if Location.Z < A.Spline.Bounds.GetBox.Min.Z then A.Spline.Bounds.GetBox.Min.Z
        else if Location.Z > A.Spline.Bounds.GetBox.Max.Z + A.MaxHeight
          then A.Spline.Bounds.GetBox.Max.Z + A.MaxHeight
        else Location.Z) ∧
      (FVector.Dot (Location - ⟨(A.Spline.ComponentToWorld.TransformPosition cl.1).X,
          (A.Spline.ComponentToWorld.TransformPosition cl.1).Y, c.Z⟩) cl.2 < 0 →
        c.X = Location.X ∧ c.Y = Location.Y ∧
          (Location.Z < A.Spline.Bounds.GetBox.Min.Z ∨
            Location.Z > A.Spline.Bounds.GetBox.Max.Z + A.MaxHeight)) ∧
      (¬ FVector.Dot (Location - ⟨(A.Spline.ComponentToWorld.TransformPosition cl.1).X,
          (A.Spline.ComponentToWorld.TransformPosition cl.1).Y, c.Z⟩) cl.2 < 0 →
        c.X = (A.Spline.ComponentToWorld.TransformPosition cl.1).X ∧
          c.Y = (A.Spline.ComponentToWorld.TransformPosition cl.1).Y) := by
  obtain ⟨st, cl, hloop, -, -, hcached, -, hres⟩ :=
    IsInside_spec M A Location (IsInside_some_pos M A Location _ h)
  refine ⟨st, cl, hloop, hcached, ?_⟩
  rw [hres] at h
  have h' := Option.some.inj h
  unfold IsInside.Result at h'
  dsimp only at h'
  by_cases h1 : Location.Z < A.Spline.Bounds.GetBox.Min.Z
  · simp only [if_pos h1] at h' ⊢
    split_ifs at h' with hdot
    · have e := congrArg Prod.snd h'
      dsimp only at e
      subst e
      exact ⟨rfl, fun _ => ⟨rfl, rfl, Or.inl h1⟩, fun hn => absurd hdot hn⟩
    · have e := congrArg Prod.snd h'
      dsimp only at e
      subst e
      exact ⟨rfl, fun ht => absurd ht hdot, fun _ => ⟨rfl, rfl⟩⟩
  · by_cases h2 : Location.Z > A.Spline.Bounds.GetBox.Max.Z + A.MaxHeight
    · simp only [if_neg h1, if_pos h2] at h' ⊢
      split_ifs at h' with hdot
      · have e := congrArg Prod.snd h'
        dsimp only at e
        subst e
        exact ⟨rfl, fun _ => ⟨rfl, rfl, Or.inr h2⟩, fun hn => absurd hdot hn⟩
      · have e := congrArg Prod.snd h'
        dsimp only at e
        subst e
        exact ⟨rfl, fun ht => absurd ht hdot, fun _ => ⟨rfl, rfl⟩⟩
    · simp only [if_neg h1, if_neg h2] at h' ⊢
      split_ifs at h' with hdot
      · have e := congrArg Prod.fst h'
        simp at e
      · have e := congrArg Prod.snd h'
        dsimp only at e
        subst e
        exact ⟨rfl, fun ht => absurd ht hdot, fun _ => ⟨rfl, rfl⟩⟩

/-- The decision block when the query returns true. -/
theorem Decide_inside (M : FMath) (PluginSettings : UVolumeAudioSourceSettings)
    (A : AVolumetricAudioSource) (L c : FVector) :
    TickActor.Decide M PluginSettings A L (true, c) = (true, L, A.TickInterval) := by
  simp [TickActor.Decide]

/-- The decision block when the query returns false within the audible radius. -/
theorem Decide_in_range (M : FMath) (PluginSettings : UVolumeAudioSourceSettings)
    (A : AVolumetricAudioSource) (L c : FVector)
    (h : (L - c).SizeSquared ≤ A.MaxDistance * A.MaxDistance) :
    TickActor.Decide M PluginSettings A L (false, c) = (true, c, A.TickInterval) := by
  unfold TickActor.Decide
  simp only [Bool.false_eq_true, if_false, if_pos h]

/-- The decision block when the query returns false beyond both thresholds. -/
theorem Decide_far (M : FMath) (PluginSettings : UVolumeAudioSourceSettings)
    (A : AVolumetricAudioSource) (L c : FVector)
    (h1 : A.MaxDistance * A.MaxDistance < (L - c).SizeSquared)
    (h2 : (L - c).SizeSquared
      > A.MaxDistance * A.MaxDistance + PluginSettings.StopPlayingSoundOffset) :
    TickActor.Decide M PluginSettings A L (false, c) = (false, c,
      PluginSettings.DistanceToTickInterval
        (M.Sqrt ((L - c).SizeSquared - A.MaxDistance * A.MaxDistance))) := by
  unfold TickActor.Decide
  simp only [Bool.false_eq_true, if_false, if_neg (not_le.mpr h1), if_pos h2]

/-- The decision block when the query returns false between the two thresholds. -/
theorem Decide_band (M : FMath) (PluginSettings : UVolumeAudioSourceSettings)
    (A : AVolumetricAudioSource) (L c : FVector)
    (h1 : A.MaxDistance * A.MaxDistance < (L - c).SizeSquared)
    (h2 : (L - c).SizeSquared
      ≤ A.MaxDistance * A.MaxDistance + PluginSettings.StopPlayingSoundOffset) :
    TickActor.Decide M PluginSettings A L (false, c) = (false, c, A.TickInterval) := by
  unfold TickActor.Decide
  simp only [Bool.false_eq_true, if_false, if_neg (not_le.mpr h1), if_neg (not_lt.mpr h2)]

/-- The example context is a game tick whose listener is at the given location. -/
theorem GameContext_listener (L : FVector) (TickType : ELevelTick) :
    ¬ TickActor.IsEditModeTick (GameContext L) TickType ∧
      TickActor.AudioListenerLocation (GameContext L).World = L := by
  constructor
  · simp [TickActor.IsEditModeTick, GameContext]
  · simp [TickActor.AudioListenerLocation, GameContext]

/-- The query of the example actor on the vertical axis through the centre. -/
theorem PlayingActor_axis (d z : ℚ) :
    ∃ st c, IsInside.Loop RationalMath (PlayingActor d).Spline.Points ⟨0, 0, z⟩ = some st ∧
      st.CachedLocationAndNormal[st.ClosestLocationIndex]? = some c ∧
      c.1.X * c.1.X + c.1.Y * c.1.Y = 200 * 200 ∧ c.1.Z = 0 ∧
      IsInside RationalMath (PlayingActor d) ⟨0, 0, z⟩ = some
        (if z < 0 then (false, ⟨0, 0, 0⟩)
         else if z > 400 then (false, ⟨0, 0, 400⟩)
         else (true, ⟨0, 0, z⟩)) :=
  IsInside_default_square_axis RationalMath (PlayingActor d) 200 z DefaultActor_conditions.1
    DefaultActor_conditions.2.1 DefaultActor_conditions.2.2.1 DefaultActor_conditions.2.2.2

/-- The listener query of the example tick above the ceiling of the example actor. -/
theorem PlayingActor_above (d z : ℚ) (hz : 400 < z) (TickType : ELevelTick) :
    TickActor.ListenerQuery RationalMath (GameContext ⟨0, 0, z⟩) (PlayingActor d) TickType
      (false, ⟨0, 0, 400⟩) := by
  refine ⟨(GameContext_listener _ TickType).1, ?_⟩
  rw [(GameContext_listener _ TickType).2]
  obtain ⟨-, -, -, -, -, -, h⟩ := PlayingActor_axis d z
  rw [h, if_neg (by linarith), if_pos hz]

/-- The listener query of the example tick at the centre of the example actor. -/
theorem PlayingActor_centre (d : ℚ) (TickType : ELevelTick) :
    TickActor.ListenerQuery RationalMath (GameContext ⟨0, 0, 0⟩) (PlayingActor d) TickType
      (true, ⟨0, 0, 0⟩) := by
  refine ⟨(GameContext_listener _ TickType).1, ?_⟩
  rw [(GameContext_listener _ TickType).2]
  obtain ⟨-, -, -, -, -, -, h⟩ := PlayingActor_axis d 0
  rw [h, if_neg (lt_irrefl _), if_neg (by norm_num)]

/-! ## Reconfiguration -/

/-- The catalog maximum is not negative. -/
theorem CatalogMaxDistance_nonneg (l : List (Option USoundBase)) :
    0 ≤ CatalogMaxDistance l := by
  induction l with
  | nil => exact le_refl _
  | cons a rest ih =>
    cases a with
    | none => exact ih
    | some s => exact le_trans ih (le_max_right _ _)

/-- The catalog maximum bounds every entry and is zero or attained by an entry. -/
theorem CatalogMaxDistance_spec (l : List (Option USoundBase)) :
    (∀ s, some s ∈ l → s.MaxDistance ≤ CatalogMaxDistance l) ∧
      (CatalogMaxDistance l = 0 ∨ ∃ s, some s ∈ l ∧ CatalogMaxDistance l = s.MaxDistance) := by
  induction l with
  | nil => exact ⟨by simp, Or.inl rfl⟩
  | cons a rest ih =>
    cases a with
    | none =>
      refine ⟨?_, ?_⟩
      · intro s hs
        simp only [List.mem_cons] at hs
        rcases hs with h | h
        · exact absurd h (by simp)
        · exact ih.1 s h
      · rcases ih.2 with h | ⟨s, hs, h⟩
        · exact Or.inl h
        · exact Or.inr ⟨s, List.mem_cons_of_mem _ hs, h⟩
    | some s0 =>
      refine ⟨?_, ?_⟩
      · intro s hs
        simp only [List.mem_cons, Option.some.injEq] at hs
        rcases hs with h | h
        · rw [h]; exact le_max_left _ _
        · exact le_trans (ih.1 s h) (le_max_right _ _)
      · rcases le_total (s0.MaxDistance : ℚ) (CatalogMaxDistance rest) with h | h
        · have e : CatalogMaxDistance (some s0 :: rest) = CatalogMaxDistance rest := by
            show max s0.MaxDistance (CatalogMaxDistance rest) = CatalogMaxDistance rest
            exact max_eq_right h
          rcases ih.2 with h0 | ⟨s, hs, h1⟩
          · exact Or.inl (by rw [e, h0])
          · exact Or.inr ⟨s, List.mem_cons_of_mem _ hs, by rw [e, h1]⟩
        · have e : CatalogMaxDistance (some s0 :: rest) = s0.MaxDistance := by
            show max s0.MaxDistance (CatalogMaxDistance rest) = s0.MaxDistance
            exact max_eq_left h
          exact Or.inr ⟨s0, List.mem_cons_self _ _, e⟩

/-- The loop of the lambda computes the maximum of its start value and the catalog. -/
theorem Scan_eq (l : List (Option USoundBase)) (m : ℚ) (hm : 0 ≤ m) :
    UpdateMaxDistance.Scan m l = max m (CatalogMaxDistance l) := by
  induction l generalizing m with
  | nil =>
    show m = max m 0
    exact (max_eq_left hm).symm
  | cons a rest ih =>
    cases a with
    | none =>
      simp only [UpdateMaxDistance.Scan, CatalogMaxDistance]
      exact ih m hm
    | some s =>
      simp only [UpdateMaxDistance.Scan, CatalogMaxDistance]
      by_cases h : s.MaxDistance > m
      · rw [if_pos h, ih _ (le_trans hm (le_of_lt h)), ← max_assoc,
          max_eq_right (le_of_lt h)]
      · rw [if_neg h, ih m hm, ← max_assoc, max_eq_left (not_lt.mp h)]

/-- What the sound configuration demands of MaxDistance and of the audio component. -/
theorem UpdateMaxDistance_spec (A : AVolumetricAudioSource) :
    (UpdateMaxDistance A).SoundLoop = A.SoundLoop ∧
    (UpdateMaxDistance A).RandomSFX = A.RandomSFX ∧
    (UpdateMaxDistance A).AudioComponent = A.AudioComponent ∧
    (∀ s, A.SoundLoop = some s → (UpdateMaxDistance A).MaxDistance = s.MaxDistance) ∧
    (A.SoundLoop = none →
      (UpdateMaxDistance A).MaxDistance = CatalogMaxDistance A.RandomSFX) := by
  cases h : A.SoundLoop with
  | none =>
    have e : UpdateMaxDistance A
        = { A with MaxDistance := UpdateMaxDistance.Scan 0 A.RandomSFX } := by
      simp only [UpdateMaxDistance, h]
    rw [e]
    refine ⟨h, rfl, rfl, fun s hs => absurd hs (by simp), fun _ => ?_⟩
    show UpdateMaxDistance.Scan 0 A.RandomSFX = CatalogMaxDistance A.RandomSFX
    rw [Scan_eq _ _ (le_refl _)]
    exact max_eq_right (CatalogMaxDistance_nonneg _)
  | some s0 =>
    have e : UpdateMaxDistance A = { A with MaxDistance := s0.MaxDistance } := by
      simp only [UpdateMaxDistance, h]
    rw [e]
    refine ⟨h, rfl, rfl, fun s hs => ?_, fun hn => absurd hn (by simp)⟩
    cases hs
    rfl

/-- The state kept by the edit events: an audio component exists exactly when a primary
sound is set, and MaxDistance is the one the configuration demands. -/
theorem Edit_invariant (A : AVolumetricAudioSource) (e : FEditEvent)
    (hac : A.AudioComponent = none ↔ A.SoundLoop = none)
    (hcat : A.SoundLoop = none → A.MaxDistance = CatalogMaxDistance A.RandomSFX) :
    ((e.Apply A).AudioComponent = none ↔ (e.Apply A).SoundLoop = none) ∧
    (∀ s, (e.Apply A).SoundLoop = some s → (e.Apply A).MaxDistance = s.MaxDistance) ∧
    ((e.Apply A).SoundLoop = none →
      (e.Apply A).MaxDistance = CatalogMaxDistance (e.Apply A).RandomSFX) := by
  cases e with
  | SetSoundLoop v =>
    cases v with
    | none =>
      cases hA : A.AudioComponent with
      | none =>
        have hS := hac.mp hA
        have e1 : FEditEvent.Apply A (FEditEvent.SetSoundLoop none) =
            { A with SoundLoop := none } := by
          simp [FEditEvent.Apply, PostEditChangeProperty, hA]
        rw [e1]
        exact ⟨by simp [hA], fun s hs => absurd hs (by simp), fun _ => hcat hS⟩
      | some ac =>
        have e1 : FEditEvent.Apply A (FEditEvent.SetSoundLoop none) =
            UpdateMaxDistance { A with SoundLoop := none, AudioComponent := none } := by
          simp [FEditEvent.Apply, PostEditChangeProperty, hA]
        rw [e1]
        obtain ⟨h1, h2, h3, h4, h5⟩ :=
          UpdateMaxDistance_spec { A with SoundLoop := none, AudioComponent := none }
        rw [h1, h2, h3]
        exact ⟨by simp, h4, h5⟩
    | some s0 =>
      obtain ⟨ac, e1⟩ : ∃ ac, FEditEvent.Apply A (FEditEvent.SetSoundLoop (some s0)) =
          UpdateMaxDistance { A with SoundLoop := some s0, AudioComponent := some ac } := by
        cases hA : A.AudioComponent with
        | none =>
          exact ⟨⟨some s0, A.Spline.ComponentToWorld.Translation, false⟩,
            by simp [FEditEvent.Apply, PostEditChangeProperty, hA]⟩
        | some c =>
          exact ⟨⟨some s0, c.WorldLocation, c.bIsPlaying⟩,
            by simp [FEditEvent.Apply, PostEditChangeProperty, hA]⟩
      rw [e1]
      obtain ⟨h1, h2, h3, h4, h5⟩ :=
        UpdateMaxDistance_spec { A with SoundLoop := some s0, AudioComponent := some ac }
      rw [h1, h2, h3]
      exact ⟨by simp, h4, h5⟩
  | SetRandomSFX v =>
    have e1 : FEditEvent.Apply A (FEditEvent.SetRandomSFX v) =
        UpdateMaxDistance { A with RandomSFX := v } := by
      simp [FEditEvent.Apply, PostEditChangeProperty]
    rw [e1]
    obtain ⟨h1, h2, h3, h4, h5⟩ := UpdateMaxDistance_spec { A with RandomSFX := v }
    rw [h1, h2, h3]
    exact ⟨hac, h4, h5⟩

/-- The invariant of the edit events holds after every sequence of events that starts from
an unconfigured actor. -/
theorem Edit_sequence (A0 : AVolumetricAudioSource) (events : List FEditEvent)
    (h1 : A0.SoundLoop = none) (h2 : A0.AudioComponent = none) (h3 : A0.RandomSFX = [])
    (h4 : A0.MaxDistance = 0) :
    ((events.foldl FEditEvent.Apply A0).AudioComponent = none ↔
      (events.foldl FEditEvent.Apply A0).SoundLoop = none) ∧
    (∀ s, (events.foldl FEditEvent.Apply A0).SoundLoop = some s →
      (events.foldl FEditEvent.Apply A0).MaxDistance = s.MaxDistance) ∧
    ((events.foldl FEditEvent.Apply A0).SoundLoop = none →
      (events.foldl FEditEvent.Apply A0).MaxDistance
        = CatalogMaxDistance (events.foldl FEditEvent.Apply A0).RandomSFX) := by
  induction events using List.reverseRecOn with
  | nil =>
    refine ⟨by simp [h1, h2], fun s hs => ?_, fun _ => ?_⟩
    · simp [h1] at hs
    · simp [h3, h4, CatalogMaxDistance]
  | append_singleton es e ih =>
    rw [List.foldl_append]
    simp only [List.foldl_cons, List.foldl_nil]
    exact Edit_invariant _ e ih.1 ih.2.2

/-- An edit of the primary sound leaves the catalog alone and stores the new sound. -/
theorem SetSoundLoop_fields (A : AVolumetricAudioSource) (v : Option USoundBase) :
    (FEditEvent.Apply A (FEditEvent.SetSoundLoop v)).SoundLoop = v ∧
      (FEditEvent.Apply A (FEditEvent.SetSoundLoop v)).RandomSFX = A.RandomSFX := by
  cases v with
  | none =>
    cases hA : A.AudioComponent with
    | none => simp [FEditEvent.Apply, PostEditChangeProperty, hA]
    | some ac => simp [FEditEvent.Apply, PostEditChangeProperty, hA, UpdateMaxDistance]
  | some s =>
    cases hA : A.AudioComponent with
    | none => simp [FEditEvent.Apply, PostEditChangeProperty, hA, UpdateMaxDistance]
    | some ac => simp [FEditEvent.Apply, PostEditChangeProperty, hA, UpdateMaxDistance]

/-- The reference inverse square root at the squared side lengths of the L-shape. -/
theorem RationalMath_InvSqrt_L :
    RationalMath.InvSqrt 10000 = 1 / 100 ∧ RationalMath.InvSqrt 40000 = 1 / 200 := by
  have h1 : Nat.sqrt 10000 = 100 := Nat.sqrt_eq 100
  have h2 : Nat.sqrt 40000 = 200 := Nat.sqrt_eq 200
  constructor
  · simp [RationalMath, h1]
  · simp [RationalMath, h2]

/-! ## Absent listener and the countdown -/

/-- Without a point the loop does nothing and the read of the cache at index 0 is out of
range. -/
theorem IsInside_no_point (M : FMath) (A : AVolumetricAudioSource) (Location : FVector)
    (h : A.Spline.Points.length = 0) : IsInside M A Location = none := by
  have h0 : A.Spline.Points = [] := List.length_eq_zero.mp h
  unfold IsInside
  rw [h0]
  simp [IsInside.Loop, IsInside.Init]

/-- Without a world, or with player controllers of which none is local, the listener
location of the tick stays the zero vector. -/
theorem AudioListenerLocation_absent (World : Option UWorld)
    (hNo : World = none ∨ ∃ W, World = some W ∧ 0 < W.PlayerControllers.length ∧
      ∀ c, some c ∈ W.PlayerControllers → c.bIsLocalController = false) :
    TickActor.AudioListenerLocation World = FVector.ZeroVector := by
  rcases hNo with h | ⟨W, h, hpos, hall⟩
  · rw [h]; rfl
  · rw [h]
    unfold TickActor.AudioListenerLocation
    simp only [if_pos hpos]
    split
    · rename_i c heq
      have hmem := List.mem_of_find?_eq_some heq
      have hp := List.find?_some heq
      simp only at hp
      rw [hall c hmem] at hp
      exact absurd hp (by simp)
    · rfl

/-- The query of an actor with the default spline at the origin of the world. -/
theorem StoppedActor_origin (d : ℚ) :
    IsInside RationalMath (StoppedActor d) FVector.ZeroVector = some (true, ⟨0, 0, 0⟩) := by
  obtain ⟨-, -, -, -, -, -, h⟩ := IsInside_default_square_axis RationalMath (StoppedActor d)
    200 0 DefaultActor_conditions.1 DefaultActor_conditions.2.1
    DefaultActor_conditions.2.2.1 DefaultActor_conditions.2.2.2
  have hH : ¬ (0 : ℚ) > (StoppedActor d).MaxHeight := by
    norm_num [StoppedActor, DefaultActor, AVolumetricAudioSource.Construct]
  rw [if_neg (lt_irrefl _), if_neg hH] at h
  exact h

/-- The result of a game tick in which the decision block decides not to play. -/
theorem TickActor_stop_eq (M : FMath) (PluginSettings : UVolumeAudioSourceSettings)
    (ctx : FTickContext) (A : AVolumetricAudioSource) (DeltaTime : ℚ) (TickType : ELevelTick)
    (r : Bool × FVector)
    (hGame : ¬ TickActor.IsEditModeTick ctx TickType)
    (hr : IsInside M A (TickActor.AudioListenerLocation ctx.World) = some r)
    (hd1 : (TickActor.Decide M PluginSettings A
      (TickActor.AudioListenerLocation ctx.World) r).1 = false) :
    ∃ A1 cmds, TickActor M PluginSettings ctx A DeltaTime TickType = some (A1, cmds) ∧
      A1.CurrentDelay = A.CurrentDelay ∧
      ∀ cmd ∈ cmds, cmd = FAudioCommand.Stop := by
  unfold TickActor
  simp only [if_neg hGame, hr, Option.bind_eq_bind, Option.some_bind, hd1,
    Bool.false_eq_true, if_false, Option.pure_def]
  refine ⟨_, _, rfl, ?_, ?_⟩
  · unfold TickActor.Visualization TickActor.StopLoop
    cases A.AudioComponent with
    | none => dsimp only; split_ifs <;> rfl
    | some ac => dsimp only; split_ifs <;> rfl
  · unfold TickActor.StopLoop
    cases A.AudioComponent with
    | none => simp
    | some ac => dsimp only; split_ifs <;> simp

/-- The result of a game tick in which the decision block decides to play, in terms of
the random SFX block. -/
theorem TickActor_play_eq (M : FMath) (PluginSettings : UVolumeAudioSourceSettings)
    (ctx : FTickContext) (A : AVolumetricAudioSource) (DeltaTime : ℚ) (TickType : ELevelTick)
    (r : Bool × FVector)
    (hGame : ¬ TickActor.IsEditModeTick ctx TickType)
    (hr : IsInside M A (TickActor.AudioListenerLocation ctx.World) = some r)
    (hd1 : (TickActor.Decide M PluginSettings A
      (TickActor.AudioListenerLocation ctx.World) r).1 = true) :
    ∃ B Target pcmds, B.RandomSFX = A.RandomSFX ∧ B.CurrentDelay = A.CurrentDelay ∧
      B.MinDelay = A.MinDelay ∧ B.MaxDelay = A.MaxDelay ∧
      (∀ cmd ∈ pcmds, ∀ s l, cmd ≠ FAudioCommand.PlaySoundAtLocation s l) ∧
      ∀ B1 rcmds, TickActor.UpdateRandomSFX M ctx B DeltaTime Target = some (B1, rcmds) →
        ∃ A1, TickActor M PluginSettings ctx A DeltaTime TickType
            = some (A1, pcmds ++ rcmds) ∧ A1.CurrentDelay = B1.CurrentDelay := by
  refine ⟨(TickActor.PlayLoop { A with TickInterval := 0 }
      (TickActor.Decide M PluginSettings A (TickActor.AudioListenerLocation ctx.World) r).2.1).1,
    (TickActor.Decide M PluginSettings A (TickActor.AudioListenerLocation ctx.World) r).2.1,
    (TickActor.PlayLoop { A with TickInterval := 0 }
      (TickActor.Decide M PluginSettings A (TickActor.AudioListenerLocation ctx.World) r).2.1).2,
    ?_, ?_, ?_, ?_, ?_, ?_⟩
  · unfold TickActor.PlayLoop
    cases A.AudioComponent with
    | none => rfl
    | some ac => dsimp only; split_ifs <;> rfl
  · unfold TickActor.PlayLoop
    cases A.AudioComponent with
    | none => rfl
    | some ac => dsimp only; split_ifs <;> rfl
  · unfold TickActor.PlayLoop
    cases A.AudioComponent with
    | none => rfl
    | some ac => dsimp only; split_ifs <;> rfl
  · unfold TickActor.PlayLoop
    cases A.AudioComponent with
    | none => rfl
    | some ac => dsimp only; split_ifs <;> rfl
  · unfold TickActor.PlayLoop
    cases A.AudioComponent with
    | none => simp
    | some ac => dsimp only; split_ifs <;> simp
  · intro B1 rcmds hB
    unfold TickActor
    simp only [if_neg hGame, hr, Option.bind_eq_bind, Option.some_bind, hd1, if_true, hB,
      Option.pure_def]
    refine ⟨_, rfl, ?_⟩
    unfold TickActor.Visualization
    split_ifs <;> rfl

/-- The random SFX block when the catalog is not empty and the countdown runs out: the
countdown is redrawn. -/
theorem UpdateRandomSFX_redraw (M : FMath) (ctx : FTickContext) (A : AVolumetricAudioSource)
    (DeltaTime : ℚ) (ClosestLocation : FVector) (hn : 0 < A.RandomSFX.length)
    (hd : M.Round (A.CurrentDelay - DeltaTime) ≤ 0) :
    ∃ A1 cmds,
      TickActor.UpdateRandomSFX M ctx A DeltaTime ClosestLocation = some (A1, cmds) ∧
      A1.CurrentDelay
        = FRandRange M (FRand M ctx.RAND_MAX ctx.Rand.Delay) A.MinDelay A.MaxDelay := by
  unfold TickActor.UpdateRandomSFX
  simp only [if_pos hn, if_pos hd]
  obtain ⟨h0, h1⟩ := RandRange_index M ctx.RAND_MAX ctx.Rand.Index A.RandomSFX.length hn
  rw [if_neg (not_lt.mpr h0), List.getElem?_eq_getElem h1]
  cases A.RandomSFX[(RandRange M (FRand M ctx.RAND_MAX ctx.Rand.Index) 0
      ((A.RandomSFX.length : ℤ) - 1)).toNat] with
  | none => exact ⟨_, _, rfl, rfl⟩
  | some SFX => exact ⟨_, _, rfl, rfl⟩

/-- The random SFX block when the catalog is not empty and the countdown does not run out:
nothing fires and the countdown is the rounded difference. -/
theorem UpdateRandomSFX_wait (M : FMath) (ctx : FTickContext) (A : AVolumetricAudioSource)
    (DeltaTime : ℚ) (ClosestLocation : FVector) (hn : 0 < A.RandomSFX.length)
    (hd : 0 < M.Round (A.CurrentDelay - DeltaTime)) :
    ∃ A1, TickActor.UpdateRandomSFX M ctx A DeltaTime ClosestLocation = some (A1, []) ∧
      A1.CurrentDelay = M.Round (A.CurrentDelay - DeltaTime) := by
  unfold TickActor.UpdateRandomSFX
  simp only [if_pos hn, if_neg (not_le.mpr hd)]
  exact ⟨_, rfl, rfl⟩

/-- The random SFX block with an empty catalog does nothing. -/
theorem UpdateRandomSFX_empty (M : FMath) (ctx : FTickContext) (A : AVolumetricAudioSource)
    (DeltaTime : ℚ) (ClosestLocation : FVector) (hn : A.RandomSFX.length = 0) :
    TickActor.UpdateRandomSFX M ctx A DeltaTime ClosestLocation = some (A, []) := by
  unfold TickActor.UpdateRandomSFX
  rw [if_neg (by omega)]

/-- The random range in float arithmetic, for a rounding that is monotone and idempotent
and keeps 1 and the lower bound: the value is at least the lower bound and at most the
rounded sum of the lower bound and the rounded width. -/
theorem FRandRange_bounds (M : FMath) (RAND_MAX Rand : ℕ) (InMin InMax : ℚ)
    (hR : Rand ≤ RAND_MAX) (hM : InMin ≤ InMax)
    (hmono : ∀ a b, a ≤ b → M.Round a ≤ M.Round b) (hOne : M.Round 1 = 1)
    (hidem : ∀ x, M.Round (M.Round x) = M.Round x) (hMin : M.Round InMin = InMin) :
    InMin ≤ FRandRange M (FRand M RAND_MAX Rand) InMin InMax ∧
      FRandRange M (FRand M RAND_MAX Rand) InMin InMax
        ≤ M.Round (InMin + M.Round (InMax - InMin)) := by
  have h0 : (0 : ℚ) ≤ FRand M RAND_MAX Rand := by
    unfold FRand
    exact M.Round_nonneg _ (by positivity)
  have h1 : FRand M RAND_MAX Rand ≤ 1 := by
    unfold FRand
    rw [← hOne]
    apply hmono
    rcases Nat.eq_zero_or_pos RAND_MAX with hz | hp
    · subst hz; simp
    · rw [div_le_one (by exact_mod_cast hp)]
      exact_mod_cast hR
  have hD : 0 ≤ M.Round (InMax - InMin) := M.Round_nonneg _ (sub_nonneg.mpr hM)
  have hP0 : 0 ≤ M.Round (M.Round (InMax - InMin) * FRand M RAND_MAX Rand) :=
    M.Round_nonneg _ (mul_nonneg hD h0)
  have hP1 : M.Round (M.Round (InMax - InMin) * FRand M RAND_MAX Rand)
      ≤ M.Round (InMax - InMin) := by
    rw [← hidem (InMax - InMin)]
    apply hmono
    rw [hidem]
    nlinarith [mul_nonneg hD (sub_nonneg.mpr h1)]
  unfold FRandRange
  constructor
  · rw [← hMin]
    apply hmono
    rw [hMin]
    linarith
  · apply hmono
    linarith

/-- The decision block decides not to play when the query returns false beyond the
audible radius. -/
theorem Decide_out_of_range (M : FMath) (PluginSettings : UVolumeAudioSourceSettings)
    (A : AVolumetricAudioSource) (L c : FVector)
    (h : A.MaxDistance * A.MaxDistance < (L - c).SizeSquared) :
    (TickActor.Decide M PluginSettings A L (false, c)).1 = false := by
  by_cases hfar : (L - c).SizeSquared
      > A.MaxDistance * A.MaxDistance + PluginSettings.StopPlayingSoundOffset
  · rw [Decide_far M PluginSettings A L c h hfar]
  · rw [Decide_band M PluginSettings A L c h (not_lt.mp hfar)]

/-- The listener query of the example tick above the ceiling of the ambient example
actor. -/
theorem AmbientActor_above (cd z : ℚ) (hz : 400 < z) (TickType : ELevelTick) :
    TickActor.ListenerQuery RationalMath (GameContext ⟨0, 0, z⟩) (AmbientActor cd) TickType
      (false, ⟨0, 0, 400⟩) := by
  refine ⟨(GameContext_listener _ TickType).1, ?_⟩
  rw [(GameContext_listener _ TickType).2]
  obtain ⟨-, -, -, -, -, -, h⟩ := IsInside_default_square_axis RationalMath (AmbientActor cd)
    200 z DefaultActor_conditions.1 DefaultActor_conditions.2.1
    DefaultActor_conditions.2.2.1 DefaultActor_conditions.2.2.2
  have hH : z > (AmbientActor cd).MaxHeight := by
    show z > 400
    exact hz
  rw [h, if_neg (by linarith), if_pos hH]
  rfl

/-- The listener query of the example tick at the centre of the ambient example actor. -/
theorem AmbientActor_centre (cd : ℚ) (TickType : ELevelTick) :
    TickActor.ListenerQuery RationalMath (GameContext ⟨0, 0, 0⟩) (AmbientActor cd) TickType
      (true, ⟨0, 0, 0⟩) := by
  refine ⟨(GameContext_listener _ TickType).1, ?_⟩
  rw [(GameContext_listener _ TickType).2]
  obtain ⟨-, -, -, -, -, -, h⟩ := IsInside_default_square_axis RationalMath (AmbientActor cd)
    200 0 DefaultActor_conditions.1 DefaultActor_conditions.2.1
    DefaultActor_conditions.2.2.1 DefaultActor_conditions.2.2.2
  have hH : ¬ (0 : ℚ) > (AmbientActor cd).MaxHeight := by
    show ¬ (0 : ℚ) > 400
    norm_num
  rw [h, if_neg (lt_irrefl _), if_neg hH]

/-- The listener query of the example tick at the centre of the example actor with an empty
catalog. -/
theorem EmptyCatalogActor_centre (cd : ℚ) (TickType : ELevelTick) :
    TickActor.ListenerQuery RationalMath (GameContext ⟨0, 0, 0⟩) (EmptyCatalogActor cd)
      TickType (true, ⟨0, 0, 0⟩) := by
  refine ⟨(GameContext_listener _ TickType).1, ?_⟩
  rw [(GameContext_listener _ TickType).2]
  obtain ⟨-, -, -, -, -, -, h⟩ := IsInside_default_square_axis RationalMath
    (EmptyCatalogActor cd) 200 0 DefaultActor_conditions.1 DefaultActor_conditions.2.1
    DefaultActor_conditions.2.2.1 DefaultActor_conditions.2.2.2
  have hH : ¬ (0 : ℚ) > (EmptyCatalogActor cd).MaxHeight := by
    show ¬ (0 : ℚ) > 400
    norm_num
  rw [h, if_neg (lt_irrefl _), if_neg hH]

/-! ## Convex polygons -/

/-- The successor of an index on the closed loop. -/
theorem succ_mod_eq (n i : ℕ) (hi : i < n) :
    (i + 1) % n = if i + 1 = n then 0 else i + 1 := by
  split_ifs with h
  · rw [h]; exact Nat.mod_self n
  · exact Nat.mod_eq_of_lt (by omega)

/-- Inside the array the read of a point is the vertex of that index. -/
theorem getElem?_Vertex (Points : List FVector) (i : ℕ) (hi : i < Points.length) :
    Points[i]? = some (Vertex Points i) := by
  unfold Vertex
  rw [List.getD_eq_getElem?_getD, List.getElem?_eq_getElem hi]
  rfl

/-- With a positive inverse square root, `GetSafeNormal` scales its argument by a factor
that is not negative, and positive when the squared length reaches the tolerance. -/
theorem GetSafeNormal_nonneg (M : FMath) (hInv : ∀ x, 0 < x → 0 < M.InvSqrt x)
    (a : FVector) :
    ∃ κ : ℚ, 0 ≤ κ ∧ a.GetSafeNormal M = a * κ ∧ (SMALL_NUMBER ≤ a.SizeSquared → 0 < κ) := by
  unfold FVector.GetSafeNormal FVector.SizeSquared
  by_cases h1 : a.X * a.X + a.Y * a.Y + a.Z * a.Z = 1
  · refine ⟨1, zero_le_one, ?_, fun _ => one_pos⟩
    simp [h1]
  · by_cases h2 : a.X * a.X + a.Y * a.Y + a.Z * a.Z < SMALL_NUMBER
    · refine ⟨0, le_refl _, ?_, fun h => absurd h2 (not_lt.mpr h)⟩
      simp [h1, h2, FVector.ZeroVector]
    · have hpos : 0 < a.X * a.X + a.Y * a.Y + a.Z * a.Z :=
        lt_of_lt_of_le (by norm_num [SMALL_NUMBER]) (not_lt.mp h2)
      refine ⟨M.InvSqrt (a.X * a.X + a.Y * a.Y + a.Z * a.Z), le_of_lt (hInv _ hpos), ?_,
        fun _ => hInv _ hpos⟩
      simp [h1, h2]

/-- When the query projects before the end of a segment, the segment has a point strictly
closer to the query than its end. -/
theorem Edge_closer_than_end (M : FMath) (Points : List FVector) (q : FVector) (j : ℕ)
    (S E : FVector) (hj : j < Points.length) (hS : Points[j]? = some S)
    (hE : Points[(j + 1) % Points.length]? = some E)
    (h : FVector.Dot (q - E) (E - S) < 0) :
    ∃ r, IsInside.Edge M Points q j = some r ∧
      FVector.DistSquared r.1 q < FVector.DistSquared E q := by
  obtain ⟨S', E', Pv, Nx, hS', hE', -, -, hedge⟩ := Edge_spec M Points q j hj
  rw [hS] at hS'; rw [hE] at hE'
  cases hS'; cases hE'
  refine ⟨_, hedge, ?_⟩
  obtain ⟨sx, sy, sz⟩ := S
  obtain ⟨ex, ey, ez⟩ := E
  obtain ⟨qx, qy, qz⟩ := q
  simp only [FVector.sub_def, FVector.Dot, FVector.add_def, FVector.mul_def] at h ⊢
  by_cases h1 : (qx - sx) * (ex - sx) + (qy - sy) * (ey - sy) + (qz - sz) * (ez - sz) ≤ 0
  · rw [if_pos h1]
    simp only [FVector.DistSquared]
    linarith
  · rw [if_neg h1]
    have h1' := not_le.mp h1
    have h2 : ¬ (ex - sx) * (ex - sx) + (ey - sy) * (ey - sy) + (ez - sz) * (ez - sz)
        ≤ (qx - sx) * (ex - sx) + (qy - sy) * (ey - sy) + (qz - sz) * (ez - sz) := by
      intro h2; linarith
    rw [if_neg h2]
    have h2' := not_le.mp h2
    have hd2 : 0 < (ex - sx) * (ex - sx) + (ey - sy) * (ey - sy) + (ez - sz) * (ez - sz) :=
      lt_trans h1' h2'
    obtain ⟨t0, ht0def⟩ : ∃ t0 : ℚ,
        t0 = ((qx - sx) * (ex - sx) + (qy - sy) * (ey - sy) + (qz - sz) * (ez - sz)) /
          ((ex - sx) * (ex - sx) + (ey - sy) * (ey - sy) + (ez - sz) * (ez - sz)) :=
      ⟨_, rfl⟩
    have key : t0 * ((ex - sx) * (ex - sx) + (ey - sy) * (ey - sy) + (ez - sz) * (ez - sz))
        = (qx - sx) * (ex - sx) + (qy - sy) * (ey - sy) + (qz - sz) * (ez - sz) := by
      rw [ht0def]; field_simp
    have ht1 : t0 < 1 := by rw [ht0def]; exact (div_lt_one hd2).mpr h2'
    rw [← ht0def]
    simp only [FVector.DistSquared]
    have hid : ((qx - ex) * (qx - ex) + (qy - ey) * (qy - ey) + (qz - ez) * (qz - ez))
        - ((qx - (sx + (ex - sx) * t0)) * (qx - (sx + (ex - sx) * t0))
          + (qy - (sy + (ey - sy) * t0)) * (qy - (sy + (ey - sy) * t0))
          + (qz - (sz + (ez - sz) * t0)) * (qz - (sz + (ez - sz) * t0)))
        = ((ex - sx) * (ex - sx) + (ey - sy) * (ey - sy) + (ez - sz) * (ez - sz))
          * (1 - t0) ^ 2 := by
      linear_combination (2 * (1 - t0)) * key
    have hpos : 0 < ((ex - sx) * (ex - sx) + (ey - sy) * (ey - sy) + (ez - sz) * (ez - sz))
        * (1 - t0) ^ 2 := mul_pos hd2 (pow_pos (sub_pos.mpr ht1) 2)
    linarith

/-- When the query projects after the start of a segment, the segment has a point
strictly closer to the query than its start. -/
theorem Edge_closer_than_start (M : FMath) (Points : List FVector) (q : FVector) (j : ℕ)
    (S E : FVector) (hj : j < Points.length) (hS : Points[j]? = some S)
    (hE : Points[(j + 1) % Points.length]? = some E)
    (h : 0 < FVector.Dot (q - S) (E - S)) :
    ∃ r, IsInside.Edge M Points q j = some r ∧
      FVector.DistSquared r.1 q < FVector.DistSquared S q := by
  obtain ⟨S', E', Pv, Nx, hS', hE', -, -, hedge⟩ := Edge_spec M Points q j hj
  rw [hS] at hS'; rw [hE] at hE'
  cases hS'; cases hE'
  refine ⟨_, hedge, ?_⟩
  obtain ⟨sx, sy, sz⟩ := S
  obtain ⟨ex, ey, ez⟩ := E
  obtain ⟨qx, qy, qz⟩ := q
  simp only [FVector.sub_def, FVector.Dot, FVector.add_def, FVector.mul_def] at h ⊢
  rw [if_neg (not_le.mpr h)]
  by_cases h2 : (ex - sx) * (ex - sx) + (ey - sy) * (ey - sy) + (ez - sz) * (ez - sz)
      ≤ (qx - sx) * (ex - sx) + (qy - sy) * (ey - sy) + (qz - sz) * (ez - sz)
  · rw [if_pos h2]
    simp only [FVector.DistSquared]
    linarith
  · rw [if_neg h2]
    have h2' := not_le.mp h2
    have hd2 : 0 < (ex - sx) * (ex - sx) + (ey - sy) * (ey - sy) + (ez - sz) * (ez - sz) :=
      lt_trans h h2'
    obtain ⟨t0, ht0def⟩ : ∃ t0 : ℚ,
        t0 = ((qx - sx) * (ex - sx) + (qy - sy) * (ey - sy) + (qz - sz) * (ez - sz)) /
          ((ex - sx) * (ex - sx) + (ey - sy) * (ey - sy) + (ez - sz) * (ez - sz)) :=
      ⟨_, rfl⟩
    have key : t0 * ((ex - sx) * (ex - sx) + (ey - sy) * (ey - sy) + (ez - sz) * (ez - sz))
        = (qx - sx) * (ex - sx) + (qy - sy) * (ey - sy) + (qz - sz) * (ez - sz) := by
      rw [ht0def]; field_simp
    have ht0 : 0 < t0 := by rw [ht0def]; exact div_pos h hd2
    rw [← ht0def]
    simp only [FVector.DistSquared]
    have hid : ((qx - sx) * (qx - sx) + (qy - sy) * (qy - sy) + (qz - sz) * (qz - sz))
        - ((qx - (sx + (ex - sx) * t0)) * (qx - (sx + (ex - sx) * t0))
          + (qy - (sy + (ey - sy) * t0)) * (qy - (sy + (ey - sy) * t0))
          + (qz - (sz + (ez - sz) * t0)) * (qz - (sz + (ez - sz) * t0)))
        = ((ex - sx) * (ex - sx) + (ey - sy) * (ey - sy) + (ez - sz) * (ez - sz))
          * t0 ^ 2 := by
      linear_combination (-2 * t0) * key
    have hpos : 0 < ((ex - sx) * (ex - sx) + (ey - sy) * (ey - sy) + (ez - sz) * (ez - sz))
        * t0 ^ 2 := mul_pos hd2 (pow_pos ht0 2)
    linarith

/-- When some squared distance is below the sentinel, the query returns the result
computed from the tuple of an index whose squared distance is the least. -/
theorem IsInside_selected (M : FMath) (A : AVolumetricAudioSource) (Location : FVector)
    (hs : ∃ j r, j < A.Spline.Points.length ∧
      IsInside.Edge M A.Spline.Points
        (A.Spline.ComponentToWorld.InverseTransformPosition Location) j = some r ∧
      FVector.DistSquared r.1 (A.Spline.ComponentToWorld.InverseTransformPosition Location)
        < MAX_FLT) :
    ∃ idx c, idx < A.Spline.Points.length ∧
      IsInside.Edge M A.Spline.Points
        (A.Spline.ComponentToWorld.InverseTransformPosition Location) idx = some c ∧
      (∀ j r, j < A.Spline.Points.length →
        IsInside.Edge M A.Spline.Points
          (A.Spline.ComponentToWorld.InverseTransformPosition Location) j = some r →
        FVector.DistSquared c.1 (A.Spline.ComponentToWorld.InverseTransformPosition Location)
          ≤ FVector.DistSquared r.1
            (A.Spline.ComponentToWorld.InverseTransformPosition Location)) ∧
      IsInside M A Location = some (IsInside.Result A Location c) := by
  obtain ⟨j, r, hj, hr, hd⟩ := hs
  obtain ⟨st, c, -, inv, hidx, -, hedge, hres⟩ :=
    IsInside_spec M A Location (Nat.lt_of_le_of_lt (Nat.zero_le _) hj)
  have hlt : st.ClosestLocationDistance < MAX_FLT :=
    lt_of_le_of_lt (inv.least j hj r hr) hd
  obtain ⟨-, c', hc', hcd⟩ := inv.found hlt
  rw [hedge] at hc'
  cases hc'
  refine ⟨_, c, hidx, hedge, ?_, hres⟩
  intro j' r' hj' hr'
  rw [hcd]
  exact inv.least j' hj' r' hr'

/-- With the identity transform and the height of the location in the band of the prism,
the flag is the sign test of the horizontal direction against the cached normal. -/
theorem Result_in_band (A : AVolumetricAudioSource) (L : FVector) (c : FVector × FVector)
    (hId : A.Spline.ComponentToWorld = FTransform.Identity)
    (h1 : A.Spline.Bounds.GetBox.Min.Z ≤ L.Z)
    (h2 : L.Z ≤ A.Spline.Bounds.GetBox.Max.Z + A.MaxHeight) :
    ((L.X - c.1.X) * c.2.X + (L.Y - c.1.Y) * c.2.Y < 0 →
      (IsInside.Result A L c).1 = true) ∧
    (0 ≤ (L.X - c.1.X) * c.2.X + (L.Y - c.1.Y) * c.2.Y →
      (IsInside.Result A L c).1 = false) := by
  unfold IsInside.Result
  rw [hId, (Identity_transform _).1]
  dsimp only
  rw [if_neg (not_lt.mpr h1), if_neg (not_lt.mpr h2)]
  have e : FVector.Dot (L - ⟨c.1.X, c.1.Y, L.Z⟩) c.2
      = (L.X - c.1.X) * c.2.X + (L.Y - c.1.Y) * c.2.Y := by
    simp [FVector.Dot]
  dsimp only
  rw [e]
  constructor
  · intro h; rw [if_pos h]; rfl
  · intro h; rw [if_neg (not_lt.mpr h)]

/-- For a polygon with at least three vertices: the index before an index on the closed
loop, as the loop computes it, and the indices after it. -/
theorem Loop_indices (n i : ℕ) (hn : 3 ≤ n) (hi : i < n) :
    (if 1 ≤ i then i - 1 else n - 1) < n ∧
    ((if 1 ≤ i then i - 1 else n - 1) + 1) % n = i ∧
    (if 1 ≤ i then i - 1 else n - 1) ≠ i ∧
    (i + 1) % n < n ∧ (i + 1) % n ≠ i ∧
    (i + 1) % n ≠ (if 1 ≤ i then i - 1 else n - 1) ∧
    ((i + 1) % n + 1) % n < n ∧ ((i + 1) % n + 1) % n ≠ i ∧
    ((i + 1) % n + 1) % n ≠ (i + 1) % n := by
  have h1 := succ_mod_eq n i hi
  have hp : (if 1 ≤ i then i - 1 else n - 1) < n := by split_ifs <;> omega
  have h2 := succ_mod_eq n _ hp
  have hs : (i + 1) % n < n := Nat.mod_lt _ (by omega)
  have h3 := succ_mod_eq n _ hs
  refine ⟨hp, ?_, ?_, hs, ?_, ?_, Nat.mod_lt _ (by omega), ?_, ?_⟩
  · rw [h2]; split_ifs <;> omega
  · split_ifs <;> omega
  · rw [h1]; split_ifs <;> omega
  · rw [h1]; split_ifs <;> omega
  · rw [h3, h1]; split_ifs <;> omega
  · rw [h3, h1]; split_ifs <;> omega

/-- A vector strictly inside the cone of two vectors that open by less than half a turn
has a positive product with one of them. -/
theorem cone_contra (ax ay bx by' wx wy : ℚ) (hab : 0 < ax * by' - ay * bx)
    (haw : 0 < ax * wy - ay * wx) (hwb : 0 < wx * by' - wy * bx)
    (h1 : ax * wx + ay * wy ≤ 0) (h2 : bx * wx + by' * wy ≤ 0) : False := by
  have hid : (ax * by' - ay * bx) * (wx * wx + wy * wy)
      = (wx * by' - wy * bx) * (ax * wx + ay * wy)
        + (ax * wy - ay * wx) * (bx * wx + by' * wy) := by ring
  have h3 : (wx * by' - wy * bx) * (ax * wx + ay * wy) ≤ 0 :=
    mul_nonpos_of_nonneg_of_nonpos (le_of_lt hwb) h1
  have h4 : (ax * wy - ay * wx) * (bx * wx + by' * wy) ≤ 0 :=
    mul_nonpos_of_nonneg_of_nonpos (le_of_lt haw) h2
  have h5 : (ax * by' - ay * bx) * (wx * wx + wy * wy) ≤ 0 := by rw [hid]; linarith
  have h6 : wx * wx + wy * wy ≤ 0 := by
    by_contra h
    have := mul_pos hab (not_le.mp h)
    linarith
  have hx : wx * wx = 0 := by linarith [mul_self_nonneg wx, mul_self_nonneg wy]
  have hy : wy * wy = 0 := by linarith [mul_self_nonneg wx, mul_self_nonneg wy]
  rw [mul_self_eq_zero.mp hx, mul_self_eq_zero.mp hy, mul_zero, mul_zero, sub_zero] at haw
  exact lt_irrefl _ haw

/-- The vertices of a polygon in a horizontal plane have the height of the plane. -/
theorem Vertex_height (Points : List FVector) (z0 : ℚ) (hPlane : ∀ p ∈ Points, p.Z = z0)
    (i : ℕ) (hi : i < Points.length) : (Vertex Points i).Z = z0 := by
  have h := getElem?_Vertex Points i hi
  rw [List.getElem?_eq_getElem hi] at h
  have hmem : Vertex Points i ∈ Points := by
    rw [← Option.some.inj h]
    exact List.getElem_mem hi
  exact hPlane _ hmem

/-- What the least squared distance of the selected index says about the neighbours of a
vertex that is the closest location: the query does not project inside the segment
before it, nor inside the segment after it. -/
theorem Selected_neighbours (M : FMath) (Points : List FVector) (q : FVector) (idx : ℕ)
    (c : FVector × FVector) (hn : 3 ≤ Points.length) (hidx : idx < Points.length)
    (hmin : ∀ j r, j < Points.length → IsInside.Edge M Points q j = some r →
      FVector.DistSquared c.1 q ≤ FVector.DistSquared r.1 q) :
    (c.1 = Vertex Points idx →
      0 ≤ FVector.Dot (q - Vertex Points idx)
        (Vertex Points idx
          - Vertex Points (if 1 ≤ idx then idx - 1 else Points.length - 1))) ∧
    (c.1 = Vertex Points ((idx + 1) % Points.length) →
      FVector.Dot (q - Vertex Points ((idx + 1) % Points.length))
        (Vertex Points (((idx + 1) % Points.length + 1) % Points.length)
          - Vertex Points ((idx + 1) % Points.length)) ≤ 0) := by
  obtain ⟨hp, hps, -, hs, -, -, hss, -, -⟩ := Loop_indices Points.length idx hn hidx
  constructor
  · intro hcS
    by_contra hneg
    have hE : Points[((if 1 ≤ idx then idx - 1 else Points.length - 1) + 1)
        % Points.length]? = some (Vertex Points idx) := by
      rw [hps]; exact getElem?_Vertex Points idx hidx
    obtain ⟨r, hr, hlt⟩ := Edge_closer_than_end M Points q _ _ _ hp
      (getElem?_Vertex Points _ hp) hE (not_le.mp hneg)
    have := hmin _ r hp hr
    rw [hcS] at this
    linarith
  · intro hcE
    by_contra hpos
    obtain ⟨r, hr, hlt⟩ := Edge_closer_than_start M Points q _ _ _ hs
      (getElem?_Vertex Points _ hs) (getElem?_Vertex Points _ hss) (not_le.mp hpos)
    have := hmin _ r hs hr
    rw [hcE] at this
    linarith

/-- When the closest location of the selected index is a vertex, the sign test of the
query is not negative, so the flag is false: the averaged normal there has a product that
is not negative with the direction from the vertex to the query. -/
theorem Vertex_case_test (M : FMath) (hInv : ∀ x, 0 < x → 0 < M.InvSqrt x)
    (Points : List FVector) (z0 : ℚ) (hPlane : ∀ p ∈ Points, p.Z = z0) (q : FVector)
    (idx : ℕ) (c : FVector × FVector) (hn : 3 ≤ Points.length) (hidx : idx < Points.length)
    (hc : IsInside.Edge M Points q idx = some c)
    (hmin : ∀ j r, j < Points.length → IsInside.Edge M Points q j = some r →
      FVector.DistSquared c.1 q ≤ FVector.DistSquared r.1 q)
    (hcase : FVector.Dot (q - Vertex Points idx)
        (Vertex Points ((idx + 1) % Points.length) - Vertex Points idx) ≤ 0 ∨
      FVector.Dot (Vertex Points ((idx + 1) % Points.length) - Vertex Points idx)
        (Vertex Points ((idx + 1) % Points.length) - Vertex Points idx)
        ≤ FVector.Dot (q - Vertex Points idx)
          (Vertex Points ((idx + 1) % Points.length) - Vertex Points idx)) :
    0 ≤ (q.X - c.1.X) * c.2.X + (q.Y - c.1.Y) * c.2.Y := by
  obtain ⟨hp, hps, -, hs, -, -, hss, -, -⟩ := Loop_indices Points.length idx hn hidx
  have hnx : (if idx + 2 < Points.length then idx + 2 else 0) < Points.length := by
    split_ifs <;> omega
  obtain ⟨S, E, Pv, Nx, hS, hE, hPv, hNx, hedge⟩ := Edge_spec M Points q idx hidx
  rw [getElem?_Vertex Points idx hidx] at hS
  rw [getElem?_Vertex Points _ hs] at hE
  rw [getElem?_Vertex Points _ hp] at hPv
  rw [getElem?_Vertex Points _ hnx] at hNx
  cases hS; cases hE; cases hPv; cases hNx
  rw [hc] at hedge
  have hval := Option.some.inj hedge
  have hzS := Vertex_height Points z0 hPlane idx hidx
  have hzE := Vertex_height Points z0 hPlane _ hs
  have hzP := Vertex_height Points z0 hPlane _ hp
  have hzN := Vertex_height Points z0 hPlane _ hnx
  have hnb := Selected_neighbours M Points q idx c hn hidx hmin
  by_cases h1 : FVector.Dot (q - Vertex Points idx)
      (Vertex Points ((idx + 1) % Points.length) - Vertex Points idx) ≤ 0
  · rw [if_pos h1] at hval
    obtain ⟨κ1, hκ1, hg1, -⟩ := GetSafeNormal_nonneg M hInv
      (Vertex Points idx - Vertex Points (if 1 ≤ idx then idx - 1 else Points.length - 1))
    obtain ⟨κ2, hκ2, hg2, -⟩ := GetSafeNormal_nonneg M hInv
      (Vertex Points idx - Vertex Points ((idx + 1) % Points.length))
    rw [hg1, hg2] at hval
    have ha := hnb.1 (by rw [hval])
    rw [hval]
    simp only [FVector.Dot, FVector.sub_def, FVector.add_def, FVector.mul_def,
      FVector.div_def] at ha h1 ⊢
    rw [hzS, hzP] at ha
    rw [hzS, hzE] at h1
    linarith [mul_nonneg hκ1 ha, mul_nonneg hκ2 (neg_nonneg.mpr h1)]
  · have h2 : FVector.Dot (Vertex Points ((idx + 1) % Points.length) - Vertex Points idx)
        (Vertex Points ((idx + 1) % Points.length) - Vertex Points idx)
        ≤ FVector.Dot (q - Vertex Points idx)
          (Vertex Points ((idx + 1) % Points.length) - Vertex Points idx) := by
      rcases hcase with h | h
      · exact absurd h h1
      · exact h
    rw [if_neg h1, if_pos h2] at hval
    obtain ⟨κ1, hκ1, hg1, -⟩ := GetSafeNormal_nonneg M hInv
      (Vertex Points ((idx + 1) % Points.length) - Vertex Points idx)
    obtain ⟨κ2, hκ2, hg2, -⟩ := GetSafeNormal_nonneg M hInv
      (Vertex Points ((idx + 1) % Points.length)
        - Vertex Points (if idx + 2 < Points.length then idx + 2 else 0))
    rw [hg1, hg2] at hval
    have hb : 0 ≤ FVector.Dot (q - Vertex Points ((idx + 1) % Points.length))
        (Vertex Points ((idx + 1) % Points.length)
          - Vertex Points (if idx + 2 < Points.length then idx + 2 else 0)) := by
      by_cases hlast : idx + 1 = Points.length
      · have e1 : (idx + 1) % Points.length = 0 := by rw [hlast]; exact Nat.mod_self _
        have e2 : (if idx + 2 < Points.length then idx + 2 else 0) = 0 := by
          rw [if_neg (by omega)]
        rw [e1, e2]
        simp [FVector.Dot]
      · have e1 : (idx + 1) % Points.length = idx + 1 := Nat.mod_eq_of_lt (by omega)
        have e2 : ((idx + 1) % Points.length + 1) % Points.length
            = (if idx + 2 < Points.length then idx + 2 else 0) := by
          rw [e1, succ_mod_eq _ _ (by omega)]
          split_ifs <;> omega
        have hb' := hnb.2 (by rw [hval])
        rw [e2] at hb'
        simp only [FVector.Dot, FVector.sub_def] at hb' ⊢
        linarith
    rw [hval]
    simp only [FVector.Dot, FVector.sub_def, FVector.add_def, FVector.mul_def,
      FVector.div_def] at hb h2 ⊢
    rw [hzE, hzN] at hb
    rw [hzS, hzE] at h2
    linarith [mul_nonneg hκ1 (sub_nonneg.mpr h2), mul_nonneg hκ2 hb]

/-- When the closest location of an index is the projection inside the segment, the sign
test of the query is the side of the query with respect to the segment, scaled by the
factor of `GetSafeNormal`; the closest location is a point strictly inside the segment. -/
theorem Interior_case_test (M : FMath) (hInv : ∀ x, 0 < x → 0 < M.InvSqrt x)
    (Points : List FVector) (q : FVector)
    (idx : ℕ) (c : FVector × FVector) (hidx : idx < Points.length)
    (hc : IsInside.Edge M Points q idx = some c)
    (h1 : 0 < FVector.Dot (q - Vertex Points idx)
      (Vertex Points ((idx + 1) % Points.length) - Vertex Points idx))
    (h2 : FVector.Dot (q - Vertex Points idx)
        (Vertex Points ((idx + 1) % Points.length) - Vertex Points idx)
      < FVector.Dot (Vertex Points ((idx + 1) % Points.length) - Vertex Points idx)
        (Vertex Points ((idx + 1) % Points.length) - Vertex Points idx)) :
    (∃ κ : ℚ, 0 ≤ κ ∧
      (SMALL_NUMBER ≤ (Vertex Points idx
        - Vertex Points ((idx + 1) % Points.length)).SizeSquared → 0 < κ) ∧
      (q.X - c.1.X) * c.2.X + (q.Y - c.1.Y) * c.2.Y
        = κ * EdgeSide (Vertex Points idx) (Vertex Points ((idx + 1) % Points.length)) q) ∧
    ∃ t : ℚ, 0 < t ∧ t < 1 ∧
      c.1 = Vertex Points idx
        + (Vertex Points ((idx + 1) % Points.length) - Vertex Points idx) * t := by
  have hs : (idx + 1) % Points.length < Points.length :=
    Nat.mod_lt _ (Nat.lt_of_le_of_lt (Nat.zero_le _) hidx)
  have h := Edge_interior M Points q idx _ _ (getElem?_Vertex Points idx hidx)
    (getElem?_Vertex Points _ hs) h1 h2
  rw [hc] at h
  have hval := Option.some.inj h
  obtain ⟨κ, hκ, hg, hpos⟩ := GetSafeNormal_nonneg M hInv
    (Vertex Points idx - Vertex Points ((idx + 1) % Points.length))
  rw [hg] at hval
  have hd2 := lt_trans h1 h2
  refine ⟨⟨κ, hκ, hpos, ?_⟩, _, div_pos h1 hd2, (div_lt_one hd2).mpr h2, by rw [hval]⟩
  rw [hval]
  simp only [FVector.sub_def, FVector.add_def, FVector.mul_def, FVector.CrossProduct,
    FVector.UpVector, EdgeSide]
  ring

/-- The side of a point with respect to a line depends on its horizontal position only. -/
theorem EdgeSide_congr (S E a b : FVector) (hx : a.X = b.X) (hy : a.Y = b.Y) :
    EdgeSide S E a = EdgeSide S E b := by
  unfold EdgeSide
  rw [hx, hy]

/-- The side of a point with respect to a line is affine along a segment. -/
theorem EdgeSide_affine (S E a b p : FVector) (t : ℚ)
    (hx : p.X = a.X + t * (b.X - a.X)) (hy : p.Y = a.Y + t * (b.Y - a.Y)) :
    EdgeSide S E p = EdgeSide S E a + t * (EdgeSide S E b - EdgeSide S E a) := by
  unfold EdgeSide
  rw [hx, hy]
  ring

/-- A point on the line of an edge of a strictly convex corner chain that is not on the
left of the two neighbouring edges lies on the segment of the edge. -/
theorem Segment_of_sides (P S E N X : FVector) (hC1 : EdgeSide P S E < 0)
    (hC2 : EdgeSide E N S < 0) (h0 : EdgeSide S E X = 0) (hP : EdgeSide P S X ≤ 0)
    (hN : EdgeSide E N X ≤ 0) :
    ∃ s : ℚ, 0 ≤ s ∧ s ≤ 1 ∧ S.X + (E.X - S.X) * s = X.X ∧ S.Y + (E.Y - S.Y) * s = X.Y := by
  unfold EdgeSide at hC1 hC2 h0 hP hN
  have hne : 0 < (E.X - S.X) * (E.X - S.X) + (E.Y - S.Y) * (E.Y - S.Y) := by
    by_contra hle
    have hx : (E.X - S.X) * (E.X - S.X) = 0 := by
      linarith [mul_self_nonneg (E.X - S.X), mul_self_nonneg (E.Y - S.Y)]
    have hy : (E.Y - S.Y) * (E.Y - S.Y) = 0 := by
      linarith [mul_self_nonneg (E.X - S.X), mul_self_nonneg (E.Y - S.Y)]
    have hx' := mul_self_eq_zero.mp hx
    have hy' := mul_self_eq_zero.mp hy
    have ex : E.X = S.X := by linarith
    have ey : E.Y = S.Y := by linarith
    rw [ex, ey] at hC1
    linarith
  set d := (E.X - S.X) * (E.X - S.X) + (E.Y - S.Y) * (E.Y - S.Y) with hd
  set s := ((X.X - S.X) * (E.X - S.X) + (X.Y - S.Y) * (E.Y - S.Y)) / d with hs
  have hsd : s * d = (X.X - S.X) * (E.X - S.X) + (X.Y - S.Y) * (E.Y - S.Y) := by
    rw [hs]; field_simp
  have hX : S.X + (E.X - S.X) * s = X.X := by
    have : ((E.X - S.X) * s - (X.X - S.X)) * d = 0 := by
      have : ((E.X - S.X) * s - (X.X - S.X)) * d
          = (E.X - S.X) * (s * d) - (X.X - S.X) * d := by ring
      rw [this, hsd, hd]
      linear_combination (E.Y - S.Y) * h0
    rcases mul_eq_zero.mp this with h | h
    · linarith
    · exact absurd h (ne_of_gt hne)
  have hY : S.Y + (E.Y - S.Y) * s = X.Y := by
    have : ((E.Y - S.Y) * s - (X.Y - S.Y)) * d = 0 := by
      have : ((E.Y - S.Y) * s - (X.Y - S.Y)) * d
          = (E.Y - S.Y) * (s * d) - (X.Y - S.Y) * d := by ring
      rw [this, hsd, hd]
      linear_combination (-(E.X - S.X)) * h0
    rcases mul_eq_zero.mp this with h | h
    · linarith
    · exact absurd h (ne_of_gt hne)
  refine ⟨s, ?_, ?_, hX, hY⟩
  · by_contra hneg
    have hneg' : s < 0 := not_le.mp hneg
    rw [← hX, ← hY] at hP
    have : 0 < s * ((S.X - P.X) * (E.Y - P.Y) - (S.Y - P.Y) * (E.X - P.X)) :=
      mul_pos_of_neg_of_neg hneg' hC1
    linarith
  · by_contra hgt
    have hgt' : 0 < s - 1 := by linarith [not_le.mp hgt]
    rw [← hX, ← hY] at hN
    have : (s - 1) * ((N.X - E.X) * (S.Y - E.Y) - (N.Y - E.Y) * (S.X - E.X)) < 0 :=
      mul_neg_of_pos_of_neg hgt' hC2
    linarith

/-- Leaving a strictly convex polygon: from a point that is on no left side, towards a point
strictly outside, the segment meets the segment of an edge before its end. -/
theorem Exit_point (Points : List FVector) (hConv : StrictlyConvex Points) (c q : FVector)
    (hg : ∀ i, i < Points.length →
      EdgeSide (Vertex Points i) (Vertex Points ((i + 1) % Points.length)) c ≤ 0)
    (hgs : ∀ i, i < Points.length →
      0 < EdgeSide (Vertex Points i) (Vertex Points ((i + 1) % Points.length)) q →
      EdgeSide (Vertex Points i) (Vertex Points ((i + 1) % Points.length)) c < 0)
    (hout : StrictlyOutside Points q) :
    ∃ j, j < Points.length ∧ ∃ s τ : ℚ, 0 ≤ s ∧ s ≤ 1 ∧ 0 < τ ∧ τ < 1 ∧
      (c.X ≠ q.X ∨ c.Y ≠ q.Y) ∧
      (Vertex Points j).X
        + ((Vertex Points ((j + 1) % Points.length)).X - (Vertex Points j).X) * s
        = c.X + τ * (q.X - c.X) ∧
      (Vertex Points j).Y
        + ((Vertex Points ((j + 1) % Points.length)).Y - (Vertex Points j).Y) * s
        = c.Y + τ * (q.Y - c.Y) := by
  obtain ⟨hn, hconv⟩ := hConv
  obtain ⟨i0, hi0, hpos0⟩ := hout
  let f : ℕ → FVector → ℚ := fun i p =>
    EdgeSide (Vertex Points i) (Vertex Points ((i + 1) % Points.length)) p
  let V := (Finset.range Points.length).filter (fun i => 0 < f i q)
  have hne : V.Nonempty := ⟨i0, Finset.mem_filter.mpr ⟨Finset.mem_range.mpr hi0, hpos0⟩⟩
  obtain ⟨j, hjV, hjmin⟩ :=
    Finset.exists_min_image V (fun i => f i c / (f i c - f i q)) hne
  have hj : j < Points.length := Finset.mem_range.mp (Finset.mem_filter.mp hjV).1
  have hjq : 0 < f j q := (Finset.mem_filter.mp hjV).2
  have hjc : f j c < 0 := hgs j hj hjq
  have hden : f j c - f j q < 0 := by linarith
  set τ := f j c / (f j c - f j q) with hτ
  have hden' : f j c - f j q ≠ 0 := ne_of_lt hden
  have hτd : τ * (f j c - f j q) = f j c := by rw [hτ]; field_simp
  have hτ0 : 0 < τ := div_pos_of_neg_of_neg hjc hden
  have hτ1 : τ < 1 := by
    rw [hτ, div_lt_one_of_neg hden]; linarith
  have hside : ∀ i, i < Points.length →
      f i ⟨c.X + τ * (q.X - c.X), c.Y + τ * (q.Y - c.Y), 0⟩ ≤ 0 := by
    intro i hi
    have haff := EdgeSide_affine (Vertex Points i) (Vertex Points ((i + 1) % Points.length))
      c q ⟨c.X + τ * (q.X - c.X), c.Y + τ * (q.Y - c.Y), 0⟩ τ rfl rfl
    show EdgeSide _ _ _ ≤ 0
    rw [haff]
    by_cases hiq : 0 < f i q
    · have hic : f i c < 0 := hgs i hi hiq
      have hdi : f i c - f i q < 0 := by linarith
      have hle : τ ≤ f i c / (f i c - f i q) :=
        hjmin i (Finset.mem_filter.mpr ⟨Finset.mem_range.mpr hi, hiq⟩)
      have hdi' : f i c - f i q ≠ 0 := ne_of_lt hdi
      have h2 : f i c / (f i c - f i q) * (f i c - f i q) = f i c := by field_simp
      have h3 : f i c / (f i c - f i q) * (f i c - f i q) ≤ τ * (f i c - f i q) :=
        mul_le_mul_of_nonpos_right hle (le_of_lt hdi)
      show f i c + τ * (f i q - f i c) ≤ 0
      linarith
    · have hiq' : f i q ≤ 0 := not_lt.mp hiq
      have hic : f i c ≤ 0 := hg i hi
      show f i c + τ * (f i q - f i c) ≤ 0
      linarith [mul_nonneg (le_of_lt hτ0) (neg_nonneg.mpr hiq'),
        mul_nonneg (sub_nonneg.mpr (le_of_lt hτ1)) (neg_nonneg.mpr hic)]
  have hzero : f j ⟨c.X + τ * (q.X - c.X), c.Y + τ * (q.Y - c.Y), 0⟩ = 0 := by
    have haff := EdgeSide_affine (Vertex Points j) (Vertex Points ((j + 1) % Points.length))
      c q ⟨c.X + τ * (q.X - c.X), c.Y + τ * (q.Y - c.Y), 0⟩ τ rfl rfl
    show EdgeSide _ _ _ = 0
    rw [haff]
    show f j c + τ * (f j q - f j c) = 0
    linarith
  obtain ⟨hp, hps, hpne, hs, hsne, hsp, hss, hssne, hsss⟩ :=
    Loop_indices Points.length j hn hj
  have hC1 := hconv _ hp _ hs hsp (by rw [hps]; exact hsne)
  rw [hps] at hC1
  have hC2 := hconv _ hs _ hj (Ne.symm hsne) (Ne.symm hssne)
  have hP := hside _ hp
  simp only [f] at hP
  rw [hps] at hP
  have hN := hside _ hs
  obtain ⟨s, hs0, hs1, hX, hY⟩ := Segment_of_sides _ _ _ _ _ hC1 hC2 hzero hP hN
  refine ⟨j, hj, s, τ, hs0, hs1, hτ0, hτ1, ?_, hX, hY⟩
  by_contra hcon
  push_neg at hcon
  have := EdgeSide_congr (Vertex Points j) (Vertex Points ((j + 1) % Points.length)) c q
    hcon.1 hcon.2
  have h1 : f j c = f j q := this
  linarith

/-- The side of a vertex of a strictly convex polygon with respect to an edge is never the
left one. -/
theorem Convex_vertex_side (Points : List FVector) (hConv : StrictlyConvex Points) (i k : ℕ)
    (hi : i < Points.length) (hk : k < Points.length) :
    EdgeSide (Vertex Points i) (Vertex Points ((i + 1) % Points.length)) (Vertex Points k)
      ≤ 0 := by
  by_cases h1 : k = i
  · rw [h1]; unfold EdgeSide; apply le_of_eq; ring
  · by_cases h2 : k = (i + 1) % Points.length
    · rw [h2]; unfold EdgeSide; apply le_of_eq; ring
    · exact le_of_lt (hConv.2 i hi k hk h1 h2)

/-- For a query strictly inside a strictly convex planar polygon, the closest location of
the selected index is never a vertex: the projection falls strictly inside the segment. -/
theorem Inside_interior_case (M : FMath) (Points : List FVector)
    (hConv : StrictlyConvex Points) (z0 : ℚ) (hPlane : ∀ p ∈ Points, p.Z = z0)
    (q : FVector) (hin : StrictlyInside Points q)
    (idx : ℕ) (c : FVector × FVector) (hidx : idx < Points.length)
    (hc : IsInside.Edge M Points q idx = some c)
    (hmin : ∀ j r, j < Points.length → IsInside.Edge M Points q j = some r →
      FVector.DistSquared c.1 q ≤ FVector.DistSquared r.1 q) :
    0 < FVector.Dot (q - Vertex Points idx)
        (Vertex Points ((idx + 1) % Points.length) - Vertex Points idx) ∧
    FVector.Dot (q - Vertex Points idx)
        (Vertex Points ((idx + 1) % Points.length) - Vertex Points idx)
      < FVector.Dot (Vertex Points ((idx + 1) % Points.length) - Vertex Points idx)
        (Vertex Points ((idx + 1) % Points.length) - Vertex Points idx) := by
  obtain ⟨hn, hconv⟩ := hConv
  obtain ⟨hp, hps, hpne, hs, hsne, hsp, hss, hssne, hsss⟩ :=
    Loop_indices Points.length idx hn hidx
  obtain ⟨S, E, Pv, Nx, hS, hE, -, -, hedge⟩ := Edge_spec M Points q idx hidx
  rw [getElem?_Vertex Points idx hidx] at hS
  rw [getElem?_Vertex Points _ hs] at hE
  cases hS; cases hE
  rw [hc] at hedge
  have hval := Option.some.inj hedge
  have hzS := Vertex_height Points z0 hPlane idx hidx
  have hzE := Vertex_height Points z0 hPlane _ hs
  have hzP := Vertex_height Points z0 hPlane _ hp
  have hzN := Vertex_height Points z0 hPlane _ hss
  have hnb := Selected_neighbours M Points q idx c hn hidx hmin
  have hin0 := hin idx hidx
  constructor
  · by_contra h1
    have h1' := not_lt.mp h1
    rw [if_pos h1'] at hval
    have ha := hnb.1 (by rw [hval])
    have hinP := hin _ hp
    rw [hps] at hinP
    have hcv := hconv idx hidx _ hp hpne (Ne.symm hsp)
    simp only [FVector.Dot, FVector.sub_def] at ha h1'
    rw [hzS, hzP] at ha
    rw [hzS, hzE] at h1'
    unfold EdgeSide at hin0 hinP hcv
    exact cone_contra
      ((Vertex Points (if 1 ≤ idx then idx - 1 else Points.length - 1)).X
        - (Vertex Points idx).X)
      ((Vertex Points (if 1 ≤ idx then idx - 1 else Points.length - 1)).Y
        - (Vertex Points idx).Y)
      ((Vertex Points ((idx + 1) % Points.length)).X - (Vertex Points idx).X)
      ((Vertex Points ((idx + 1) % Points.length)).Y - (Vertex Points idx).Y)
      (q.X - (Vertex Points idx).X) (q.Y - (Vertex Points idx).Y)
      (by linarith) (by linarith) (by linarith) (by linarith) (by linarith)
  · by_contra h2
    have h2' := not_lt.mp h2
    by_cases h1 : FVector.Dot (q - Vertex Points idx)
        (Vertex Points ((idx + 1) % Points.length) - Vertex Points idx) ≤ 0
    · have hd : 0 ≤ FVector.Dot
          (Vertex Points ((idx + 1) % Points.length) - Vertex Points idx)
          (Vertex Points ((idx + 1) % Points.length) - Vertex Points idx) := by
        simp only [FVector.Dot]
        exact add_nonneg (add_nonneg (mul_self_nonneg _) (mul_self_nonneg _))
          (mul_self_nonneg _)
      have hz : FVector.Dot
          (Vertex Points ((idx + 1) % Points.length) - Vertex Points idx)
          (Vertex Points ((idx + 1) % Points.length) - Vertex Points idx) = 0 := by
        linarith
      have hcv := hconv idx hidx _ hp hpne (Ne.symm hsp)
      simp only [FVector.Dot, FVector.sub_def] at hz
      unfold EdgeSide at hcv
      have hx : ((Vertex Points ((idx + 1) % Points.length)).X - (Vertex Points idx).X)
          * ((Vertex Points ((idx + 1) % Points.length)).X - (Vertex Points idx).X) = 0 := by
        linarith [mul_self_nonneg
          ((Vertex Points ((idx + 1) % Points.length)).X - (Vertex Points idx).X),
          mul_self_nonneg
          ((Vertex Points ((idx + 1) % Points.length)).Y - (Vertex Points idx).Y),
          mul_self_nonneg
          ((Vertex Points ((idx + 1) % Points.length)).Z - (Vertex Points idx).Z)]
      have hy : ((Vertex Points ((idx + 1) % Points.length)).Y - (Vertex Points idx).Y)
          * ((Vertex Points ((idx + 1) % Points.length)).Y - (Vertex Points idx).Y) = 0 := by
        linarith [mul_self_nonneg
          ((Vertex Points ((idx + 1) % Points.length)).X - (Vertex Points idx).X),
          mul_self_nonneg
          ((Vertex Points ((idx + 1) % Points.length)).Y - (Vertex Points idx).Y),
          mul_self_nonneg
          ((Vertex Points ((idx + 1) % Points.length)).Z - (Vertex Points idx).Z)]
      rw [mul_self_eq_zero.mp hx, mul_self_eq_zero.mp hy, zero_mul, zero_mul,
        sub_zero] at hcv
      exact lt_irrefl _ hcv
    · rw [if_neg h1, if_pos h2'] at hval
      have hb := hnb.2 (by rw [hval])
      have hinN := hin _ hs
      have hcv := hconv _ hs idx hidx (Ne.symm hsne) (Ne.symm hssne)
      simp only [FVector.Dot, FVector.sub_def] at hb h2'
      rw [hzE, hzN] at hb
      rw [hzS, hzE] at h2'
      unfold EdgeSide at hin0 hinN hcv
      exact cone_contra
        ((Vertex Points idx).X - (Vertex Points ((idx + 1) % Points.length)).X)
        ((Vertex Points idx).Y - (Vertex Points ((idx + 1) % Points.length)).Y)
        ((Vertex Points (((idx + 1) % Points.length + 1) % Points.length)).X
          - (Vertex Points ((idx + 1) % Points.length)).X)
        ((Vertex Points (((idx + 1) % Points.length + 1) % Points.length)).Y
          - (Vertex Points ((idx + 1) % Points.length)).Y)
        (q.X - (Vertex Points ((idx + 1) % Points.length)).X)
        (q.Y - (Vertex Points ((idx + 1) % Points.length)).Y)
        (by linarith) (by linarith) (by linarith) (by linarith) (by linarith)

/-- For a query strictly outside a strictly convex planar polygon, when the closest location
of the selected index is a projection strictly inside its segment, the query is not on the
right of that segment. -/
theorem Outside_interior_case (M : FMath) (hInv : ∀ x, 0 < x → 0 < M.InvSqrt x)
    (Points : List FVector)
    (hConv : StrictlyConvex Points) (z0 : ℚ) (hPlane : ∀ p ∈ Points, p.Z = z0)
    (q : FVector) (hout : StrictlyOutside Points q)
    (idx : ℕ) (c : FVector × FVector) (hidx : idx < Points.length)
    (hc : IsInside.Edge M Points q idx = some c)
    (hmin : ∀ j r, j < Points.length → IsInside.Edge M Points q j = some r →
      FVector.DistSquared c.1 q ≤ FVector.DistSquared r.1 q)
    (h1 : 0 < FVector.Dot (q - Vertex Points idx)
      (Vertex Points ((idx + 1) % Points.length) - Vertex Points idx))
    (h2 : FVector.Dot (q - Vertex Points idx)
        (Vertex Points ((idx + 1) % Points.length) - Vertex Points idx)
      < FVector.Dot (Vertex Points ((idx + 1) % Points.length) - Vertex Points idx)
        (Vertex Points ((idx + 1) % Points.length) - Vertex Points idx)) :
    0 ≤ EdgeSide (Vertex Points idx) (Vertex Points ((idx + 1) % Points.length)) q := by
  by_contra hneg
  have hneg' := not_le.mp hneg
  have hn := hConv.1
  have hsI : (idx + 1) % Points.length < Points.length := Nat.mod_lt _ (by omega)
  obtain ⟨-, t0, ht0, ht1, hct⟩ := Interior_case_test M hInv Points q idx c hidx hc h1 h2
  have hcX : c.1.X = (Vertex Points idx).X
      + t0 * ((Vertex Points ((idx + 1) % Points.length)).X - (Vertex Points idx).X) := by
    rw [hct]; simp only [FVector.add_def, FVector.sub_def, FVector.mul_def]; ring
  have hcY : c.1.Y = (Vertex Points idx).Y
      + t0 * ((Vertex Points ((idx + 1) % Points.length)).Y - (Vertex Points idx).Y) := by
    rw [hct]; simp only [FVector.add_def, FVector.sub_def, FVector.mul_def]; ring
  have hcZ : c.1.Z = z0 := by
    rw [hct]; simp only [FVector.add_def, FVector.sub_def, FVector.mul_def]
    rw [Vertex_height Points z0 hPlane idx hidx, Vertex_height Points z0 hPlane _ hsI]
    ring
  have hside : ∀ i, i < Points.length →
      EdgeSide (Vertex Points i) (Vertex Points ((i + 1) % Points.length)) c.1 ≤ 0 ∧
      (i ≠ idx →
        EdgeSide (Vertex Points i) (Vertex Points ((i + 1) % Points.length)) c.1 < 0) := by
    intro i hi
    have haff := EdgeSide_affine (Vertex Points i) (Vertex Points ((i + 1) % Points.length))
      (Vertex Points idx) (Vertex Points ((idx + 1) % Points.length)) c.1 t0 hcX hcY
    have hA := Convex_vertex_side Points hConv i idx hi hidx
    have hB := Convex_vertex_side Points hConv i _ hi hsI
    rw [haff]
    constructor
    · linarith [mul_nonneg (le_of_lt ht0) (neg_nonneg.mpr hB),
        mul_nonneg (sub_nonneg.mpr (le_of_lt ht1)) (neg_nonneg.mpr hA)]
    · intro hne
      obtain ⟨-, -, -, -, hsne, -, -, hssne, -⟩ := Loop_indices Points.length i hn hi
      obtain ⟨-, -, -, -, hsneI, -, -, -, -⟩ := Loop_indices Points.length idx hn hidx
      by_cases hk : idx = (i + 1) % Points.length
      · have hB' : EdgeSide (Vertex Points i) (Vertex Points ((i + 1) % Points.length))
            (Vertex Points ((idx + 1) % Points.length)) < 0 := by
          apply hConv.2 i hi _ hsI
          · rw [hk]; exact hssne
          · rw [← hk]; exact hsneI
        linarith [mul_pos ht0 (neg_pos.mpr hB'),
          mul_nonneg (sub_nonneg.mpr (le_of_lt ht1)) (neg_nonneg.mpr hA)]
      · have hA' := hConv.2 i hi idx hidx (Ne.symm hne) hk
        linarith [mul_nonneg (le_of_lt ht0) (neg_nonneg.mpr hB),
          mul_pos (sub_pos.mpr ht1) (neg_pos.mpr hA')]
  obtain ⟨j, hj, s, τ, hs0, hs1, hτ0, hτ1, hdist, hX, hY⟩ := Exit_point Points hConv c.1 q
    (fun i hi => (hside i hi).1)
    (fun i hi hpos => (hside i hi).2 (fun e => by rw [e] at hpos; linarith)) hout
  have hsJ : (j + 1) % Points.length < Points.length := Nat.mod_lt _ (by omega)
  obtain ⟨r, hr⟩ := Edge_isSome M Points q j hj
  have hnear := (Edge_nearest M Points q j r _ _ hj hr (getElem?_Vertex Points j hj)
    (getElem?_Vertex Points _ hsJ)).2 s hs0 hs1
  have hle := le_trans (hmin j r hj hr) hnear
  simp only [FVector.DistSquared, FVector.SizeSquared, FVector.add_def, FVector.sub_def,
    FVector.mul_def] at hle
  rw [hX, hY, Vertex_height Points z0 hPlane j hj, Vertex_height Points z0 hPlane _ hsJ,
    hcZ] at hle
  have hD : 0 < (q.X - c.1.X) * (q.X - c.1.X) + (q.Y - c.1.Y) * (q.Y - c.1.Y) := by
    rcases hdist with h | h
    · exact add_pos_of_pos_of_nonneg (mul_self_pos.mpr (sub_ne_zero.mpr (Ne.symm h)))
        (mul_self_nonneg _)
    · exact add_pos_of_nonneg_of_pos (mul_self_nonneg _)
        (mul_self_pos.mpr (sub_ne_zero.mpr (Ne.symm h)))
  have key := mul_pos (mul_pos hD hτ0) (show (0 : ℚ) < 2 - τ by linarith)
  linarith [hle, key]

/-- The reference inverse square root is positive on the positive rationals. -/
theorem RationalMath_InvSqrt_pos (x : ℚ) (hx : 0 < x) : 0 < RationalMath.InvSqrt x := by
  have hnum : 0 < x.num := Rat.num_pos.mpr hx
  have h1 : 0 < Nat.sqrt x.den := Nat.sqrt_pos.mpr x.den_pos
  have h2 : 0 < Nat.sqrt x.num.toNat := Nat.sqrt_pos.mpr (by omega)
  show (0 : ℚ) < (Nat.sqrt x.den : ℚ) / (Nat.sqrt x.num.toNat : ℚ)
  exact div_pos (Nat.cast_pos.mpr h1) (Nat.cast_pos.mpr h2)

/-- The square of the constructor is strictly convex and lies in the plane of height 0, for
every positive half side. -/
theorem DefaultSpline_convex (H : ℚ) (hH : 0 < H) :
    StrictlyConvex (DefaultSpline H).Points ∧ ∀ p ∈ (DefaultSpline H).Points, p.Z = 0 := by
  have hHH : 0 < H * H := mul_pos hH hH
  refine ⟨⟨by simp [DefaultSpline], ?_⟩, ?_⟩
  · intro i hi k hk h1 h2
    have hi4 : i < 4 := hi
    have hk4 : k < 4 := hk
    have hl : (DefaultSpline H).Points.length = 4 := rfl
    rw [hl] at h2 ⊢
    interval_cases i <;> interval_cases k <;>
      first
      | exact absurd rfl h1
      | exact absurd rfl h2
      | (simp [Vertex, EdgeSide, DefaultSpline]; linarith)
  · intro p hp
    simp only [DefaultSpline, List.mem_cons, List.mem_singleton, List.not_mem_nil,
      or_false] at hp
    rcases hp with rfl | rfl | rfl | rfl <;> rfl

/-- A point whose horizontal coordinates are smaller in absolute value than the half side is
strictly inside the square of the constructor; its sides have squared length 4 H². -/
theorem DefaultSpline_inside (H : ℚ) (q : FVector) (hx1 : -H < q.X) (hx2 : q.X < H)
    (hy1 : -H < q.Y) (hy2 : q.Y < H) :
    StrictlyInside (DefaultSpline H).Points q ∧
    ∀ i, i < (DefaultSpline H).Points.length →
      (Vertex (DefaultSpline H).Points i
        - Vertex (DefaultSpline H).Points ((i + 1) % (DefaultSpline H).Points.length)).SizeSquared
        = 4 * H * H := by
  have hH : 0 < H := by linarith
  constructor
  · intro i hi
    have hi4 : i < 4 := hi
    have hl : (DefaultSpline H).Points.length = 4 := rfl
    rw [hl]
    interval_cases i <;>
      (simp [Vertex, EdgeSide, DefaultSpline]
       linarith [mul_pos hH (sub_pos.mpr hx1), mul_pos hH (sub_pos.mpr hx2),
         mul_pos hH (sub_pos.mpr hy1), mul_pos hH (sub_pos.mpr hy2)])
  · intro i hi
    have hi4 : i < 4 := hi
    have hl : (DefaultSpline H).Points.length = 4 := rfl
    rw [hl]
    interval_cases i <;> (simp [Vertex, FVector.SizeSquared, DefaultSpline]; ring)

/-- A vertex within the sentinel of the query gives a segment whose closest location is
within the sentinel. -/
theorem Edge_below_sentinel (M : FMath) (Points : List FVector) (q : FVector)
    (hs : ∃ i, i < Points.length ∧ FVector.DistSquared (Vertex Points i) q < MAX_FLT) :
    ∃ j r, j < Points.length ∧ IsInside.Edge M Points q j = some r ∧
      FVector.DistSquared r.1 q < MAX_FLT := by
  obtain ⟨i, hi, hd⟩ := hs
  obtain ⟨r, hr⟩ := Edge_isSome M Points q i hi
  have hsI : (i + 1) % Points.length < Points.length := Nat.mod_lt _ (by omega)
  have hnear := (Edge_nearest M Points q i r _ _ hi hr (getElem?_Vertex Points i hi)
    (getElem?_Vertex Points _ hsI)).2 0 le_rfl zero_le_one
  have h0 : Vertex Points i
      + (Vertex Points ((i + 1) % Points.length) - Vertex Points i) * (0 : ℚ)
      = Vertex Points i := by
    simp [FVector.add_def, FVector.sub_def, FVector.mul_def]
  rw [h0] at hnear
  exact ⟨i, r, hi, hr, lt_of_le_of_lt hnear hd⟩

/-! ## The rounding to single precision -/

/-- The rounding to the nearest integer is the integer at distance below one half, and the
even one of the two integers at distance one half. -/
theorem RoundHalfEven_eq (y : ℚ) (m : ℤ)
    (h : |y - m| < 1 / 2 ∨ (|y - m| = 1 / 2 ∧ m % 2 = 0)) : RoundHalfEven y = m := by
  unfold RoundHalfEven
  have hf1 := Int.floor_le y
  have hf2 := Int.lt_floor_add_one y
  rcases h with h | ⟨h, he⟩
  · rw [abs_lt] at h
    by_cases hc : (m : ℚ) ≤ y
    · have hfl : ⌊y⌋ = m := by
        rw [Int.floor_eq_iff]
        exact ⟨hc, by linarith⟩
      rw [hfl, if_pos (by linarith)]
    · have hfl : ⌊y⌋ = m - 1 := by
        rw [Int.floor_eq_iff]
        push_cast
        exact ⟨by linarith, by linarith [not_le.mp hc]⟩
      rw [hfl]
      push_cast
      rw [if_neg (by linarith), if_pos (by linarith)]
      ring
  · by_cases hc : (m : ℚ) ≤ y
    · have hy : y = m + 1 / 2 := by
        rw [abs_of_nonneg (by linarith)] at h
        linarith
      have hfl : ⌊y⌋ = m := by
        rw [Int.floor_eq_iff]
        exact ⟨hc, by linarith⟩
      rw [hfl, if_neg (by linarith), if_neg (by linarith), if_pos he]
    · have hy : y = m - 1 / 2 := by
        rw [abs_of_neg (by linarith [not_le.mp hc])] at h
        linarith
      have hfl : ⌊y⌋ = m - 1 := by
        rw [Int.floor_eq_iff]
        push_cast
        exact ⟨by linarith, by linarith⟩
      rw [hfl]
      push_cast
      rw [if_neg (by linarith), if_neg (by linarith), if_neg (by omega)]
      ring

/-- The rounding to the nearest integer is at distance at most one half, and even at
distance one half. -/
theorem RoundHalfEven_spec (y : ℚ) :
    |y - RoundHalfEven y| < 1 / 2 ∨
      (|y - RoundHalfEven y| = 1 / 2 ∧ RoundHalfEven y % 2 = 0) := by
  unfold RoundHalfEven
  have hf1 := Int.floor_le y
  have hf2 := Int.lt_floor_add_one y
  by_cases h1 : y - ⌊y⌋ < 1 / 2
  · rw [if_pos h1]
    left
    rw [abs_lt]
    constructor <;> linarith
  · rw [if_neg h1]
    by_cases h2 : 1 / 2 < y - ⌊y⌋
    · rw [if_pos h2]
      left
      rw [abs_lt]
      push_cast
      constructor <;> linarith
    · rw [if_neg h2]
      have he : y - ⌊y⌋ = 1 / 2 := le_antisymm (not_lt.mp h2) (not_lt.mp h1)
      by_cases h3 : ⌊y⌋ % 2 = 0
      · rw [if_pos h3]
        right
        exact ⟨by rw [he]; norm_num, h3⟩
      · rw [if_neg h3]
        right
        refine ⟨?_, by omega⟩
        push_cast
        have e : y - (⌊y⌋ + 1) = -(1 / 2) := by linarith
        rw [e]
        norm_num

/-- The rounding to the nearest integer is odd. -/
theorem RoundHalfEven_neg (y : ℚ) : RoundHalfEven (-y) = -RoundHalfEven y := by
  apply RoundHalfEven_eq
  have e : -y - ((-RoundHalfEven y : ℤ) : ℚ) = -(y - RoundHalfEven y) := by
    push_cast; ring
  rw [e, abs_neg]
  rcases RoundHalfEven_spec y with h | ⟨h, he⟩
  · exact Or.inl h
  · exact Or.inr ⟨h, by omega⟩

/-- The float rounding is odd. -/
@[simp] theorem Round32_neg (x : ℚ) : Round32 (-x) = -Round32 x := by
  unfold Round32
  by_cases h : x = 0
  · simp [h]
  · rw [if_neg (neg_ne_zero.mpr h), if_neg h, abs_neg, neg_div, RoundHalfEven_neg]
    push_cast
    ring

/-- The float rounding of zero. -/
@[simp] theorem Round32_zero : Round32 0 = 0 := by
  unfold Round32
  rw [if_pos rfl]

/-- The value of the float rounding of a positive number between two powers of two: the
multiple of the spacing whose factor is the nearest integer. -/
theorem Round32_eq (x : ℚ) (k m : ℤ) (h1 : (2 : ℚ) ^ k ≤ x) (h2 : x < (2 : ℚ) ^ (k + 1))
    (hlo : (m : ℚ) - 1 / 2 < x / (2 : ℚ) ^ (k - 23))
    (hhi : x / (2 : ℚ) ^ (k - 23) < (m : ℚ) + 1 / 2) :
    Round32 x = m * (2 : ℚ) ^ (k - 23) := by
  have hpos : 0 < x := lt_of_lt_of_le (zpow_pos (by norm_num) k) h1
  have hx : x ≠ 0 := ne_of_gt hpos
  have habs : |x| = x := abs_of_pos hpos
  have hlog : Int.log 2 |x| = k := by
    rw [habs]
    apply le_antisymm
    · have := (Int.lt_zpow_iff_log_lt (b := 2) (by norm_num) hpos).mp (by exact_mod_cast h2)
      omega
    · exact (Int.zpow_le_iff_le_log (b := 2) (by norm_num) hpos).mp (by exact_mod_cast h1)
  unfold Round32
  rw [if_neg hx, hlog, RoundHalfEven_eq _ m (Or.inl (by rw [abs_lt]; constructor <;> linarith))]

/-- The value of the float rounding of a positive number half way between two floats: the
one with the even factor. -/
theorem Round32_tie (x : ℚ) (k m : ℤ) (h1 : (2 : ℚ) ^ k ≤ x) (h2 : x < (2 : ℚ) ^ (k + 1))
    (ht : x / (2 : ℚ) ^ (k - 23) = (m : ℚ) + 1 / 2 ∨ x / (2 : ℚ) ^ (k - 23) = (m : ℚ) - 1 / 2)
    (he : m % 2 = 0) :
    Round32 x = m * (2 : ℚ) ^ (k - 23) := by
  have hpos : 0 < x := lt_of_lt_of_le (zpow_pos (by norm_num) k) h1
  have hx : x ≠ 0 := ne_of_gt hpos
  have habs : |x| = x := abs_of_pos hpos
  have hlog : Int.log 2 |x| = k := by
    rw [habs]
    apply le_antisymm
    · have := (Int.lt_zpow_iff_log_lt (b := 2) (by norm_num) hpos).mp (by exact_mod_cast h2)
      omega
    · exact (Int.zpow_le_iff_le_log (b := 2) (by norm_num) hpos).mp (by exact_mod_cast h1)
  unfold Round32
  rw [if_neg hx, hlog, RoundHalfEven_eq _ m (Or.inr ⟨by
    rcases ht with h | h
    · rw [h]; norm_num
    · rw [h]; norm_num, he⟩)]

/-- A natural number below 2^24 is a float. -/
theorem Round32_natCast (n : ℕ) (h : n < 16777216) : Round32 (n : ℚ) = n := by
  rcases Nat.eq_zero_or_pos n with h0 | hp
  · subst h0; simp
  · have hk1 : 2 ^ Nat.log 2 n ≤ n := Nat.pow_log_le_self 2 (by omega)
    have hk2 : n < 2 ^ (Nat.log 2 n + 1) := Nat.lt_pow_succ_log_self (by norm_num) n
    have hk : Nat.log 2 n < 24 := by
      by_contra hc
      have : 2 ^ 24 ≤ 2 ^ Nat.log 2 n := Nat.pow_le_pow_right (by norm_num) (by omega)
      omega
    have e : (2 : ℚ) ^ ((Nat.log 2 n : ℤ) - 23) = ((2 : ℚ) ^ (23 - Nat.log 2 n))⁻¹ := by
      rw [← zpow_natCast, ← zpow_neg]
      congr 1
      omega
    have hy : (n : ℚ) / (2 : ℚ) ^ ((Nat.log 2 n : ℤ) - 23)
        = ((n * 2 ^ (23 - Nat.log 2 n) : ℕ) : ℤ) := by
      rw [e]
      push_cast
      rw [div_inv_eq_mul]
    have h := Round32_eq (n : ℚ) (Nat.log 2 n) ((n * 2 ^ (23 - Nat.log 2 n) : ℕ) : ℤ)
      (by rw [zpow_natCast]; exact_mod_cast hk1)
      (by
        have : ((Nat.log 2 n : ℤ) + 1) = ((Nat.log 2 n + 1 : ℕ) : ℤ) := by push_cast; ring
        rw [this, zpow_natCast]; exact_mod_cast hk2)
      (by rw [hy]; linarith) (by rw [hy]; linarith)
    rw [h, e]
    push_cast
    rw [mul_assoc, mul_inv_cancel₀ (by positivity), mul_one]

/-- One is a float. -/
@[simp] theorem Round32_one : Round32 1 = 1 := by
  have h := Round32_natCast 1 (by norm_num)
  simpa using h

/-- The rounding to the nearest integer keeps the integers. -/
theorem RoundHalfEven_intCast (n : ℤ) : RoundHalfEven (n : ℚ) = n :=
  RoundHalfEven_eq _ n (Or.inl (by rw [sub_self, abs_zero]; norm_num))

/-- The rounding to the nearest integer is monotone. -/
theorem RoundHalfEven_mono (a b : ℚ) (h : a ≤ b) : RoundHalfEven a ≤ RoundHalfEven b := by
  by_contra hc
  have hlt : RoundHalfEven b + 1 ≤ RoundHalfEven a := by omega
  have hq : (RoundHalfEven b : ℚ) + 1 ≤ RoundHalfEven a := by exact_mod_cast hlt
  have ha : |a - RoundHalfEven a| ≤ 1 / 2 := by
    rcases RoundHalfEven_spec a with h1 | ⟨h1, -⟩
    · exact le_of_lt h1
    · exact le_of_eq h1
  have hb : |b - RoundHalfEven b| ≤ 1 / 2 := by
    rcases RoundHalfEven_spec b with h1 | ⟨h1, -⟩
    · exact le_of_lt h1
    · exact le_of_eq h1
  rw [abs_le] at ha hb
  have hab : a = b := le_antisymm h (by linarith [ha.1, hb.2])
  rw [hab] at hc
  exact hc (le_refl _)

/-- The exponent of a positive number: the power of two at or below it. -/
theorem Int_log_spec (x : ℚ) (hx : 0 < x) :
    (2 : ℚ) ^ Int.log 2 x ≤ x ∧ x < (2 : ℚ) ^ (Int.log 2 x + 1) := by
  constructor
  · have := Int.zpow_log_le_self (b := 2) (by norm_num) hx
    exact_mod_cast this
  · have := Int.lt_zpow_succ_log_self (b := 2) (by norm_num) x
    exact_mod_cast this

/-- The float rounding of a positive number lies between the powers of two around it; its
factor lies between 2^23 and 2^24. -/
theorem Round32_pos_bounds (x : ℚ) (hx : 0 < x) :
    Round32 x = (RoundHalfEven (x / (2 : ℚ) ^ (Int.log 2 x - 23)) : ℚ)
      * (2 : ℚ) ^ (Int.log 2 x - 23) ∧
    (8388608 : ℤ) ≤ RoundHalfEven (x / (2 : ℚ) ^ (Int.log 2 x - 23)) ∧
    RoundHalfEven (x / (2 : ℚ) ^ (Int.log 2 x - 23)) ≤ (16777216 : ℤ) := by
  obtain ⟨h1, h2⟩ := Int_log_spec x hx
  have hu : (0 : ℚ) < (2 : ℚ) ^ (Int.log 2 x - 23) := zpow_pos (by norm_num) _
  have e1 : (2 : ℚ) ^ Int.log 2 x = 8388608 * (2 : ℚ) ^ (Int.log 2 x - 23) := by
    have : Int.log 2 x = Int.log 2 x - 23 + 23 := by ring
    conv_lhs => rw [this, zpow_add₀ (by norm_num : (2 : ℚ) ≠ 0)]
    norm_num
    ring
  have e2 : (2 : ℚ) ^ (Int.log 2 x + 1) = 16777216 * (2 : ℚ) ^ (Int.log 2 x - 23) := by
    rw [zpow_sub₀ (by norm_num : (2 : ℚ) ≠ 0), zpow_add₀ (by norm_num : (2 : ℚ) ≠ 0)]
    norm_num
    ring
  refine ⟨?_, ?_, ?_⟩
  · unfold Round32
    rw [if_neg (ne_of_gt hx), abs_of_pos hx]
  · have h : ((8388608 : ℤ) : ℚ) ≤ x / (2 : ℚ) ^ (Int.log 2 x - 23) := by
      rw [le_div_iff₀ hu]
      push_cast
      linarith
    have := RoundHalfEven_mono _ _ h
    rwa [RoundHalfEven_intCast] at this
  · have h : x / (2 : ℚ) ^ (Int.log 2 x - 23) ≤ ((16777216 : ℤ) : ℚ) := by
      rw [div_le_iff₀ hu]
      push_cast
      linarith
    have := RoundHalfEven_mono _ _ h
    rwa [RoundHalfEven_intCast] at this

/-- The float rounding is monotone on the positive numbers. -/
theorem Round32_mono_pos (x y : ℚ) (hx : 0 < x) (hxy : x ≤ y) : Round32 x ≤ Round32 y := by
  have hy : 0 < y := lt_of_lt_of_le hx hxy
  obtain ⟨ex, lx, ux⟩ := Round32_pos_bounds x hx
  obtain ⟨ey, ly, uy⟩ := Round32_pos_bounds y hy
  have hlog : Int.log 2 x ≤ Int.log 2 y := Int.log_mono_right hx hxy
  rw [ex, ey]
  rcases lt_or_eq_of_le hlog with hlt | heq
  · have hux : (0 : ℚ) < (2 : ℚ) ^ (Int.log 2 x - 23) := zpow_pos (by norm_num) _
    have huy : (0 : ℚ) < (2 : ℚ) ^ (Int.log 2 y - 23) := zpow_pos (by norm_num) _
    have h1 : (RoundHalfEven (x / (2 : ℚ) ^ (Int.log 2 x - 23)) : ℚ)
        * (2 : ℚ) ^ (Int.log 2 x - 23) ≤ 16777216 * (2 : ℚ) ^ (Int.log 2 x - 23) := by
      apply mul_le_mul_of_nonneg_right _ (le_of_lt hux)
      exact_mod_cast ux
    have h2 : 8388608 * (2 : ℚ) ^ (Int.log 2 y - 23)
        ≤ (RoundHalfEven (y / (2 : ℚ) ^ (Int.log 2 y - 23)) : ℚ)
          * (2 : ℚ) ^ (Int.log 2 y - 23) := by
      apply mul_le_mul_of_nonneg_right _ (le_of_lt huy)
      exact_mod_cast ly
    have h3 : (2 : ℚ) ^ (Int.log 2 x - 23 + 1) ≤ (2 : ℚ) ^ (Int.log 2 y - 23) :=
      zpow_le_zpow_right₀ (by norm_num) (by omega)
    have e : (2 : ℚ) ^ (Int.log 2 x - 23 + 1) = 2 * (2 : ℚ) ^ (Int.log 2 x - 23) := by
      rw [zpow_add₀ (by norm_num : (2 : ℚ) ≠ 0)]
      norm_num
      ring
    rw [e] at h3
    linarith
  · rw [heq]
    apply mul_le_mul_of_nonneg_right _ (le_of_lt (zpow_pos (by norm_num) _))
    have hdiv : x / (2 : ℚ) ^ (Int.log 2 y - 23) ≤ y / (2 : ℚ) ^ (Int.log 2 y - 23) :=
      div_le_div_of_nonneg_right hxy (le_of_lt (zpow_pos (by norm_num) _))
    exact_mod_cast RoundHalfEven_mono _ _ hdiv

/-- The float rounding is monotone. -/
theorem Round32_mono (x y : ℚ) (hxy : x ≤ y) : Round32 x ≤ Round32 y := by
  rcases lt_trichotomy 0 x with hx | hx | hx
  · exact Round32_mono_pos x y hx hxy
  · rw [← hx, Round32_zero]
    exact Float32Math.Round_nonneg y (by rw [hx]; exact hxy)
  · rcases le_or_lt 0 y with hy | hy
    · have h1 : 0 ≤ Round32 (-x) := Float32Math.Round_nonneg (-x) (by linarith)
      rw [Round32_neg] at h1
      have h2 : 0 ≤ Round32 y := Float32Math.Round_nonneg y hy
      linarith
    · have h := Round32_mono_pos (-y) (-x) (by linarith) (by linarith)
      rw [Round32_neg, Round32_neg] at h
      linarith

/-- The float rounding keeps the floats: rounding twice is rounding once. -/
theorem Round32_idem (x : ℚ) : Round32 (Round32 x) = Round32 x := by
  have hpos : ∀ x : ℚ, 0 < x → Round32 (Round32 x) = Round32 x := by
    intro x hx
    obtain ⟨ex, lx, ux⟩ := Round32_pos_bounds x hx
    have hu : (0 : ℚ) < (2 : ℚ) ^ (Int.log 2 x - 23) := zpow_pos (by norm_num) _
    have hune : (2 : ℚ) ^ (Int.log 2 x - 23) ≠ 0 := ne_of_gt hu
    have e1 : (2 : ℚ) ^ Int.log 2 x = 8388608 * (2 : ℚ) ^ (Int.log 2 x - 23) := by
      have : Int.log 2 x = Int.log 2 x - 23 + 23 := by ring
      conv_lhs => rw [this, zpow_add₀ (by norm_num : (2 : ℚ) ≠ 0)]
      norm_num
      ring
    have e2 : (2 : ℚ) ^ (Int.log 2 x + 1) = 16777216 * (2 : ℚ) ^ (Int.log 2 x - 23) := by
      rw [zpow_sub₀ (by norm_num : (2 : ℚ) ≠ 0), zpow_add₀ (by norm_num : (2 : ℚ) ≠ 0)]
      norm_num
      ring
    have lq : (8388608 : ℚ) ≤ RoundHalfEven (x / (2 : ℚ) ^ (Int.log 2 x - 23)) := by
      exact_mod_cast lx
    rcases lt_or_eq_of_le ux with hlt | heq
    · have uq : (RoundHalfEven (x / (2 : ℚ) ^ (Int.log 2 x - 23)) : ℚ) + 1 ≤ 16777216 := by
        exact_mod_cast hlt
      rw [ex]
      rw [Round32_eq _ (Int.log 2 x) (RoundHalfEven (x / (2 : ℚ) ^ (Int.log 2 x - 23)))
        (by rw [e1]; exact mul_le_mul_of_nonneg_right lq (le_of_lt hu))
        (by
          rw [e2]
          apply mul_lt_mul_of_pos_right _ hu
          linarith)
        (by rw [mul_div_assoc, div_self hune, mul_one]; linarith)
        (by rw [mul_div_assoc, div_self hune, mul_one]; linarith)]
    · have e3 : (2 : ℚ) ^ (Int.log 2 x + 1 - 23) = 2 * (2 : ℚ) ^ (Int.log 2 x - 23) := by
        have : Int.log 2 x + 1 - 23 = Int.log 2 x - 23 + 1 := by ring
        rw [this, zpow_add₀ (by norm_num : (2 : ℚ) ≠ 0)]
        norm_num
        ring
      have e4 : (2 : ℚ) ^ (Int.log 2 x + 1 + 1) = 33554432 * (2 : ℚ) ^ (Int.log 2 x - 23) := by
        have : Int.log 2 x + 1 + 1 = Int.log 2 x - 23 + 25 := by ring
        rw [this, zpow_add₀ (by norm_num : (2 : ℚ) ≠ 0)]
        norm_num
        ring
      rw [ex, heq]
      push_cast
      rw [Round32_eq _ (Int.log 2 x + 1) 8388608
        (by rw [e2])
        (by rw [e4]; linarith)
        (by
          rw [e3, mul_div_mul_right _ _ hune]
          norm_num)
        (by
          rw [e3, mul_div_mul_right _ _ hune]
          norm_num)]
      rw [e3]
      push_cast
      ring
  rcases lt_trichotomy 0 x with hx | hx | hx
  · exact hpos x hx
  · rw [← hx, Round32_zero, Round32_zero]
  · have h := hpos (-x) (by linarith)
    rw [Round32_neg, Round32_neg] at h
    linarith

/-! ## Values of the single precision arithmetic -/

/-- The single precision rounding keeps the natural numbers below 2^24. -/
theorem Float32Math_Round_natCast (n : ℕ) (h : n < 16777216) :
    Float32Math.Round (n : ℚ) = n := Round32_natCast n h

/-- The single precision rounding keeps the opposites of the natural numbers below
2^24. -/
theorem Float32Math_Round_neg_natCast (n : ℕ) (h : n < 16777216) :
    Float32Math.Round (-(n : ℚ)) = -(n : ℚ) := by
  show Round32 (-(n : ℚ)) = -(n : ℚ)
  rw [Round32_neg, Round32_natCast n h]

/-- The single precision rounding of a positive number between two powers of two. -/
theorem Float32Math_Round_eq (x y : ℚ) (k m : ℤ) (h1 : (2 : ℚ) ^ k ≤ x)
    (h2 : x < (2 : ℚ) ^ (k + 1)) (hlo : (m : ℚ) - 1 / 2 < x / (2 : ℚ) ^ (k - 23))
    (hhi : x / (2 : ℚ) ^ (k - 23) < (m : ℚ) + 1 / 2) (hy : y = m * (2 : ℚ) ^ (k - 23)) :
    Float32Math.Round x = y := by
  rw [hy]
  exact Round32_eq x k m h1 h2 hlo hhi

/-- The single precision rounding of a negative number between two powers of two. -/
theorem Float32Math_Round_neg_eq (x y : ℚ) (k m : ℤ) (h1 : (2 : ℚ) ^ k ≤ x)
    (h2 : x < (2 : ℚ) ^ (k + 1)) (hlo : (m : ℚ) - 1 / 2 < x / (2 : ℚ) ^ (k - 23))
    (hhi : x / (2 : ℚ) ^ (k - 23) < (m : ℚ) + 1 / 2) (hy : y = m * (2 : ℚ) ^ (k - 23)) :
    Float32Math.Round (-x) = -y := by
  show Round32 (-x) = -y
  rw [Round32_neg, hy, Round32_eq x k m h1 h2 hlo hhi]

/-- The single precision rounding of a positive number half way between two floats. -/
theorem Float32Math_Round_tie (x y : ℚ) (k m : ℤ) (h1 : (2 : ℚ) ^ k ≤ x)
    (h2 : x < (2 : ℚ) ^ (k + 1))
    (ht : x / (2 : ℚ) ^ (k - 23) = (m : ℚ) + 1 / 2 ∨ x / (2 : ℚ) ^ (k - 23) = (m : ℚ) - 1 / 2)
    (he : m % 2 = 0) (hy : y = m * (2 : ℚ) ^ (k - 23)) :
    Float32Math.Round x = y := by
  rw [hy]
  exact Round32_tie x k m h1 h2 ht he

/-- The single precision rounding of a negative number half way between two floats. -/
theorem Float32Math_Round_neg_tie (x y : ℚ) (k m : ℤ) (h1 : (2 : ℚ) ^ k ≤ x)
    (h2 : x < (2 : ℚ) ^ (k + 1))
    (ht : x / (2 : ℚ) ^ (k - 23) = (m : ℚ) + 1 / 2 ∨ x / (2 : ℚ) ^ (k - 23) = (m : ℚ) - 1 / 2)
    (he : m % 2 = 0) (hy : y = m * (2 : ℚ) ^ (k - 23)) :
    Float32Math.Round (-x) = -y := by
  show Round32 (-x) = -y
  rw [Round32_neg, hy, Round32_tie x k m h1 h2 ht he]

/-- The reference inverse square root of a natural number whose integer square root is
`s`. -/
theorem RationalMath_InvSqrt_natCast (n s : ℕ) (h1 : s * s ≤ n) (h2 : n < (s + 1) * (s + 1)) :
    RationalMath.InvSqrt (n : ℚ) = 1 / (s : ℚ) := by
  have hs : Nat.sqrt n = s := (Nat.eq_sqrt.mpr ⟨h1, h2⟩).symm
  simp [RationalMath, hs]

/-- The single precision inverse square root is the rounded reference one. -/
theorem Float32Math_InvSqrt_eq (x r y : ℚ) (hq : RationalMath.InvSqrt x = r)
    (hr : Float32Math.Round r = y) : Float32Math.InvSqrt x = y := by
  show Round32 (RationalMath.InvSqrt x) = y
  rw [hq]
  exact hr

/-! ## The search loop in float arithmetic -/

/-- In float arithmetic too an iteration inside the array caches a tuple: the division is
reached with a divisor above a positive number. -/
theorem Rounded_Edge_isSome (M : FMath) (Points : List FVector) (q : FVector) (Idx : ℕ)
    (h : Idx < Points.length) : ∃ r, Rounded.Edge M Points q Idx = some r := by
  have hpos : 0 < Points.length := Nat.lt_of_le_of_lt (Nat.zero_le _) h
  have h1 : (Idx + 1) % Points.length < Points.length := Nat.mod_lt _ hpos
  have h2 : (if 1 ≤ Idx then Idx - 1 else Points.length - 1) < Points.length := by
    split_ifs <;> omega
  have h3 : (if Idx + 2 < Points.length then Idx + 2 else 0) < Points.length := by
    split_ifs <;> omega
  unfold Rounded.Edge
  simp only [List.getElem?_eq_getElem h, List.getElem?_eq_getElem h1,
    List.getElem?_eq_getElem h2, List.getElem?_eq_getElem h3, Option.bind_eq_bind,
    Option.some_bind, Option.pure_def]
  by_cases hd1 : Rounded.Dot M (Rounded.Sub M q Points[Idx])
      (Rounded.Sub M Points[(Idx + 1) % Points.length] Points[Idx]) ≤ 0
  · simp only [if_pos hd1]
    exact ⟨_, rfl⟩
  · by_cases hd2 : Rounded.Dot M (Rounded.Sub M Points[(Idx + 1) % Points.length] Points[Idx])
        (Rounded.Sub M Points[(Idx + 1) % Points.length] Points[Idx])
        ≤ Rounded.Dot M (Rounded.Sub M q Points[Idx])
          (Rounded.Sub M Points[(Idx + 1) % Points.length] Points[Idx])
    · simp only [if_neg hd1, if_pos hd2]
      exact ⟨_, rfl⟩
    · have hne : Rounded.Dot M (Rounded.Sub M Points[(Idx + 1) % Points.length] Points[Idx])
          (Rounded.Sub M Points[(Idx + 1) % Points.length] Points[Idx]) ≠ 0 :=
        ne_of_gt (lt_trans (not_le.mp hd1) (not_le.mp hd2))
      simp only [if_neg hd1, if_neg hd2, Rounded.FDiv, if_neg hne, Option.some_bind]
      exact ⟨_, rfl⟩

/-- The loop in float arithmetic runs through any prefix of the indices and keeps its
invariant. -/
theorem Rounded_Loop_invariant (M : FMath) (Points : List FVector) (q : FVector) (k : ℕ)
    (hk : k ≤ Points.length) :
    ∃ st, (List.range k).foldlM (Rounded.Body M Points q) IsInside.Init = some st ∧
      Rounded.LoopInv M Points q k st := by
  induction k with
  | zero =>
    refine ⟨IsInside.Init, rfl, ⟨rfl, ?_, le_refl _, ?_, fun _ => rfl, ?_, ?_⟩⟩
    · intro j hj; omega
    · intro h; exact absurd h (lt_irrefl _)
    · intro j hj; omega
    · intro j hj
      exact absurd hj (Nat.not_lt_zero j)
  | succ k ih =>
    obtain ⟨st, hst, inv⟩ := ih (Nat.le_of_succ_le hk)
    obtain ⟨r, hr⟩ := Rounded_Edge_isSome M Points q k (Nat.lt_of_succ_le hk)
    have hcached : ∀ j, j < k + 1 →
        (st.CachedLocationAndNormal ++ [r])[j]? = Rounded.Edge M Points q j := by
      intro j hj
      rcases Nat.lt_succ_iff_lt_or_eq.mp hj with hlt | heq
      · rw [List.getElem?_append_left (by rw [inv.length_eq]; exact hlt)]
        exact inv.cached j hlt
      · subst heq
        rw [List.getElem?_append_right (by rw [inv.length_eq]), inv.length_eq, hr]
        simp
    rw [List.range_succ, List.foldlM_append, hst]
    simp only [Option.bind_eq_bind, Option.some_bind, List.foldlM_cons, List.foldlM_nil,
      Rounded.Body, hr, Option.pure_def]
    by_cases hd : Rounded.DistSquared M r.1 q < st.ClosestLocationDistance
    · rw [if_pos hd]
      refine ⟨_, rfl, ⟨by simp [inv.length_eq], hcached, ?_, ?_, ?_, ?_, ?_⟩⟩
      · exact le_trans (le_of_lt hd) inv.le_max
      · intro _; exact ⟨Nat.lt_succ_self k, r, hr, rfl⟩
      · intro h
        exact absurd (lt_of_lt_of_le hd inv.le_max) (by simpa using h.ge)
      · intro j hj r' hr'
        rcases Nat.lt_succ_iff_lt_or_eq.mp hj with hlt | heq
        · exact le_trans (le_of_lt hd) (inv.least j hlt r' hr')
        · subst heq
          rw [hr] at hr'
          cases hr'
          exact le_refl _
      · intro j hj r' hr'
        exact lt_of_lt_of_le hd (inv.least j hj r' hr')
    · rw [if_neg hd]
      refine ⟨_, rfl, ⟨by simp [inv.length_eq], hcached, inv.le_max, ?_, inv.untouched, ?_,
        inv.first⟩⟩
      · intro h
        obtain ⟨h1, h2⟩ := inv.found h
        exact ⟨Nat.lt_succ_of_lt h1, h2⟩
      · intro j hj r' hr'
        rcases Nat.lt_succ_iff_lt_or_eq.mp hj with hlt | heq
        · exact inv.least j hlt r' hr'
        · subst heq
          rw [hr] at hr'
          cases hr'
          exact not_lt.mp hd

/-! ## Float arithmetic without rounding

With a rounding that keeps every number the float reading is the exact reading. -/

/-- Without rounding the float `GetSafeNormal` is the exact one. -/
theorem Rounded_GetSafeNormal_exact (M : FMath) (hExact : ∀ x, M.Round x = x) (a : FVector) :
    Rounded.GetSafeNormal M a = a.GetSafeNormal M := by
  simp only [Rounded.GetSafeNormal, FVector.GetSafeNormal, hExact]

/-- Without rounding one iteration of the float loop caches the tuple of the exact one. -/
theorem Rounded_Edge_exact (M : FMath) (hExact : ∀ x, M.Round x = x) (Points : List FVector)
    (q : FVector) (Idx : ℕ) : Rounded.Edge M Points q Idx = IsInside.Edge M Points q Idx := by
  have hSub : ∀ a b : FVector, Rounded.Sub M a b = a - b := by
    intro a b; simp only [Rounded.Sub, hExact, FVector.sub_def]
  have hAdd : ∀ a b : FVector, Rounded.Add M a b = a + b := by
    intro a b; simp only [Rounded.Add, hExact, FVector.add_def]
  have hMul : ∀ (a : FVector) (k : ℚ), Rounded.Mul M a k = a * k := by
    intro a k; simp only [Rounded.Mul, hExact, FVector.mul_def]
  have hDiv : ∀ a : FVector, Rounded.Div M a 2 = a / (2 : ℚ) := by
    intro a
    simp only [Rounded.Div, Rounded.Mul, hExact, FVector.div_def, one_div, div_eq_mul_inv,
      one_mul]
  have hDot : ∀ a b : FVector, Rounded.Dot M a b = FVector.Dot a b := by
    intro a b; simp only [Rounded.Dot, hExact, FVector.Dot]
  have hCross : ∀ a b : FVector, Rounded.CrossProduct M a b = FVector.CrossProduct a b := by
    intro a b; simp only [Rounded.CrossProduct, hExact, FVector.CrossProduct]
  have hDivq : ∀ a b : ℚ, Rounded.FDiv M a b = FDiv a b := by
    intro a b; simp only [Rounded.FDiv, FDiv, hExact]
  unfold Rounded.Edge IsInside.Edge
  simp only [hSub, hAdd, hMul, hDiv, hDot, hCross, hDivq, Rounded_GetSafeNormal_exact M hExact]

/-- Without rounding the float squared distance is the exact one. -/
theorem Rounded_DistSquared_exact (M : FMath) (hExact : ∀ x, M.Round x = x) (a b : FVector) :
    Rounded.DistSquared M a b = FVector.DistSquared a b := by
  simp only [Rounded.DistSquared, hExact, FVector.DistSquared]

/-- Without rounding the float loop is the exact loop. -/
theorem Rounded_Loop_exact (M : FMath) (hExact : ∀ x, M.Round x = x) (Points : List FVector)
    (q : FVector) : Rounded.Loop M Points q = IsInside.Loop M Points q := by
  have hBody : Rounded.Body M Points q = IsInside.Body M Points q := by
    funext st Idx
    simp only [Rounded.Body, IsInside.Body, Rounded_Edge_exact M hExact,
      Rounded_DistSquared_exact M hExact]
  simp only [Rounded.Loop, IsInside.Loop, hBody]

/-- Without rounding the float transform of a position is the exact one. -/
theorem Rounded_Transform_exact (M : FMath) (hExact : ∀ x, M.Round x = x) (T : FTransform)
    (V : FVector) :
    Rounded.TransformPosition M T V = T.TransformPosition V ∧
    Rounded.InverseTransformPosition M T V = T.InverseTransformPosition V := by
  constructor
  · simp only [Rounded.TransformPosition, Rounded.RotateVector, Rounded.Add, Rounded.Mul,
      Rounded.CrossProduct, Rounded.Scale, hExact, FTransform.TransformPosition,
      FQuat.RotateVector, FVector.CrossProduct, FVector.Scale, FVector.add_def,
      FVector.smul_def]
  · simp only [Rounded.InverseTransformPosition, Rounded.UnrotateVector, Rounded.Add,
      Rounded.Mul, Rounded.Sub, Rounded.CrossProduct, Rounded.Scale, Rounded.SafeReciprocal,
      hExact, FTransform.InverseTransformPosition, FQuat.UnrotateVector, FVector.CrossProduct,
      FVector.Scale, FVector.add_def, FVector.sub_def, FVector.smul_def, SafeReciprocal]

/-- Without rounding the part of the float `IsInside` after the loop is the exact one. -/
theorem Rounded_Result_exact (M : FMath) (hExact : ∀ x, M.Round x = x)
    (A : AVolumetricAudioSource) (L : FVector) (c : FVector × FVector) :
    Rounded.Result M A L c = IsInside.Result A L c := by
  simp only [Rounded.Result, IsInside.Result, (Rounded_Transform_exact M hExact _ _).1,
    Rounded.GetBox, Rounded.Sub, Rounded.Add, Rounded.Dot, hExact, FBoxSphereBounds.GetBox,
    FVector.sub_def, FVector.add_def, FVector.Dot]

/-- Without rounding the float `IsInside` is the exact one. -/
theorem Rounded_IsInside_exact (M : FMath) (hExact : ∀ x, M.Round x = x)
    (A : AVolumetricAudioSource) (L : FVector) :
    Rounded.IsInside M A L = IsInside M A L := by
  simp only [Rounded.IsInside, IsInside, (Rounded_Transform_exact M hExact _ _).2,
    Rounded_Loop_exact M hExact, Rounded_Result_exact M hExact]

/-! ## Evaluation of the float reading -/

/-- The first branch of an iteration in float arithmetic: the start point is cached when
the computed `Dot1` is not positive. -/
theorem Rounded_Edge_start (M : FMath) (Points : List FVector) (q : FVector) (Idx : ℕ)
    (S E Pv : FVector) (hS : Points[Idx]? = some S)
    (hE : Points[(Idx + 1) % Points.length]? = some E)
    (hPv : Points[if 1 ≤ Idx then Idx - 1 else Points.length - 1]? = some Pv)
    (hd : Rounded.Dot M (Rounded.Sub M q S) (Rounded.Sub M E S) ≤ 0) :
    Rounded.Edge M Points q Idx = some (S,
      Rounded.Div M (Rounded.Add M (Rounded.GetSafeNormal M (Rounded.Sub M S Pv))
        (Rounded.GetSafeNormal M (Rounded.Sub M S E))) 2) := by
  unfold Rounded.Edge
  simp only [hS, hE, hPv, Option.bind_eq_bind, Option.some_bind, Option.pure_def, if_pos hd]

/-- The second branch of an iteration in float arithmetic: the end point is cached when
the computed `Dot2` is at most the computed `Dot1`. -/
theorem Rounded_Edge_end (M : FMath) (Points : List FVector) (q : FVector) (Idx : ℕ)
    (S E Nx : FVector) (hS : Points[Idx]? = some S)
    (hE : Points[(Idx + 1) % Points.length]? = some E)
    (hNx : Points[if Idx + 2 < Points.length then Idx + 2 else 0]? = some Nx)
    (hd1 : ¬ Rounded.Dot M (Rounded.Sub M q S) (Rounded.Sub M E S) ≤ 0)
    (hd2 : Rounded.Dot M (Rounded.Sub M E S) (Rounded.Sub M E S)
      ≤ Rounded.Dot M (Rounded.Sub M q S) (Rounded.Sub M E S)) :
    Rounded.Edge M Points q Idx = some (E,
      Rounded.Div M (Rounded.Add M (Rounded.GetSafeNormal M (Rounded.Sub M E S))
        (Rounded.GetSafeNormal M (Rounded.Sub M E Nx))) 2) := by
  unfold Rounded.Edge
  simp only [hS, hE, hNx, Option.bind_eq_bind, Option.some_bind, Option.pure_def, if_neg hd1,
    if_pos hd2]

/-- The third branch of an iteration in float arithmetic: the rounded projection on the
segment is cached when the computed `Dot1` is between zero and the computed `Dot2`. -/
theorem Rounded_Edge_mid (M : FMath) (Points : List FVector) (q : FVector) (Idx : ℕ)
    (S E : FVector) (hS : Points[Idx]? = some S)
    (hE : Points[(Idx + 1) % Points.length]? = some E)
    (hd1 : ¬ Rounded.Dot M (Rounded.Sub M q S) (Rounded.Sub M E S) ≤ 0)
    (hd2 : ¬ Rounded.Dot M (Rounded.Sub M E S) (Rounded.Sub M E S)
      ≤ Rounded.Dot M (Rounded.Sub M q S) (Rounded.Sub M E S)) :
    Rounded.Edge M Points q Idx = some
      (Rounded.Add M S (Rounded.Mul M (Rounded.Sub M E S)
        (M.Round (Rounded.Dot M (Rounded.Sub M q S) (Rounded.Sub M E S)
          / Rounded.Dot M (Rounded.Sub M E S) (Rounded.Sub M E S)))),
        Rounded.CrossProduct M (Rounded.GetSafeNormal M (Rounded.Sub M S E))
          FVector.UpVector) := by
  have hne : Rounded.Dot M (Rounded.Sub M E S) (Rounded.Sub M E S) ≠ 0 :=
    ne_of_gt (lt_trans (not_le.mp hd1) (not_le.mp hd2))
  unfold Rounded.Edge
  simp only [hS, hE, Option.bind_eq_bind, Option.some_bind, Option.pure_def, if_neg hd1,
    if_neg hd2, Rounded.FDiv, if_neg hne]

/-- The float loop selects the first index whose computed squared distance is the least,
when that distance is below the sentinel. -/
theorem Rounded_Loop_selected (M : FMath) (Points : List FVector) (q : FVector) (k : ℕ)
    (hk : k < Points.length) (c : FVector × FVector)
    (hc : Rounded.Edge M Points q k = some c)
    (hlt : Rounded.DistSquared M c.1 q < MAX_FLT)
    (hfirst : ∀ j r, j < k → Rounded.Edge M Points q j = some r →
      Rounded.DistSquared M c.1 q < Rounded.DistSquared M r.1 q)
    (hleast : ∀ j r, j < Points.length → Rounded.Edge M Points q j = some r →
      Rounded.DistSquared M c.1 q ≤ Rounded.DistSquared M r.1 q) :
    ∃ st, Rounded.Loop M Points q = some st ∧ st.ClosestLocationIndex = k ∧
      st.CachedLocationAndNormal[st.ClosestLocationIndex]? = some c ∧
      st.ClosestLocationDistance = Rounded.DistSquared M c.1 q := by
  obtain ⟨st, hst, inv⟩ := Rounded_Loop_invariant M Points q Points.length (le_refl _)
  have h1 : st.ClosestLocationDistance ≤ Rounded.DistSquared M c.1 q := inv.least k hk c hc
  obtain ⟨hidx, r, hr, hrd⟩ := inv.found (lt_of_le_of_lt h1 hlt)
  have h2 : Rounded.DistSquared M c.1 q ≤ st.ClosestLocationDistance := by
    rw [← hrd]; exact hleast _ r hidx hr
  have hd : st.ClosestLocationDistance = Rounded.DistSquared M c.1 q := le_antisymm h1 h2
  have hk' : st.ClosestLocationIndex = k := by
    rcases Nat.lt_trichotomy st.ClosestLocationIndex k with h | h | h
    · have := hfirst _ r h hr
      rw [hrd, hd] at this
      exact absurd this (lt_irrefl _)
    · exact h
    · have := inv.first k h c hc
      rw [hd] at this
      exact absurd this (lt_irrefl _)
  refine ⟨st, hst, hk', ?_, hd⟩
  rw [hk', inv.cached k hk, hc]

/-- The float `IsInside` computes its result from the tuple selected by the loop. -/
theorem Rounded_IsInside_of_selected (M : FMath) (A : AVolumetricAudioSource)
    (L : FVector) (st : FLoopState) (c : FVector × FVector)
    (hst : Rounded.Loop M A.Spline.Points
      (Rounded.InverseTransformPosition M A.Spline.ComponentToWorld L) = some st)
    (hc : st.CachedLocationAndNormal[st.ClosestLocationIndex]? = some c) :
    Rounded.IsInside M A L = some (Rounded.Result M A L c) := by
  unfold Rounded.IsInside
  simp only [hst, hc, Option.bind_eq_bind, Option.some_bind, Option.pure_def]

/-! ## Single precision evaluations -/

/-- In single precision the loop over the default square (side 400) at the local query
(-6000, -199, 0) keeps index 1 and the vertex (-200, -200, 0): the squared distances
computed for the segments 1 and 2 are both 33640000. -/
theorem Float32_default_square_tie :
    ∃ st n, Rounded.Loop Float32Math (DefaultSpline 200).Points ⟨(-6000), (-199), 0⟩ = some st ∧
      st.ClosestLocationIndex = 1 ∧
      st.CachedLocationAndNormal[st.ClosestLocationIndex]? = some (⟨(-200), (-200), 0⟩, n) ∧
      st.ClosestLocationDistance = 33640000 := by
  have key : ∀ M : FMath,
      M.Round (-2320000) = (-2320000) →
      M.Round (-6200) = (-6200) →
      M.Round (-5800) = (-5800) →
      M.Round (-400) = (-400) →
      M.Round (-(418381825 / 1048576)) = (-399) →
      M.Round (-399) = (-399) →
      M.Round (-200) = (-200) →
      M.Round (-199) = (-199) →
      M.Round 0 = 0 →
      M.Round (1 / 400) = (5368709 / 2147483648) →
      M.Round (399 / 400) = (16735273 / 16777216) →
      M.Round (134217725 / 134217728) = 1 →
      M.Round 1 = 1 →
      M.Round 200 = 200 →
      M.Round 400 = 400 →
      M.Round 159201 = 159201 →
      M.Round 159600 = 159600 →
      M.Round 160000 = 160000 →
      M.Round 2480000 = 2480000 →
      M.Round 33640000 = 33640000 →
      M.Round 33640001 = 33640000 →
      M.Round 33799200 = 33799200 →
      M.Round 33799201 = 33799200 →
      M.Round 38440000 = 38440000 →
      ∃ st n, Rounded.Loop M (DefaultSpline 200).Points ⟨(-6000), (-199), 0⟩ = some st ∧
        st.ClosestLocationIndex = 1 ∧
        st.CachedLocationAndNormal[st.ClosestLocationIndex]? = some (⟨(-200), (-200), 0⟩, n) ∧
        st.ClosestLocationDistance = 33640000 := by
    intro M h1 h2 h3 h4 h5 h6 h7 h8 h9 h10 h11 h12 h13 h14 h15 h16 h17 h18 h19
      h20 h21 h22 h23 h24
    have hE0 : Rounded.Edge M (DefaultSpline 200).Points ⟨(-6000), (-199), 0⟩ 0 = some (⟨200, (-199), 0⟩,
        Rounded.CrossProduct M (Rounded.GetSafeNormal M (Rounded.Sub M ⟨200, 200, 0⟩
            ⟨200, (-200), 0⟩))
          FVector.UpVector) := by
      rw [Rounded_Edge_mid M _ _ 0 ⟨200, 200, 0⟩ ⟨200, (-200), 0⟩ rfl rfl
        (by norm_num [Rounded.Dot, Rounded.Sub,
          h1, h2, h3, h4, h5, h6, h7, h8, h9, h10, h11, h12, h13, h14, h15, h16, h17, h18, h19,
          h20, h21, h22, h23, h24])
        (by norm_num [Rounded.Dot, Rounded.Sub,
          h1, h2, h3, h4, h5, h6, h7, h8, h9, h10, h11, h12, h13, h14, h15, h16, h17, h18, h19,
          h20, h21, h22, h23, h24])]
      norm_num [Rounded.Add, Rounded.Mul, Rounded.Sub, Rounded.Dot,
          h1, h2, h3, h4, h5, h6, h7, h8, h9, h10, h11, h12, h13, h14, h15, h16, h17, h18, h19,
          h20, h21, h22, h23, h24]
    have hD0 : Rounded.DistSquared M ⟨200, (-199), 0⟩ ⟨(-6000), (-199), 0⟩ = 38440000 := by
      norm_num [Rounded.DistSquared,
          h1, h2, h3, h4, h5, h6, h7, h8, h9, h10, h11, h12, h13, h14, h15, h16, h17, h18, h19,
          h20, h21, h22, h23, h24]
    have hE1 : Rounded.Edge M (DefaultSpline 200).Points ⟨(-6000), (-199), 0⟩ 1 = some (⟨(-200), (-200), 0⟩,
        Rounded.Div M (Rounded.Add M (Rounded.GetSafeNormal M (Rounded.Sub M ⟨(-200), (-200), 0⟩
            ⟨200, (-200), 0⟩))
          (Rounded.GetSafeNormal M (Rounded.Sub M ⟨(-200), (-200), 0⟩
            ⟨(-200), 200, 0⟩))) 2) := by
      rw [Rounded_Edge_end M _ _ 1 ⟨200, (-200), 0⟩ ⟨(-200), (-200), 0⟩
        ⟨(-200), 200, 0⟩ rfl rfl rfl
        (by norm_num [Rounded.Dot, Rounded.Sub,
          h1, h2, h3, h4, h5, h6, h7, h8, h9, h10, h11, h12, h13, h14, h15, h16, h17, h18, h19,
          h20, h21, h22, h23, h24])
        (by norm_num [Rounded.Dot, Rounded.Sub,
          h1, h2, h3, h4, h5, h6, h7, h8, h9, h10, h11, h12, h13, h14, h15, h16, h17, h18, h19,
          h20, h21, h22, h23, h24])]
    have hD1 : Rounded.DistSquared M ⟨(-200), (-200), 0⟩ ⟨(-6000), (-199), 0⟩ = 33640000 := by
      norm_num [Rounded.DistSquared,
          h1, h2, h3, h4, h5, h6, h7, h8, h9, h10, h11, h12, h13, h14, h15, h16, h17, h18, h19,
          h20, h21, h22, h23, h24]
    have hE2 : Rounded.Edge M (DefaultSpline 200).Points ⟨(-6000), (-199), 0⟩ 2 = some (⟨(-200), (-199), 0⟩,
        Rounded.CrossProduct M (Rounded.GetSafeNormal M (Rounded.Sub M ⟨(-200), (-200), 0⟩
            ⟨(-200), 200, 0⟩))
          FVector.UpVector) := by
      rw [Rounded_Edge_mid M _ _ 2 ⟨(-200), (-200), 0⟩ ⟨(-200), 200, 0⟩ rfl rfl
        (by norm_num [Rounded.Dot, Rounded.Sub,
          h1, h2, h3, h4, h5, h6, h7, h8, h9, h10, h11, h12, h13, h14, h15, h16, h17, h18, h19,
          h20, h21, h22, h23, h24])
        (by norm_num [Rounded.Dot, Rounded.Sub,
          h1, h2, h3, h4, h5, h6, h7, h8, h9, h10, h11, h12, h13, h14, h15, h16, h17, h18, h19,
          h20, h21, h22, h23, h24])]
      norm_num [Rounded.Add, Rounded.Mul, Rounded.Sub, Rounded.Dot,
          h1, h2, h3, h4, h5, h6, h7, h8, h9, h10, h11, h12, h13, h14, h15, h16, h17, h18, h19,
          h20, h21, h22, h23, h24]
    have hD2 : Rounded.DistSquared M ⟨(-200), (-199), 0⟩ ⟨(-6000), (-199), 0⟩ = 33640000 := by
      norm_num [Rounded.DistSquared,
          h1, h2, h3, h4, h5, h6, h7, h8, h9, h10, h11, h12, h13, h14, h15, h16, h17, h18, h19,
          h20, h21, h22, h23, h24]
    have hE3 : Rounded.Edge M (DefaultSpline 200).Points ⟨(-6000), (-199), 0⟩ 3 = some (⟨(-200), 200, 0⟩,
        Rounded.Div M (Rounded.Add M (Rounded.GetSafeNormal M (Rounded.Sub M ⟨(-200), 200, 0⟩
            ⟨(-200), (-200), 0⟩))
          (Rounded.GetSafeNormal M (Rounded.Sub M ⟨(-200), 200, 0⟩
            ⟨200, 200, 0⟩))) 2) := by
      rw [Rounded_Edge_start M _ _ 3 ⟨(-200), 200, 0⟩ ⟨200, 200, 0⟩
        ⟨(-200), (-200), 0⟩ rfl rfl rfl
        (by norm_num [Rounded.Dot, Rounded.Sub,
          h1, h2, h3, h4, h5, h6, h7, h8, h9, h10, h11, h12, h13, h14, h15, h16, h17, h18, h19,
          h20, h21, h22, h23, h24])]
    have hD3 : Rounded.DistSquared M ⟨(-200), 200, 0⟩ ⟨(-6000), (-199), 0⟩ = 33799200 := by
      norm_num [Rounded.DistSquared,
          h1, h2, h3, h4, h5, h6, h7, h8, h9, h10, h11, h12, h13, h14, h15, h16, h17, h18, h19,
          h20, h21, h22, h23, h24]
    obtain ⟨st, hst, hidx, hcached, hdist⟩ :=
      Rounded_Loop_selected M (DefaultSpline 200).Points ⟨(-6000), (-199), 0⟩ 1 (by decide) _ hE1
        (by
          show Rounded.DistSquared M _ _ < MAX_FLT
          rw [hD1]
          norm_num [MAX_FLT])
        (by
          intro j r hj hr
          interval_cases j
          · rw [hE0] at hr
            cases hr
            show Rounded.DistSquared M _ _ < Rounded.DistSquared M _ _
            rw [hD1, hD0]
            norm_num)
        (by
          intro j r hj hr
          have hj4 : j < 4 := hj
          interval_cases j
          · rw [hE0] at hr
            cases hr
            show Rounded.DistSquared M _ _ ≤ Rounded.DistSquared M _ _
            rw [hD1, hD0]
            norm_num
          · rw [hE1] at hr
            cases hr
            exact le_refl _
          · rw [hE2] at hr
            cases hr
            show Rounded.DistSquared M _ _ ≤ Rounded.DistSquared M _ _
            rw [hD1, hD2]
          · rw [hE3] at hr
            cases hr
            show Rounded.DistSquared M _ _ ≤ Rounded.DistSquared M _ _
            rw [hD1, hD3]
            norm_num)
    exact ⟨st, _, hst, hidx, hcached, by rw [hdist, hD1]⟩
  exact key Float32Math
    (by exact_mod_cast Float32Math_Round_neg_natCast 2320000 (by norm_num))
    (by exact_mod_cast Float32Math_Round_neg_natCast 6200 (by norm_num))
    (by exact_mod_cast Float32Math_Round_neg_natCast 5800 (by norm_num))
    (by exact_mod_cast Float32Math_Round_neg_natCast 400 (by norm_num))
    (Float32Math_Round_neg_eq _ _ 8 13074432 (by norm_num) (by norm_num) (by norm_num)
      (by norm_num) (by norm_num))
    (by exact_mod_cast Float32Math_Round_neg_natCast 399 (by norm_num))
    (by exact_mod_cast Float32Math_Round_neg_natCast 200 (by norm_num))
    (by exact_mod_cast Float32Math_Round_neg_natCast 199 (by norm_num))
    Round32_zero
    (Float32Math_Round_eq _ _ (-9) 10737418 (by norm_num) (by norm_num) (by norm_num)
      (by norm_num) (by norm_num))
    (Float32Math_Round_eq _ _ (-1) 16735273 (by norm_num) (by norm_num) (by norm_num)
      (by norm_num) (by norm_num))
    (Float32Math_Round_eq _ _ (-1) 16777216 (by norm_num) (by norm_num) (by norm_num)
      (by norm_num) (by norm_num))
    (by exact_mod_cast Float32Math_Round_natCast 1 (by norm_num))
    (by exact_mod_cast Float32Math_Round_natCast 200 (by norm_num))
    (by exact_mod_cast Float32Math_Round_natCast 400 (by norm_num))
    (by exact_mod_cast Float32Math_Round_natCast 159201 (by norm_num))
    (by exact_mod_cast Float32Math_Round_natCast 159600 (by norm_num))
    (by exact_mod_cast Float32Math_Round_natCast 160000 (by norm_num))
    (by exact_mod_cast Float32Math_Round_natCast 2480000 (by norm_num))
    (Float32Math_Round_eq _ _ 25 8410000 (by norm_num) (by norm_num) (by norm_num)
      (by norm_num) (by norm_num))
    (Float32Math_Round_eq _ _ 25 8410000 (by norm_num) (by norm_num) (by norm_num)
      (by norm_num) (by norm_num))
    (Float32Math_Round_eq _ _ 25 8449800 (by norm_num) (by norm_num) (by norm_num)
      (by norm_num) (by norm_num))
    (Float32Math_Round_eq _ _ 25 8449800 (by norm_num) (by norm_num) (by norm_num)
      (by norm_num) (by norm_num))
    (Float32Math_Round_eq _ _ 25 9610000 (by norm_num) (by norm_num) (by norm_num)
      (by norm_num) (by norm_num))

set_option maxRecDepth 8192 in
/-- In single precision the query of the default square at (-2^33, 0, 0) returns true: the
four computed squared distances are equal and index 0 stays selected. -/
theorem Float32_far_query :
    Rounded.IsInside Float32Math DefaultActor ⟨(-8589934592), 0, 0⟩
        = some (true, ⟨(-8589934592), 0, 0⟩) := by
  have key : ∀ M : FMath,
      M.Round (-3435973836800) = (-3435973836800) →
      M.Round (-8589934792) = (-8589934592) →
      M.Round (-8589934592) = (-8589934592) →
      M.Round (-8589934392) = (-8589934592) →
      M.Round (-400) = (-400) →
      M.Round (-200) = (-200) →
      M.Round 0 = 0 →
      M.Round (1 / 100000000) = (11258999 / 1125899906842624) →
      M.Round (1 / 2) = (1 / 2) →
      M.Round (134217725 / 134217728) = 1 →
      M.Round 1 = 1 →
      M.Round 200 = 200 →
      M.Round 400 = 400 →
      M.Round 40000 = 40000 →
      M.Round 80000 = 80000 →
      M.Round 160000 = 160000 →
      M.Round 3435973836800 = 3435973836800 →
      M.Round 73786976294838206464 = 73786976294838206464 →
      M.Round 73786976294838246464 = 73786976294838206464 →
      M.InvSqrt 160000 = (5368709 / 2147483648) →
      Rounded.IsInside M DefaultActor ⟨(-8589934592), 0, 0⟩
          = some (true, ⟨(-8589934592), 0, 0⟩) := by
    intro M h1 h2 h3 h4 h5 h6 h7 h8 h9 h10 h11 h12 h13 h14 h15 h16 h17 h18 h19
      hI1
    have hPts0 : DefaultActor.Spline.Points = (DefaultSpline 200).Points :=
      by rw [DefaultActor_conditions.2.1]
    have hLocal0 : Rounded.InverseTransformPosition M DefaultActor.Spline.ComponentToWorld
        ⟨(-8589934592), 0, 0⟩ = ⟨(-8589934592), 0, 0⟩ := by
      norm_num [DefaultActor, AVolumetricAudioSource.Construct, DefaultSettings, DefaultSpline,
        Rounded.InverseTransformPosition, Rounded.UnrotateVector, Rounded.Scale, Rounded.Sub, Rounded.Add, Rounded.Mul, Rounded.CrossProduct,
        Rounded.SafeReciprocal, FTransform.Identity, FQuat.Identity, SMALL_NUMBER,
          h1, h2, h3, h4, h5, h6, h7, h8, h9, h10, h11, h12, h13, h14, h15, h16, h17, h18, h19,
          hI1]
    have hE0 : Rounded.Edge M (DefaultSpline 200).Points ⟨(-8589934592), 0, 0⟩ 0 = some (⟨200, 0, 0⟩,
        Rounded.CrossProduct M (Rounded.GetSafeNormal M (Rounded.Sub M ⟨200, 200, 0⟩
            ⟨200, (-200), 0⟩))
          FVector.UpVector) := by
      rw [Rounded_Edge_mid M _ _ 0 ⟨200, 200, 0⟩ ⟨200, (-200), 0⟩ rfl rfl
        (by norm_num [Rounded.Dot, Rounded.Sub,
          h1, h2, h3, h4, h5, h6, h7, h8, h9, h10, h11, h12, h13, h14, h15, h16, h17, h18, h19,
          hI1])
        (by norm_num [Rounded.Dot, Rounded.Sub,
          h1, h2, h3, h4, h5, h6, h7, h8, h9, h10, h11, h12, h13, h14, h15, h16, h17, h18, h19,
          hI1])]
      norm_num [Rounded.Add, Rounded.Mul, Rounded.Sub, Rounded.Dot,
          h1, h2, h3, h4, h5, h6, h7, h8, h9, h10, h11, h12, h13, h14, h15, h16, h17, h18, h19,
          hI1]
    have hD0 : Rounded.DistSquared M ⟨200, 0, 0⟩ ⟨(-8589934592), 0, 0⟩ = 73786976294838206464 := by
      norm_num [Rounded.DistSquared,
          h1, h2, h3, h4, h5, h6, h7, h8, h9, h10, h11, h12, h13, h14, h15, h16, h17, h18, h19,
          hI1]
    have hE1 : Rounded.Edge M (DefaultSpline 200).Points ⟨(-8589934592), 0, 0⟩ 1 = some (⟨(-200), (-200), 0⟩,
        Rounded.Div M (Rounded.Add M (Rounded.GetSafeNormal M (Rounded.Sub M ⟨(-200), (-200), 0⟩
            ⟨200, (-200), 0⟩))
          (Rounded.GetSafeNormal M (Rounded.Sub M ⟨(-200), (-200), 0⟩
            ⟨(-200), 200, 0⟩))) 2) := by
      rw [Rounded_Edge_end M _ _ 1 ⟨200, (-200), 0⟩ ⟨(-200), (-200), 0⟩
        ⟨(-200), 200, 0⟩ rfl rfl rfl
        (by norm_num [Rounded.Dot, Rounded.Sub,
          h1, h2, h3, h4, h5, h6, h7, h8, h9, h10, h11, h12, h13, h14, h15, h16, h17, h18, h19,
          hI1])
        (by norm_num [Rounded.Dot, Rounded.Sub,
          h1, h2, h3, h4, h5, h6, h7, h8, h9, h10, h11, h12, h13, h14, h15, h16, h17, h18, h19,
          hI1])]
    have hD1 : Rounded.DistSquared M ⟨(-200), (-200), 0⟩ ⟨(-8589934592), 0, 0⟩ = 73786976294838206464 := by
      norm_num [Rounded.DistSquared,
          h1, h2, h3, h4, h5, h6, h7, h8, h9, h10, h11, h12, h13, h14, h15, h16, h17, h18, h19,
          hI1]
    have hE2 : Rounded.Edge M (DefaultSpline 200).Points ⟨(-8589934592), 0, 0⟩ 2 = some (⟨(-200), 0, 0⟩,
        Rounded.CrossProduct M (Rounded.GetSafeNormal M (Rounded.Sub M ⟨(-200), (-200), 0⟩
            ⟨(-200), 200, 0⟩))
          FVector.UpVector) := by
      rw [Rounded_Edge_mid M _ _ 2 ⟨(-200), (-200), 0⟩ ⟨(-200), 200, 0⟩ rfl rfl
        (by norm_num [Rounded.Dot, Rounded.Sub,
          h1, h2, h3, h4, h5, h6, h7, h8, h9, h10, h11, h12, h13, h14, h15, h16, h17, h18, h19,
          hI1])
        (by norm_num [Rounded.Dot, Rounded.Sub,
          h1, h2, h3, h4, h5, h6, h7, h8, h9, h10, h11, h12, h13, h14, h15, h16, h17, h18, h19,
          hI1])]
      norm_num [Rounded.Add, Rounded.Mul, Rounded.Sub, Rounded.Dot,
          h1, h2, h3, h4, h5, h6, h7, h8, h9, h10, h11, h12, h13, h14, h15, h16, h17, h18, h19,
          hI1]
    have hD2 : Rounded.DistSquared M ⟨(-200), 0, 0⟩ ⟨(-8589934592), 0, 0⟩ = 73786976294838206464 := by
      norm_num [Rounded.DistSquared,
          h1, h2, h3, h4, h5, h6, h7, h8, h9, h10, h11, h12, h13, h14, h15, h16, h17, h18, h19,
          hI1]
    have hE3 : Rounded.Edge M (DefaultSpline 200).Points ⟨(-8589934592), 0, 0⟩ 3 = some (⟨(-200), 200, 0⟩,
        Rounded.Div M (Rounded.Add M (Rounded.GetSafeNormal M (Rounded.Sub M ⟨(-200), 200, 0⟩
            ⟨(-200), (-200), 0⟩))
          (Rounded.GetSafeNormal M (Rounded.Sub M ⟨(-200), 200, 0⟩
            ⟨200, 200, 0⟩))) 2) := by
      rw [Rounded_Edge_start M _ _ 3 ⟨(-200), 200, 0⟩ ⟨200, 200, 0⟩
        ⟨(-200), (-200), 0⟩ rfl rfl rfl
        (by norm_num [Rounded.Dot, Rounded.Sub,
          h1, h2, h3, h4, h5, h6, h7, h8, h9, h10, h11, h12, h13, h14, h15, h16, h17, h18, h19,
          hI1])]
    have hD3 : Rounded.DistSquared M ⟨(-200), 200, 0⟩ ⟨(-8589934592), 0, 0⟩ = 73786976294838206464 := by
      norm_num [Rounded.DistSquared,
          h1, h2, h3, h4, h5, h6, h7, h8, h9, h10, h11, h12, h13, h14, h15, h16, h17, h18, h19,
          hI1]
    obtain ⟨st, hst, hidx, hcached, hdist⟩ :=
      Rounded_Loop_selected M (DefaultSpline 200).Points ⟨(-8589934592), 0, 0⟩ 0 (by decide) _ hE0
        (by
          show Rounded.DistSquared M _ _ < MAX_FLT
          rw [hD0]
          norm_num [MAX_FLT])
        (by
          intro j r hj hr
          exact absurd hj (Nat.not_lt_zero j))
        (by
          intro j r hj hr
          have hj4 : j < 4 := hj
          interval_cases j
          · rw [hE0] at hr
            cases hr
            exact le_refl _
          · rw [hE1] at hr
            cases hr
            show Rounded.DistSquared M _ _ ≤ Rounded.DistSquared M _ _
            rw [hD0, hD1]
          · rw [hE2] at hr
            cases hr
            show Rounded.DistSquared M _ _ ≤ Rounded.DistSquared M _ _
            rw [hD0, hD2]
          · rw [hE3] at hr
            cases hr
            show Rounded.DistSquared M _ _ ≤ Rounded.DistSquared M _ _
            rw [hD0, hD3])
    rw [Rounded_IsInside_of_selected M _ _ st _ (by rw [hPts0, hLocal0]; exact hst)
      hcached]
    norm_num [DefaultActor, AVolumetricAudioSource.Construct, DefaultSettings, DefaultSpline,
      Rounded.Result, Rounded.TransformPosition, Rounded.RotateVector, Rounded.GetBox, Rounded.Scale, Rounded.Sub, Rounded.Add,
      Rounded.Mul, Rounded.Div, Rounded.Dot, Rounded.CrossProduct, Rounded.GetSafeNormal,
      FVector.UpVector, FTransform.Identity, FQuat.Identity, SMALL_NUMBER,
        h1, h2, h3, h4, h5, h6, h7, h8, h9, h10, h11, h12, h13, h14, h15, h16, h17, h18, h19,
        hI1]
  exact key Float32Math
    (Float32Math_Round_neg_eq _ _ 41 13107200 (by norm_num) (by norm_num) (by norm_num)
      (by norm_num) (by norm_num))
    (Float32Math_Round_neg_eq _ _ 33 8388608 (by norm_num) (by norm_num) (by norm_num)
      (by norm_num) (by norm_num))
    (Float32Math_Round_neg_eq _ _ 33 8388608 (by norm_num) (by norm_num) (by norm_num)
      (by norm_num) (by norm_num))
    (Float32Math_Round_neg_eq _ _ 32 16777216 (by norm_num) (by norm_num) (by norm_num)
      (by norm_num) (by norm_num))
    (by exact_mod_cast Float32Math_Round_neg_natCast 400 (by norm_num))
    (by exact_mod_cast Float32Math_Round_neg_natCast 200 (by norm_num))
    Round32_zero
    (Float32Math_Round_eq _ _ (-27) 11258999 (by norm_num) (by norm_num) (by norm_num)
      (by norm_num) (by norm_num))
    (Float32Math_Round_eq _ _ (-1) 8388608 (by norm_num) (by norm_num) (by norm_num)
      (by norm_num) (by norm_num))
    (Float32Math_Round_eq _ _ (-1) 16777216 (by norm_num) (by norm_num) (by norm_num)
      (by norm_num) (by norm_num))
    (by exact_mod_cast Float32Math_Round_natCast 1 (by norm_num))
    (by exact_mod_cast Float32Math_Round_natCast 200 (by norm_num))
    (by exact_mod_cast Float32Math_Round_natCast 400 (by norm_num))
    (by exact_mod_cast Float32Math_Round_natCast 40000 (by norm_num))
    (by exact_mod_cast Float32Math_Round_natCast 80000 (by norm_num))
    (by exact_mod_cast Float32Math_Round_natCast 160000 (by norm_num))
    (Float32Math_Round_eq _ _ 41 13107200 (by norm_num) (by norm_num) (by norm_num)
      (by norm_num) (by norm_num))
    (Float32Math_Round_eq _ _ 66 8388608 (by norm_num) (by norm_num) (by norm_num)
      (by norm_num) (by norm_num))
    (Float32Math_Round_eq _ _ 66 8388608 (by norm_num) (by norm_num) (by norm_num)
      (by norm_num) (by norm_num))
    (Float32Math_InvSqrt_eq _ (1 / 400) _
      (by
        exact_mod_cast RationalMath_InvSqrt_natCast 160000 400 (by norm_num) (by norm_num))
      (Float32Math_Round_eq _ _ (-9) 10737418 (by norm_num) (by norm_num) (by norm_num)
        (by norm_num) (by norm_num)))

set_option maxRecDepth 8192 in
/-- In single precision the query of the thin rectangle at (0, 524288, 0) returns true: the
four computed squared distances are equal and index 0, the far side, stays selected. -/
theorem Float32_sliver_query :
    Rounded.IsInside Float32Math SliverActor ⟨0, 524288, 0⟩
        = some (true, ⟨0, 524288, 0⟩) := by
  have key : ∀ M : FMath,
      M.Round (-524288) = (-524288) →
      M.Round (-4096) = (-4096) →
      M.Round (-200) = (-200) →
      M.Round (-100) = (-100) →
      M.Round (-1) = (-1) →
      M.Round (-(1 / 128)) = (-(1 / 128)) →
      M.Round 0 = 0 →
      M.Round (1 / 100000000) = (11258999 / 1125899906842624) →
      M.Round (1 / 16384) = (1 / 16384) →
      M.Round (1 / 128) = (1 / 128) →
      M.Round (1 / 2) = (1 / 2) →
      M.Round (134217725 / 134217728) = 1 →
      M.Round 1 = 1 →
      M.Round 100 = 100 →
      M.Round 200 = 200 →
      M.Round 400 = 400 →
      M.Round 4096 = 4096 →
      M.Round 10000 = 10000 →
      M.Round 20000 = 20000 →
      M.Round 40000 = 40000 →
      M.Round (67108863 / 128) = 524288 →
      M.Round 524288 = 524288 →
      M.Round 274877906944 = 274877906944 →
      M.Round 274877916944 = 274877906944 →
      M.InvSqrt 40000 = (5368709 / 1073741824) →
      Rounded.IsInside M SliverActor ⟨0, 524288, 0⟩
          = some (true, ⟨0, 524288, 0⟩) := by
    intro M h1 h2 h3 h4 h5 h6 h7 h8 h9 h10 h11 h12 h13 h14 h15 h16 h17 h18 h19
      h20 h21 h22 h23 h24 hI1
    have hPts0 : SliverActor.Spline.Points = SliverActor.Spline.Points :=
      rfl
    have hLocal0 : Rounded.InverseTransformPosition M SliverActor.Spline.ComponentToWorld
        ⟨0, 524288, 0⟩ = ⟨0, 524288, 0⟩ := by
      norm_num [SliverActor, DefaultActor, AVolumetricAudioSource.Construct, DefaultSettings,
        DefaultSpline,
        Rounded.InverseTransformPosition, Rounded.UnrotateVector, Rounded.Scale, Rounded.Sub, Rounded.Add, Rounded.Mul, Rounded.CrossProduct,
        Rounded.SafeReciprocal, FTransform.Identity, FQuat.Identity, SMALL_NUMBER,
          h1, h2, h3, h4, h5, h6, h7, h8, h9, h10, h11, h12, h13, h14, h15, h16, h17, h18, h19,
          h20, h21, h22, h23, h24, hI1]
    have hE0 : Rounded.Edge M SliverActor.Spline.Points ⟨0, 524288, 0⟩ 0 = some (⟨0, 0, 0⟩,
        Rounded.CrossProduct M (Rounded.GetSafeNormal M (Rounded.Sub M ⟨100, 0, 0⟩
            ⟨(-100), 0, 0⟩))
          FVector.UpVector) := by
      rw [Rounded_Edge_mid M _ _ 0 ⟨100, 0, 0⟩ ⟨(-100), 0, 0⟩ rfl rfl
        (by norm_num [Rounded.Dot, Rounded.Sub,
          h1, h2, h3, h4, h5, h6, h7, h8, h9, h10, h11, h12, h13, h14, h15, h16, h17, h18, h19,
          h20, h21, h22, h23, h24, hI1])
        (by norm_num [Rounded.Dot, Rounded.Sub,
          h1, h2, h3, h4, h5, h6, h7, h8, h9, h10, h11, h12, h13, h14, h15, h16, h17, h18, h19,
          h20, h21, h22, h23, h24, hI1])]
      norm_num [Rounded.Add, Rounded.Mul, Rounded.Sub, Rounded.Dot,
          h1, h2, h3, h4, h5, h6, h7, h8, h9, h10, h11, h12, h13, h14, h15, h16, h17, h18, h19,
          h20, h21, h22, h23, h24, hI1]
    have hD0 : Rounded.DistSquared M ⟨0, 0, 0⟩ ⟨0, 524288, 0⟩ = 274877906944 := by
      norm_num [Rounded.DistSquared,
          h1, h2, h3, h4, h5, h6, h7, h8, h9, h10, h11, h12, h13, h14, h15, h16, h17, h18, h19,
          h20, h21, h22, h23, h24, hI1]
    have hE1 : Rounded.Edge M SliverActor.Spline.Points ⟨0, 524288, 0⟩ 1 = some (⟨(-100), (1 / 128), 0⟩,
        Rounded.Div M (Rounded.Add M (Rounded.GetSafeNormal M (Rounded.Sub M ⟨(-100), (1 / 128), 0⟩
            ⟨(-100), 0, 0⟩))
          (Rounded.GetSafeNormal M (Rounded.Sub M ⟨(-100), (1 / 128), 0⟩
            ⟨100, (1 / 128), 0⟩))) 2) := by
      rw [Rounded_Edge_end M _ _ 1 ⟨(-100), 0, 0⟩ ⟨(-100), (1 / 128), 0⟩
        ⟨100, (1 / 128), 0⟩ rfl rfl rfl
        (by norm_num [Rounded.Dot, Rounded.Sub,
          h1, h2, h3, h4, h5, h6, h7, h8, h9, h10, h11, h12, h13, h14, h15, h16, h17, h18, h19,
          h20, h21, h22, h23, h24, hI1])
        (by norm_num [Rounded.Dot, Rounded.Sub,
          h1, h2, h3, h4, h5, h6, h7, h8, h9, h10, h11, h12, h13, h14, h15, h16, h17, h18, h19,
          h20, h21, h22, h23, h24, hI1])]
    have hD1 : Rounded.DistSquared M ⟨(-100), (1 / 128), 0⟩ ⟨0, 524288, 0⟩ = 274877906944 := by
      norm_num [Rounded.DistSquared,
          h1, h2, h3, h4, h5, h6, h7, h8, h9, h10, h11, h12, h13, h14, h15, h16, h17, h18, h19,
          h20, h21, h22, h23, h24, hI1]
    have hE2 : Rounded.Edge M SliverActor.Spline.Points ⟨0, 524288, 0⟩ 2 = some (⟨0, (1 / 128), 0⟩,
        Rounded.CrossProduct M (Rounded.GetSafeNormal M (Rounded.Sub M ⟨(-100), (1 / 128), 0⟩
            ⟨100, (1 / 128), 0⟩))
          FVector.UpVector) := by
      rw [Rounded_Edge_mid M _ _ 2 ⟨(-100), (1 / 128), 0⟩ ⟨100, (1 / 128), 0⟩ rfl rfl
        (by norm_num [Rounded.Dot, Rounded.Sub,
          h1, h2, h3, h4, h5, h6, h7, h8, h9, h10, h11, h12, h13, h14, h15, h16, h17, h18, h19,
          h20, h21, h22, h23, h24, hI1])
        (by norm_num [Rounded.Dot, Rounded.Sub,
          h1, h2, h3, h4, h5, h6, h7, h8, h9, h10, h11, h12, h13, h14, h15, h16, h17, h18, h19,
          h20, h21, h22, h23, h24, hI1])]
      norm_num [Rounded.Add, Rounded.Mul, Rounded.Sub, Rounded.Dot,
          h1, h2, h3, h4, h5, h6, h7, h8, h9, h10, h11, h12, h13, h14, h15, h16, h17, h18, h19,
          h20, h21, h22, h23, h24, hI1]
    have hD2 : Rounded.DistSquared M ⟨0, (1 / 128), 0⟩ ⟨0, 524288, 0⟩ = 274877906944 := by
      norm_num [Rounded.DistSquared,
          h1, h2, h3, h4, h5, h6, h7, h8, h9, h10, h11, h12, h13, h14, h15, h16, h17, h18, h19,
          h20, h21, h22, h23, h24, hI1]
    have hE3 : Rounded.Edge M SliverActor.Spline.Points ⟨0, 524288, 0⟩ 3 = some (⟨100, (1 / 128), 0⟩,
        Rounded.Div M (Rounded.Add M (Rounded.GetSafeNormal M (Rounded.Sub M ⟨100, (1 / 128), 0⟩
            ⟨(-100), (1 / 128), 0⟩))
          (Rounded.GetSafeNormal M (Rounded.Sub M ⟨100, (1 / 128), 0⟩
            ⟨100, 0, 0⟩))) 2) := by
      rw [Rounded_Edge_start M _ _ 3 ⟨100, (1 / 128), 0⟩ ⟨100, 0, 0⟩
        ⟨(-100), (1 / 128), 0⟩ rfl rfl rfl
        (by norm_num [Rounded.Dot, Rounded.Sub,
          h1, h2, h3, h4, h5, h6, h7, h8, h9, h10, h11, h12, h13, h14, h15, h16, h17, h18, h19,
          h20, h21, h22, h23, h24, hI1])]
    have hD3 : Rounded.DistSquared M ⟨100, (1 / 128), 0⟩ ⟨0, 524288, 0⟩ = 274877906944 := by
      norm_num [Rounded.DistSquared,
          h1, h2, h3, h4, h5, h6, h7, h8, h9, h10, h11, h12, h13, h14, h15, h16, h17, h18, h19,
          h20, h21, h22, h23, h24, hI1]
    obtain ⟨st, hst, hidx, hcached, hdist⟩ :=
      Rounded_Loop_selected M SliverActor.Spline.Points ⟨0, 524288, 0⟩ 0 (by decide) _ hE0
        (by
          show Rounded.DistSquared M _ _ < MAX_FLT
          rw [hD0]
          norm_num [MAX_FLT])
        (by
          intro j r hj hr
          exact absurd hj (Nat.not_lt_zero j))
        (by
          intro j r hj hr
          have hj4 : j < 4 := hj
          interval_cases j
          · rw [hE0] at hr
            cases hr
            exact le_refl _
          · rw [hE1] at hr
            cases hr
            show Rounded.DistSquared M _ _ ≤ Rounded.DistSquared M _ _
            rw [hD0, hD1]
          · rw [hE2] at hr
            cases hr
            show Rounded.DistSquared M _ _ ≤ Rounded.DistSquared M _ _
            rw [hD0, hD2]
          · rw [hE3] at hr
            cases hr
            show Rounded.DistSquared M _ _ ≤ Rounded.DistSquared M _ _
            rw [hD0, hD3])
    rw [Rounded_IsInside_of_selected M _ _ st _ (by rw [hPts0, hLocal0]; exact hst)
      hcached]
    norm_num [SliverActor, DefaultActor, AVolumetricAudioSource.Construct, DefaultSettings,
      DefaultSpline,
      Rounded.Result, Rounded.TransformPosition, Rounded.RotateVector, Rounded.GetBox, Rounded.Scale, Rounded.Sub, Rounded.Add,
      Rounded.Mul, Rounded.Div, Rounded.Dot, Rounded.CrossProduct, Rounded.GetSafeNormal,
      FVector.UpVector, FTransform.Identity, FQuat.Identity, SMALL_NUMBER,
        h1, h2, h3, h4, h5, h6, h7, h8, h9, h10, h11, h12, h13, h14, h15, h16, h17, h18, h19,
        h20, h21, h22, h23, h24, hI1]
  exact key Float32Math
    (by exact_mod_cast Float32Math_Round_neg_natCast 524288 (by norm_num))
    (by exact_mod_cast Float32Math_Round_neg_natCast 4096 (by norm_num))
    (by exact_mod_cast Float32Math_Round_neg_natCast 200 (by norm_num))
    (by exact_mod_cast Float32Math_Round_neg_natCast 100 (by norm_num))
    (by exact_mod_cast Float32Math_Round_neg_natCast 1 (by norm_num))
    (Float32Math_Round_neg_eq _ _ (-7) 8388608 (by norm_num) (by norm_num) (by norm_num)
      (by norm_num) (by norm_num))
    Round32_zero
    (Float32Math_Round_eq _ _ (-27) 11258999 (by norm_num) (by norm_num) (by norm_num)
      (by norm_num) (by norm_num))
    (Float32Math_Round_eq _ _ (-14) 8388608 (by norm_num) (by norm_num) (by norm_num)
      (by norm_num) (by norm_num))
    (Float32Math_Round_eq _ _ (-7) 8388608 (by norm_num) (by norm_num) (by norm_num)
      (by norm_num) (by norm_num))
    (Float32Math_Round_eq _ _ (-1) 8388608 (by norm_num) (by norm_num) (by norm_num)
      (by norm_num) (by norm_num))
    (Float32Math_Round_eq _ _ (-1) 16777216 (by norm_num) (by norm_num) (by norm_num)
      (by norm_num) (by norm_num))
    (by exact_mod_cast Float32Math_Round_natCast 1 (by norm_num))
    (by exact_mod_cast Float32Math_Round_natCast 100 (by norm_num))
    (by exact_mod_cast Float32Math_Round_natCast 200 (by norm_num))
    (by exact_mod_cast Float32Math_Round_natCast 400 (by norm_num))
    (by exact_mod_cast Float32Math_Round_natCast 4096 (by norm_num))
    (by exact_mod_cast Float32Math_Round_natCast 10000 (by norm_num))
    (by exact_mod_cast Float32Math_Round_natCast 20000 (by norm_num))
    (by exact_mod_cast Float32Math_Round_natCast 40000 (by norm_num))
    (Float32Math_Round_eq _ _ 18 16777216 (by norm_num) (by norm_num) (by norm_num)
      (by norm_num) (by norm_num))
    (by exact_mod_cast Float32Math_Round_natCast 524288 (by norm_num))
    (Float32Math_Round_eq _ _ 38 8388608 (by norm_num) (by norm_num) (by norm_num)
      (by norm_num) (by norm_num))
    (Float32Math_Round_eq _ _ 38 8388608 (by norm_num) (by norm_num) (by norm_num)
      (by norm_num) (by norm_num))
    (Float32Math_InvSqrt_eq _ (1 / 200) _
      (by
        exact_mod_cast RationalMath_InvSqrt_natCast 40000 200 (by norm_num) (by norm_num))
      (Float32Math_Round_eq _ _ (-8) 10737418 (by norm_num) (by norm_num) (by norm_num)
        (by norm_num) (by norm_num)))

set_option maxRecDepth 8192 in
/-- Without rounding the query of the thin rectangle at (0, 524288, 0) returns false, with
the closest location on the near side. -/
theorem Exact_sliver_query :
    Rounded.IsInside RationalMath SliverActor ⟨0, 524288, 0⟩
        = some (false, ⟨0, (1 / 128), 0⟩) := by
  have key : ∀ M : FMath,
      M.Round (-(67108863 / 16384)) = (-(67108863 / 16384)) →
      M.Round (-200) = (-200) →
      M.Round (-100) = (-100) →
      M.Round (-1) = (-1) →
      M.Round (-(1 / 128)) = (-(1 / 128)) →
      M.Round 0 = 0 →
      M.Round (1 / 100000000) = (1 / 100000000) →
      M.Round (1 / 16384) = (1 / 16384) →
      M.Round (1 / 128) = (1 / 128) →
      M.Round (1 / 2) = (1 / 2) →
      M.Round 1 = 1 →
      M.Round 100 = 100 →
      M.Round 200 = 200 →
      M.Round 400 = 400 →
      M.Round 4096 = 4096 →
      M.Round 10000 = 10000 →
      M.Round 20000 = 20000 →
      M.Round 40000 = 40000 →
      M.Round (67108863 / 128) = (67108863 / 128) →
      M.Round 524288 = 524288 →
      M.Round (4503599493152769 / 16384) = (4503599493152769 / 16384) →
      M.Round 274877906944 = 274877906944 →
      M.Round (4503599656992769 / 16384) = (4503599656992769 / 16384) →
      M.InvSqrt 40000 = (1 / 200) →
      Rounded.IsInside M SliverActor ⟨0, 524288, 0⟩
          = some (false, ⟨0, (1 / 128), 0⟩) := by
    intro M h1 h2 h3 h4 h5 h6 h7 h8 h9 h10 h11 h12 h13 h14 h15 h16 h17 h18 h19
      h20 h21 h22 h23 hI1
    have hPts0 : SliverActor.Spline.Points = SliverActor.Spline.Points :=
      rfl
    have hLocal0 : Rounded.InverseTransformPosition M SliverActor.Spline.ComponentToWorld
        ⟨0, 524288, 0⟩ = ⟨0, 524288, 0⟩ := by
      norm_num [SliverActor, DefaultActor, AVolumetricAudioSource.Construct, DefaultSettings,
        DefaultSpline,
        Rounded.InverseTransformPosition, Rounded.UnrotateVector, Rounded.Scale, Rounded.Sub, Rounded.Add, Rounded.Mul, Rounded.CrossProduct,
        Rounded.SafeReciprocal, FTransform.Identity, FQuat.Identity, SMALL_NUMBER,
          h1, h2, h3, h4, h5, h6, h7, h8, h9, h10, h11, h12, h13, h14, h15, h16, h17, h18, h19,
          h20, h21, h22, h23, hI1]
    have hE0 : Rounded.Edge M SliverActor.Spline.Points ⟨0, 524288, 0⟩ 0 = some (⟨0, 0, 0⟩,
        Rounded.CrossProduct M (Rounded.GetSafeNormal M (Rounded.Sub M ⟨100, 0, 0⟩
            ⟨(-100), 0, 0⟩))
          FVector.UpVector) := by
      rw [Rounded_Edge_mid M _ _ 0 ⟨100, 0, 0⟩ ⟨(-100), 0, 0⟩ rfl rfl
        (by norm_num [Rounded.Dot, Rounded.Sub,
          h1, h2, h3, h4, h5, h6, h7, h8, h9, h10, h11, h12, h13, h14, h15, h16, h17, h18, h19,
          h20, h21, h22, h23, hI1])
        (by norm_num [Rounded.Dot, Rounded.Sub,
          h1, h2, h3, h4, h5, h6, h7, h8, h9, h10, h11, h12, h13, h14, h15, h16, h17, h18, h19,
          h20, h21, h22, h23, hI1])]
      norm_num [Rounded.Add, Rounded.Mul, Rounded.Sub, Rounded.Dot,
          h1, h2, h3, h4, h5, h6, h7, h8, h9, h10, h11, h12, h13, h14, h15, h16, h17, h18, h19,
          h20, h21, h22, h23, hI1]
    have hD0 : Rounded.DistSquared M ⟨0, 0, 0⟩ ⟨0, 524288, 0⟩ = 274877906944 := by
      norm_num [Rounded.DistSquared,
          h1, h2, h3, h4, h5, h6, h7, h8, h9, h10, h11, h12, h13, h14, h15, h16, h17, h18, h19,
          h20, h21, h22, h23, hI1]
    have hE1 : Rounded.Edge M SliverActor.Spline.Points ⟨0, 524288, 0⟩ 1 = some (⟨(-100), (1 / 128), 0⟩,
        Rounded.Div M (Rounded.Add M (Rounded.GetSafeNormal M (Rounded.Sub M ⟨(-100), (1 / 128), 0⟩
            ⟨(-100), 0, 0⟩))
          (Rounded.GetSafeNormal M (Rounded.Sub M ⟨(-100), (1 / 128), 0⟩
            ⟨100, (1 / 128), 0⟩))) 2) := by
      rw [Rounded_Edge_end M _ _ 1 ⟨(-100), 0, 0⟩ ⟨(-100), (1 / 128), 0⟩
        ⟨100, (1 / 128), 0⟩ rfl rfl rfl
        (by norm_num [Rounded.Dot, Rounded.Sub,
          h1, h2, h3, h4, h5, h6, h7, h8, h9, h10, h11, h12, h13, h14, h15, h16, h17, h18, h19,
          h20, h21, h22, h23, hI1])
        (by norm_num [Rounded.Dot, Rounded.Sub,
          h1, h2, h3, h4, h5, h6, h7, h8, h9, h10, h11, h12, h13, h14, h15, h16, h17, h18, h19,
          h20, h21, h22, h23, hI1])]
    have hD1 : Rounded.DistSquared M ⟨(-100), (1 / 128), 0⟩ ⟨0, 524288, 0⟩ = (4503599656992769 / 16384) := by
      norm_num [Rounded.DistSquared,
          h1, h2, h3, h4, h5, h6, h7, h8, h9, h10, h11, h12, h13, h14, h15, h16, h17, h18, h19,
          h20, h21, h22, h23, hI1]
    have hE2 : Rounded.Edge M SliverActor.Spline.Points ⟨0, 524288, 0⟩ 2 = some (⟨0, (1 / 128), 0⟩,
        Rounded.CrossProduct M (Rounded.GetSafeNormal M (Rounded.Sub M ⟨(-100), (1 / 128), 0⟩
            ⟨100, (1 / 128), 0⟩))
          FVector.UpVector) := by
      rw [Rounded_Edge_mid M _ _ 2 ⟨(-100), (1 / 128), 0⟩ ⟨100, (1 / 128), 0⟩ rfl rfl
        (by norm_num [Rounded.Dot, Rounded.Sub,
          h1, h2, h3, h4, h5, h6, h7, h8, h9, h10, h11, h12, h13, h14, h15, h16, h17, h18, h19,
          h20, h21, h22, h23, hI1])
        (by norm_num [Rounded.Dot, Rounded.Sub,
          h1, h2, h3, h4, h5, h6, h7, h8, h9, h10, h11, h12, h13, h14, h15, h16, h17, h18, h19,
          h20, h21, h22, h23, hI1])]
      norm_num [Rounded.Add, Rounded.Mul, Rounded.Sub, Rounded.Dot,
          h1, h2, h3, h4, h5, h6, h7, h8, h9, h10, h11, h12, h13, h14, h15, h16, h17, h18, h19,
          h20, h21, h22, h23, hI1]
    have hD2 : Rounded.DistSquared M ⟨0, (1 / 128), 0⟩ ⟨0, 524288, 0⟩ = (4503599493152769 / 16384) := by
      norm_num [Rounded.DistSquared,
          h1, h2, h3, h4, h5, h6, h7, h8, h9, h10, h11, h12, h13, h14, h15, h16, h17, h18, h19,
          h20, h21, h22, h23, hI1]
    have hE3 : Rounded.Edge M SliverActor.Spline.Points ⟨0, 524288, 0⟩ 3 = some (⟨100, (1 / 128), 0⟩,
        Rounded.Div M (Rounded.Add M (Rounded.GetSafeNormal M (Rounded.Sub M ⟨100, (1 / 128), 0⟩
            ⟨(-100), (1 / 128), 0⟩))
          (Rounded.GetSafeNormal M (Rounded.Sub M ⟨100, (1 / 128), 0⟩
            ⟨100, 0, 0⟩))) 2) := by
      rw [Rounded_Edge_start M _ _ 3 ⟨100, (1 / 128), 0⟩ ⟨100, 0, 0⟩
        ⟨(-100), (1 / 128), 0⟩ rfl rfl rfl
        (by norm_num [Rounded.Dot, Rounded.Sub,
          h1, h2, h3, h4, h5, h6, h7, h8, h9, h10, h11, h12, h13, h14, h15, h16, h17, h18, h19,
          h20, h21, h22, h23, hI1])]
    have hD3 : Rounded.DistSquared M ⟨100, (1 / 128), 0⟩ ⟨0, 524288, 0⟩ = (4503599656992769 / 16384) := by
      norm_num [Rounded.DistSquared,
          h1, h2, h3, h4, h5, h6, h7, h8, h9, h10, h11, h12, h13, h14, h15, h16, h17, h18, h19,
          h20, h21, h22, h23, hI1]
    obtain ⟨st, hst, hidx, hcached, hdist⟩ :=
      Rounded_Loop_selected M SliverActor.Spline.Points ⟨0, 524288, 0⟩ 2 (by decide) _ hE2
        (by
          show Rounded.DistSquared M _ _ < MAX_FLT
          rw [hD2]
          norm_num [MAX_FLT])
        (by
          intro j r hj hr
          interval_cases j
          · rw [hE0] at hr
            cases hr
            show Rounded.DistSquared M _ _ < Rounded.DistSquared M _ _
            rw [hD2, hD0]
            norm_num
          · rw [hE1] at hr
            cases hr
            show Rounded.DistSquared M _ _ < Rounded.DistSquared M _ _
            rw [hD2, hD1]
            norm_num)
        (by
          intro j r hj hr
          have hj4 : j < 4 := hj
          interval_cases j
          · rw [hE0] at hr
            cases hr
            show Rounded.DistSquared M _ _ ≤ Rounded.DistSquared M _ _
            rw [hD2, hD0]
            norm_num
          · rw [hE1] at hr
            cases hr
            show Rounded.DistSquared M _ _ ≤ Rounded.DistSquared M _ _
            rw [hD2, hD1]
            norm_num
          · rw [hE2] at hr
            cases hr
            exact le_refl _
          · rw [hE3] at hr
            cases hr
            show Rounded.DistSquared M _ _ ≤ Rounded.DistSquared M _ _
            rw [hD2, hD3]
            norm_num)
    rw [Rounded_IsInside_of_selected M _ _ st _ (by rw [hPts0, hLocal0]; exact hst)
      hcached]
    norm_num [SliverActor, DefaultActor, AVolumetricAudioSource.Construct, DefaultSettings,
      DefaultSpline,
      Rounded.Result, Rounded.TransformPosition, Rounded.RotateVector, Rounded.GetBox, Rounded.Scale, Rounded.Sub, Rounded.Add,
      Rounded.Mul, Rounded.Div, Rounded.Dot, Rounded.CrossProduct, Rounded.GetSafeNormal,
      FVector.UpVector, FTransform.Identity, FQuat.Identity, SMALL_NUMBER,
        h1, h2, h3, h4, h5, h6, h7, h8, h9, h10, h11, h12, h13, h14, h15, h16, h17, h18, h19,
        h20, h21, h22, h23, hI1]
  exact key RationalMath
    rfl
    rfl
    rfl
    rfl
    rfl
    rfl
    rfl
    rfl
    rfl
    rfl
    rfl
    rfl
    rfl
    rfl
    rfl
    rfl
    rfl
    rfl
    rfl
    rfl
    rfl
    rfl
    rfl
    (by
      exact_mod_cast RationalMath_InvSqrt_natCast 40000 200 (by norm_num) (by norm_num))

set_option maxRecDepth 8192 in
/-- In single precision the query of the square of half side 200.03 at (200, 0, 0) returns
true, and the query of the same square moved by (524288, 0, 0) at the moved location
(524488, 0, 0) returns false: the moved closest location rounds to the query and the dot
product is 0. -/
theorem Float32_wide_square_queries :
    Rounded.IsInside Float32Math WideSquareActor ⟨200, 0, 0⟩
        = some (true, ⟨200, 0, 0⟩) ∧
    Rounded.IsInside Float32Math (WideSquareActor.Translate ⟨524288, 0, 0⟩) ⟨524488, 0, 0⟩
        = some (false, ⟨524488, 0, 0⟩) := by
  have key : ∀ M : FMath,
      M.Round (-(6554583 / 16384)) = (-(6554583 / 16384)) →
      M.Round (-(6554583 / 32768)) = (-(6554583 / 32768)) →
      M.Round (-(4123619139 / 137438953472)) = (-(16107887 / 536870912)) →
      M.Round (-(16107887 / 536870912)) = (-(16107887 / 536870912)) →
      M.Round (-(983 / 32768)) = (-(983 / 32768)) →
      M.Round (-(16887810999087 / 562949953421312)) = (-(983 / 32768)) →
      M.Round 0 = 0 →
      M.Round (1 / 100000000) = (11258999 / 1125899906842624) →
      M.Round (12584287 / 167822491648) = (2576489 / 34359738368) →
      M.Round (966289 / 1073741824) = (966289 / 1073741824) →
      M.Round (1 / 2) = (1 / 2) →
      M.Round (40009 / 40012) = (8387979 / 8388608) →
      M.Round 1 = 1 →
      M.Round (4194933 / 4194304) = (4194933 / 4194304) →
      M.Round (35189648743347 / 35184372088832) = (4194933 / 4194304) →
      M.Round (12584287 / 1048576) = (12584287 / 1048576) →
      M.Round (6443155089 / 536870912) = (12584287 / 1048576) →
      M.Round 200 = 200 →
      M.Round (6554583 / 32768) = (6554583 / 32768) →
      M.Round 400 = 400 →
      M.Round (13108183 / 32768) = (13108183 / 32768) →
      M.Round (54979704557757 / 137438953472) = (13108183 / 32768) →
      M.Round (6554583 / 16384) = (6554583 / 16384) →
      M.Round 40012 = 40012 →
      M.Round (42962558303889 / 1073741824) = 40012 →
      M.Round 80024 = 80024 →
      M.Round (42962558303889 / 536870912) = 80024 →
      M.Round (171824461561489 / 1073741824) = 160024 →
      M.Round 160024 = 160024 →
      M.Round 160036 = 160036 →
      M.Round (85918673452689 / 536870912) = 160036 →
      M.Round 160048 = 160048 →
      M.Round (42962558303889 / 268435456) = 160048 →
      M.Round (17173314601 / 32768) = (16770815 / 32) →
      M.Round (17186423767 / 32768) = 524488 →
      M.InvSqrt 160048 = (5368709 / 2147483648) →
      Rounded.IsInside M WideSquareActor ⟨200, 0, 0⟩
          = some (true, ⟨200, 0, 0⟩) ∧
      Rounded.IsInside M (WideSquareActor.Translate ⟨524288, 0, 0⟩) ⟨524488, 0, 0⟩
          = some (false, ⟨524488, 0, 0⟩) := by
    intro M h1 h2 h3 h4 h5 h6 h7 h8 h9 h10 h11 h12 h13 h14 h15 h16 h17 h18 h19
      h20 h21 h22 h23 h24 h25 h26 h27 h28 h29 h30 h31 h32 h33 h34 h35 hI1
    have hPts0 : WideSquareActor.Spline.Points = WideSquareActor.Spline.Points :=
      rfl
    have hLocal0 : Rounded.InverseTransformPosition M WideSquareActor.Spline.ComponentToWorld
        ⟨200, 0, 0⟩ = ⟨200, 0, 0⟩ := by
      norm_num [WideSquareActor, AVolumetricAudioSource.Translate, DefaultActor,
        AVolumetricAudioSource.Construct, DefaultSettings, DefaultSpline,
        Rounded.InverseTransformPosition, Rounded.UnrotateVector, Rounded.Scale, Rounded.Sub, Rounded.Add, Rounded.Mul, Rounded.CrossProduct,
        Rounded.SafeReciprocal, FTransform.Identity, FQuat.Identity, SMALL_NUMBER,
          h1, h2, h3, h4, h5, h6, h7, h8, h9, h10, h11, h12, h13, h14, h15, h16, h17, h18, h19,
          h20, h21, h22, h23, h24, h25, h26, h27, h28, h29, h30, h31, h32, h33, h34, h35, hI1]
    have hPts1 : (WideSquareActor.Translate ⟨524288, 0, 0⟩).Spline.Points = WideSquareActor.Spline.Points :=
      rfl
    have hLocal1 : Rounded.InverseTransformPosition M (WideSquareActor.Translate ⟨524288, 0, 0⟩).Spline.ComponentToWorld
        ⟨524488, 0, 0⟩ = ⟨200, 0, 0⟩ := by
      norm_num [WideSquareActor, AVolumetricAudioSource.Translate, DefaultActor,
        AVolumetricAudioSource.Construct, DefaultSettings, DefaultSpline,
        Rounded.InverseTransformPosition, Rounded.UnrotateVector, Rounded.Scale, Rounded.Sub, Rounded.Add, Rounded.Mul, Rounded.CrossProduct,
        Rounded.SafeReciprocal, FTransform.Identity, FQuat.Identity, SMALL_NUMBER,
          h1, h2, h3, h4, h5, h6, h7, h8, h9, h10, h11, h12, h13, h14, h15, h16, h17, h18, h19,
          h20, h21, h22, h23, h24, h25, h26, h27, h28, h29, h30, h31, h32, h33, h34, h35, hI1]
    have hE0 : Rounded.Edge M WideSquareActor.Spline.Points ⟨200, 0, 0⟩ 0 = some (⟨(6554583 / 32768), 0, 0⟩,
        Rounded.CrossProduct M (Rounded.GetSafeNormal M (Rounded.Sub M ⟨(6554583 / 32768), (6554583 / 32768), 0⟩
            ⟨(6554583 / 32768), (-(6554583 / 32768)), 0⟩))
          FVector.UpVector) := by
      rw [Rounded_Edge_mid M _ _ 0 ⟨(6554583 / 32768), (6554583 / 32768), 0⟩ ⟨(6554583 / 32768), (-(6554583 / 32768)), 0⟩ rfl rfl
        (by norm_num [Rounded.Dot, Rounded.Sub,
          h1, h2, h3, h4, h5, h6, h7, h8, h9, h10, h11, h12, h13, h14, h15, h16, h17, h18, h19,
          h20, h21, h22, h23, h24, h25, h26, h27, h28, h29, h30, h31, h32, h33, h34, h35, hI1])
        (by norm_num [Rounded.Dot, Rounded.Sub,
          h1, h2, h3, h4, h5, h6, h7, h8, h9, h10, h11, h12, h13, h14, h15, h16, h17, h18, h19,
          h20, h21, h22, h23, h24, h25, h26, h27, h28, h29, h30, h31, h32, h33, h34, h35, hI1])]
      norm_num [Rounded.Add, Rounded.Mul, Rounded.Sub, Rounded.Dot,
          h1, h2, h3, h4, h5, h6, h7, h8, h9, h10, h11, h12, h13, h14, h15, h16, h17, h18, h19,
          h20, h21, h22, h23, h24, h25, h26, h27, h28, h29, h30, h31, h32, h33, h34, h35, hI1]
    have hD0 : Rounded.DistSquared M ⟨(6554583 / 32768), 0, 0⟩ ⟨200, 0, 0⟩ = (966289 / 1073741824) := by
      norm_num [Rounded.DistSquared,
          h1, h2, h3, h4, h5, h6, h7, h8, h9, h10, h11, h12, h13, h14, h15, h16, h17, h18, h19,
          h20, h21, h22, h23, h24, h25, h26, h27, h28, h29, h30, h31, h32, h33, h34, h35, hI1]
    have hE1 : Rounded.Edge M WideSquareActor.Spline.Points ⟨200, 0, 0⟩ 1 = some (⟨200, (-(6554583 / 32768)), 0⟩,
        Rounded.CrossProduct M (Rounded.GetSafeNormal M (Rounded.Sub M ⟨(6554583 / 32768), (-(6554583 / 32768)), 0⟩
            ⟨(-(6554583 / 32768)), (-(6554583 / 32768)), 0⟩))
          FVector.UpVector) := by
      rw [Rounded_Edge_mid M _ _ 1 ⟨(6554583 / 32768), (-(6554583 / 32768)), 0⟩ ⟨(-(6554583 / 32768)), (-(6554583 / 32768)), 0⟩ rfl rfl
        (by norm_num [Rounded.Dot, Rounded.Sub,
          h1, h2, h3, h4, h5, h6, h7, h8, h9, h10, h11, h12, h13, h14, h15, h16, h17, h18, h19,
          h20, h21, h22, h23, h24, h25, h26, h27, h28, h29, h30, h31, h32, h33, h34, h35, hI1])
        (by norm_num [Rounded.Dot, Rounded.Sub,
          h1, h2, h3, h4, h5, h6, h7, h8, h9, h10, h11, h12, h13, h14, h15, h16, h17, h18, h19,
          h20, h21, h22, h23, h24, h25, h26, h27, h28, h29, h30, h31, h32, h33, h34, h35, hI1])]
      norm_num [Rounded.Add, Rounded.Mul, Rounded.Sub, Rounded.Dot,
          h1, h2, h3, h4, h5, h6, h7, h8, h9, h10, h11, h12, h13, h14, h15, h16, h17, h18, h19,
          h20, h21, h22, h23, h24, h25, h26, h27, h28, h29, h30, h31, h32, h33, h34, h35, hI1]
    have hD1 : Rounded.DistSquared M ⟨200, (-(6554583 / 32768)), 0⟩ ⟨200, 0, 0⟩ = 40012 := by
      norm_num [Rounded.DistSquared,
          h1, h2, h3, h4, h5, h6, h7, h8, h9, h10, h11, h12, h13, h14, h15, h16, h17, h18, h19,
          h20, h21, h22, h23, h24, h25, h26, h27, h28, h29, h30, h31, h32, h33, h34, h35, hI1]
    have hE2 : Rounded.Edge M WideSquareActor.Spline.Points ⟨200, 0, 0⟩ 2 = some (⟨(-(6554583 / 32768)), 0, 0⟩,
        Rounded.CrossProduct M (Rounded.GetSafeNormal M (Rounded.Sub M ⟨(-(6554583 / 32768)), (-(6554583 / 32768)), 0⟩
            ⟨(-(6554583 / 32768)), (6554583 / 32768), 0⟩))
          FVector.UpVector) := by
      rw [Rounded_Edge_mid M _ _ 2 ⟨(-(6554583 / 32768)), (-(6554583 / 32768)), 0⟩ ⟨(-(6554583 / 32768)), (6554583 / 32768), 0⟩ rfl rfl
        (by norm_num [Rounded.Dot, Rounded.Sub,
          h1, h2, h3, h4, h5, h6, h7, h8, h9, h10, h11, h12, h13, h14, h15, h16, h17, h18, h19,
          h20, h21, h22, h23, h24, h25, h26, h27, h28, h29, h30, h31, h32, h33, h34, h35, hI1])
        (by norm_num [Rounded.Dot, Rounded.Sub,
          h1, h2, h3, h4, h5, h6, h7, h8, h9, h10, h11, h12, h13, h14, h15, h16, h17, h18, h19,
          h20, h21, h22, h23, h24, h25, h26, h27, h28, h29, h30, h31, h32, h33, h34, h35, hI1])]
      norm_num [Rounded.Add, Rounded.Mul, Rounded.Sub, Rounded.Dot,
          h1, h2, h3, h4, h5, h6, h7, h8, h9, h10, h11, h12, h13, h14, h15, h16, h17, h18, h19,
          h20, h21, h22, h23, h24, h25, h26, h27, h28, h29, h30, h31, h32, h33, h34, h35, hI1]
    have hD2 : Rounded.DistSquared M ⟨(-(6554583 / 32768)), 0, 0⟩ ⟨200, 0, 0⟩ = 160024 := by
      norm_num [Rounded.DistSquared,
          h1, h2, h3, h4, h5, h6, h7, h8, h9, h10, h11, h12, h13, h14, h15, h16, h17, h18, h19,
          h20, h21, h22, h23, h24, h25, h26, h27, h28, h29, h30, h31, h32, h33, h34, h35, hI1]
    have hE3 : Rounded.Edge M WideSquareActor.Spline.Points ⟨200, 0, 0⟩ 3 = some (⟨200, (6554583 / 32768), 0⟩,
        Rounded.CrossProduct M (Rounded.GetSafeNormal M (Rounded.Sub M ⟨(-(6554583 / 32768)), (6554583 / 32768), 0⟩
            ⟨(6554583 / 32768), (6554583 / 32768), 0⟩))
          FVector.UpVector) := by
      rw [Rounded_Edge_mid M _ _ 3 ⟨(-(6554583 / 32768)), (6554583 / 32768), 0⟩ ⟨(6554583 / 32768), (6554583 / 32768), 0⟩ rfl rfl
        (by norm_num [Rounded.Dot, Rounded.Sub,
          h1, h2, h3, h4, h5, h6, h7, h8, h9, h10, h11, h12, h13, h14, h15, h16, h17, h18, h19,
          h20, h21, h22, h23, h24, h25, h26, h27, h28, h29, h30, h31, h32, h33, h34, h35, hI1])
        (by norm_num [Rounded.Dot, Rounded.Sub,
          h1, h2, h3, h4, h5, h6, h7, h8, h9, h10, h11, h12, h13, h14, h15, h16, h17, h18, h19,
          h20, h21, h22, h23, h24, h25, h26, h27, h28, h29, h30, h31, h32, h33, h34, h35, hI1])]
      norm_num [Rounded.Add, Rounded.Mul, Rounded.Sub, Rounded.Dot,
          h1, h2, h3, h4, h5, h6, h7, h8, h9, h10, h11, h12, h13, h14, h15, h16, h17, h18, h19,
          h20, h21, h22, h23, h24, h25, h26, h27, h28, h29, h30, h31, h32, h33, h34, h35, hI1]
    have hD3 : Rounded.DistSquared M ⟨200, (6554583 / 32768), 0⟩ ⟨200, 0, 0⟩ = 40012 := by
      norm_num [Rounded.DistSquared,
          h1, h2, h3, h4, h5, h6, h7, h8, h9, h10, h11, h12, h13, h14, h15, h16, h17, h18, h19,
          h20, h21, h22, h23, h24, h25, h26, h27, h28, h29, h30, h31, h32, h33, h34, h35, hI1]
    obtain ⟨st, hst, hidx, hcached, hdist⟩ :=
      Rounded_Loop_selected M WideSquareActor.Spline.Points ⟨200, 0, 0⟩ 0 (by decide) _ hE0
        (by
          show Rounded.DistSquared M _ _ < MAX_FLT
          rw [hD0]
          norm_num [MAX_FLT])
        (by
          intro j r hj hr
          exact absurd hj (Nat.not_lt_zero j))
        (by
          intro j r hj hr
          have hj4 : j < 4 := hj
          interval_cases j
          · rw [hE0] at hr
            cases hr
            exact le_refl _
          · rw [hE1] at hr
            cases hr
            show Rounded.DistSquared M _ _ ≤ Rounded.DistSquared M _ _
            rw [hD0, hD1]
            norm_num
          · rw [hE2] at hr
            cases hr
            show Rounded.DistSquared M _ _ ≤ Rounded.DistSquared M _ _
            rw [hD0, hD2]
            norm_num
          · rw [hE3] at hr
            cases hr
            show Rounded.DistSquared M _ _ ≤ Rounded.DistSquared M _ _
            rw [hD0, hD3]
            norm_num)
    refine ⟨?_, ?_⟩
    · rw [Rounded_IsInside_of_selected M _ _ st _ (by rw [hPts0, hLocal0]; exact hst)
        hcached]
      norm_num [WideSquareActor, AVolumetricAudioSource.Translate, DefaultActor,
        AVolumetricAudioSource.Construct, DefaultSettings, DefaultSpline,
        Rounded.Result, Rounded.TransformPosition, Rounded.RotateVector, Rounded.GetBox, Rounded.Scale, Rounded.Sub, Rounded.Add,
        Rounded.Mul, Rounded.Div, Rounded.Dot, Rounded.CrossProduct, Rounded.GetSafeNormal,
        FVector.UpVector, FTransform.Identity, FQuat.Identity, SMALL_NUMBER,
          h1, h2, h3, h4, h5, h6, h7, h8, h9, h10, h11, h12, h13, h14, h15, h16, h17, h18, h19,
          h20, h21, h22, h23, h24, h25, h26, h27, h28, h29, h30, h31, h32, h33, h34, h35, hI1]
    · rw [Rounded_IsInside_of_selected M _ _ st _ (by rw [hPts1, hLocal1]; exact hst)
        hcached]
      norm_num [WideSquareActor, AVolumetricAudioSource.Translate, DefaultActor,
        AVolumetricAudioSource.Construct, DefaultSettings, DefaultSpline,
        Rounded.Result, Rounded.TransformPosition, Rounded.RotateVector, Rounded.GetBox, Rounded.Scale, Rounded.Sub, Rounded.Add,
        Rounded.Mul, Rounded.Div, Rounded.Dot, Rounded.CrossProduct, Rounded.GetSafeNormal,
        FVector.UpVector, FTransform.Identity, FQuat.Identity, SMALL_NUMBER,
          h1, h2, h3, h4, h5, h6, h7, h8, h9, h10, h11, h12, h13, h14, h15, h16, h17, h18, h19,
          h20, h21, h22, h23, h24, h25, h26, h27, h28, h29, h30, h31, h32, h33, h34, h35, hI1]
  exact key Float32Math
    (Float32Math_Round_neg_eq _ _ 8 13109166 (by norm_num) (by norm_num) (by norm_num)
      (by norm_num) (by norm_num))
    (Float32Math_Round_neg_eq _ _ 7 13109166 (by norm_num) (by norm_num) (by norm_num)
      (by norm_num) (by norm_num))
    (Float32Math_Round_neg_eq _ _ (-6) 16107887 (by norm_num) (by norm_num) (by norm_num)
      (by norm_num) (by norm_num))
    (Float32Math_Round_neg_eq _ _ (-6) 16107887 (by norm_num) (by norm_num) (by norm_num)
      (by norm_num) (by norm_num))
    (Float32Math_Round_neg_eq _ _ (-6) 16105472 (by norm_num) (by norm_num) (by norm_num)
      (by norm_num) (by norm_num))
    (Float32Math_Round_neg_eq _ _ (-6) 16105472 (by norm_num) (by norm_num) (by norm_num)
      (by norm_num) (by norm_num))
    Round32_zero
    (Float32Math_Round_eq _ _ (-27) 11258999 (by norm_num) (by norm_num) (by norm_num)
      (by norm_num) (by norm_num))
    (Float32Math_Round_eq _ _ (-14) 10305956 (by norm_num) (by norm_num) (by norm_num)
      (by norm_num) (by norm_num))
    (Float32Math_Round_eq _ _ (-11) 15460624 (by norm_num) (by norm_num) (by norm_num)
      (by norm_num) (by norm_num))
    (Float32Math_Round_eq _ _ (-1) 8388608 (by norm_num) (by norm_num) (by norm_num)
      (by norm_num) (by norm_num))
    (Float32Math_Round_eq _ _ (-1) 16775958 (by norm_num) (by norm_num) (by norm_num)
      (by norm_num) (by norm_num))
    (by exact_mod_cast Float32Math_Round_natCast 1 (by norm_num))
    (Float32Math_Round_eq _ _ 0 8389866 (by norm_num) (by norm_num) (by norm_num)
      (by norm_num) (by norm_num))
    (Float32Math_Round_eq _ _ 0 8389866 (by norm_num) (by norm_num) (by norm_num)
      (by norm_num) (by norm_num))
    (Float32Math_Round_eq _ _ 3 12584287 (by norm_num) (by norm_num) (by norm_num)
      (by norm_num) (by norm_num))
    (Float32Math_Round_eq _ _ 3 12584287 (by norm_num) (by norm_num) (by norm_num)
      (by norm_num) (by norm_num))
    (by exact_mod_cast Float32Math_Round_natCast 200 (by norm_num))
    (Float32Math_Round_eq _ _ 7 13109166 (by norm_num) (by norm_num) (by norm_num)
      (by norm_num) (by norm_num))
    (by exact_mod_cast Float32Math_Round_natCast 400 (by norm_num))
    (Float32Math_Round_eq _ _ 8 13108183 (by norm_num) (by norm_num) (by norm_num)
      (by norm_num) (by norm_num))
    (Float32Math_Round_eq _ _ 8 13108183 (by norm_num) (by norm_num) (by norm_num)
      (by norm_num) (by norm_num))
    (Float32Math_Round_eq _ _ 8 13109166 (by norm_num) (by norm_num) (by norm_num)
      (by norm_num) (by norm_num))
    (by exact_mod_cast Float32Math_Round_natCast 40012 (by norm_num))
    (Float32Math_Round_eq _ _ 15 10243072 (by norm_num) (by norm_num) (by norm_num)
      (by norm_num) (by norm_num))
    (by exact_mod_cast Float32Math_Round_natCast 80024 (by norm_num))
    (Float32Math_Round_eq _ _ 16 10243072 (by norm_num) (by norm_num) (by norm_num)
      (by norm_num) (by norm_num))
    (Float32Math_Round_eq _ _ 17 10241536 (by norm_num) (by norm_num) (by norm_num)
      (by norm_num) (by norm_num))
    (by exact_mod_cast Float32Math_Round_natCast 160024 (by norm_num))
    (by exact_mod_cast Float32Math_Round_natCast 160036 (by norm_num))
    (Float32Math_Round_eq _ _ 17 10242304 (by norm_num) (by norm_num) (by norm_num)
      (by norm_num) (by norm_num))
    (by exact_mod_cast Float32Math_Round_natCast 160048 (by norm_num))
    (Float32Math_Round_eq _ _ 17 10243072 (by norm_num) (by norm_num) (by norm_num)
      (by norm_num) (by norm_num))
    (Float32Math_Round_eq _ _ 18 16770815 (by norm_num) (by norm_num) (by norm_num)
      (by norm_num) (by norm_num))
    (Float32Math_Round_eq _ _ 19 8391808 (by norm_num) (by norm_num) (by norm_num)
      (by norm_num) (by norm_num))
    (Float32Math_InvSqrt_eq _ (1 / 400) _
      (by
        exact_mod_cast RationalMath_InvSqrt_natCast 160048 400 (by norm_num) (by norm_num))
      (Float32Math_Round_eq _ _ (-9) 10737418 (by norm_num) (by norm_num) (by norm_num)
        (by norm_num) (by norm_num)))

/-! ## Translation in float arithmetic -/

/-- In float arithmetic too, moving the transform and the position by the same vector
leaves the local position unchanged: the difference that is rounded is the same number. -/
theorem Rounded_InverseTransform_translate (M : FMath) (T : FTransform) (L t : FVector) :
    Rounded.InverseTransformPosition M
      ({ T with Translation := T.Translation + t } : FTransform) (L + t)
      = Rounded.InverseTransformPosition M T L := by
  unfold Rounded.InverseTransformPosition
  have e : Rounded.Sub M (L + t) (T.Translation + t) = Rounded.Sub M L T.Translation := by
    unfold Rounded.Sub
    have hx : (L + t).X - (T.Translation + t).X = L.X - T.Translation.X := by
      simp only [FVector.add_def]; ring
    have hy : (L + t).Y - (T.Translation + t).Y = L.Y - T.Translation.Y := by
      simp only [FVector.add_def]; ring
    have hz : (L + t).Z - (T.Translation + t).Z = L.Z - T.Translation.Z := by
      simp only [FVector.add_def]; ring
    rw [hx, hy, hz]
  simp only [e]

/-- The part of the float query after the loop commutes with a move of the actor and of the
location, when the move of the closest location and of the band of the prism is exact. -/
theorem Rounded_Result_translate (M : FMath) (A : AVolumetricAudioSource) (L t : FVector)
    (c : FVector × FVector)
    (hX : (Rounded.TransformPosition M (A.Translate t).Spline.ComponentToWorld c.1).X
      = (Rounded.TransformPosition M A.Spline.ComponentToWorld c.1).X + t.X)
    (hY : (Rounded.TransformPosition M (A.Translate t).Spline.ComponentToWorld c.1).Y
      = (Rounded.TransformPosition M A.Spline.ComponentToWorld c.1).Y + t.Y)
    (hFloor : (Rounded.GetBox M (A.Translate t).Spline.Bounds).Min.Z
      = (Rounded.GetBox M A.Spline.Bounds).Min.Z + t.Z)
    (hCeiling : M.Round ((Rounded.GetBox M (A.Translate t).Spline.Bounds).Max.Z + A.MaxHeight)
      = M.Round ((Rounded.GetBox M A.Spline.Bounds).Max.Z + A.MaxHeight) + t.Z) :
    Rounded.Result M (A.Translate t) (L + t) c
      = ((Rounded.Result M A L c).1, (Rounded.Result M A L c).2 + t) := by
  unfold Rounded.Result
  have hH : (A.Translate t).MaxHeight = A.MaxHeight := rfl
  have hZ : (L + t).Z = L.Z + t.Z := rfl
  have hXl : (L + t).X = L.X + t.X := rfl
  have hYl : (L + t).Y = L.Y + t.Y := rfl
  dsimp only
  rw [hX, hY, hFloor, hH, hCeiling, hZ, hXl, hYl]
  have hdot : ∀ w : ℚ, Rounded.Dot M (Rounded.Sub M (L + t)
        ⟨(Rounded.TransformPosition M A.Spline.ComponentToWorld c.1).X + t.X,
          (Rounded.TransformPosition M A.Spline.ComponentToWorld c.1).Y + t.Y, w + t.Z⟩) c.2
      = Rounded.Dot M (Rounded.Sub M L
        ⟨(Rounded.TransformPosition M A.Spline.ComponentToWorld c.1).X,
          (Rounded.TransformPosition M A.Spline.ComponentToWorld c.1).Y, w⟩) c.2 := by
    intro w
    have e : Rounded.Sub M (L + t)
        ⟨(Rounded.TransformPosition M A.Spline.ComponentToWorld c.1).X + t.X,
          (Rounded.TransformPosition M A.Spline.ComponentToWorld c.1).Y + t.Y, w + t.Z⟩
        = Rounded.Sub M L
        ⟨(Rounded.TransformPosition M A.Spline.ComponentToWorld c.1).X,
          (Rounded.TransformPosition M A.Spline.ComponentToWorld c.1).Y, w⟩ := by
      unfold Rounded.Sub
      simp only [FVector.add_def]
      congr 2 <;> ring
    rw [e]
  by_cases h1 : L.Z < (Rounded.GetBox M A.Spline.Bounds).Min.Z
  · have h1' : L.Z + t.Z < (Rounded.GetBox M A.Spline.Bounds).Min.Z + t.Z := by linarith
    simp only [if_pos h1, if_pos h1']
    simp only [hdot]
    split_ifs <;> ext <;> simp
  · have h1' : ¬ L.Z + t.Z < (Rounded.GetBox M A.Spline.Bounds).Min.Z + t.Z := by
      intro h; exact h1 (by linarith)
    by_cases h2 : L.Z > M.Round ((Rounded.GetBox M A.Spline.Bounds).Max.Z + A.MaxHeight)
    · have h2' : L.Z + t.Z
          > M.Round ((Rounded.GetBox M A.Spline.Bounds).Max.Z + A.MaxHeight) + t.Z := by
        linarith
      simp only [if_neg h1, if_neg h1', if_pos h2, if_pos h2']
      simp only [hdot]
      split_ifs <;> ext <;> simp
    · have h2' : ¬ L.Z + t.Z
          > M.Round ((Rounded.GetBox M A.Spline.Bounds).Max.Z + A.MaxHeight) + t.Z := by
        intro h; exact h2 (by linarith)
      simp only [if_neg h1, if_neg h1', if_neg h2, if_neg h2']
      simp only [hdot]
      split_ifs <;> ext <;> simp

/-- In single precision, the default actor moved by (1024, 512, 256): the local position of
the query (-6000, -199, 0), the world position of the vertex (-200, -200, 0) before and
after the move, the boxes of the bounds and the ceilings of the band. -/
theorem Float32_moved_default_square :
    Rounded.InverseTransformPosition Float32Math DefaultActor.Spline.ComponentToWorld
        ⟨(-6000), (-199), 0⟩ = ⟨(-6000), (-199), 0⟩ ∧
    Rounded.TransformPosition Float32Math (DefaultActor.Translate ⟨1024, 512, 256⟩).Spline.ComponentToWorld
        ⟨(-200), (-200), 0⟩ = ⟨824, 312, 256⟩ ∧
    Rounded.TransformPosition Float32Math DefaultActor.Spline.ComponentToWorld
        ⟨(-200), (-200), 0⟩ = ⟨(-200), (-200), 0⟩ ∧
    Rounded.GetBox Float32Math (DefaultActor.Translate ⟨1024, 512, 256⟩).Spline.Bounds
        = ⟨⟨824, 312, 256⟩, ⟨1224, 712, 256⟩⟩ ∧
    Rounded.GetBox Float32Math DefaultActor.Spline.Bounds = ⟨⟨(-200), (-200), 0⟩, ⟨200, 200, 0⟩⟩ ∧
    Float32Math.Round (256 + 400) = 656 ∧ Float32Math.Round (0 + 400) = 400 := by
  have key : ∀ M : FMath,
      M.Round (-6000) = (-6000) →
      M.Round (-200) = (-200) →
      M.Round (-199) = (-199) →
      M.Round 0 = 0 →
      M.Round (1 / 100000000) = (11258999 / 1125899906842624) →
      M.Round 1 = 1 →
      M.Round 200 = 200 →
      M.Round 256 = 256 →
      M.Round 312 = 312 →
      M.Round 400 = 400 →
      M.Round 656 = 656 →
      M.Round 712 = 712 →
      M.Round 824 = 824 →
      M.Round 1224 = 1224 →
      Rounded.InverseTransformPosition M DefaultActor.Spline.ComponentToWorld
          ⟨(-6000), (-199), 0⟩ = ⟨(-6000), (-199), 0⟩ ∧
      Rounded.TransformPosition M (DefaultActor.Translate ⟨1024, 512, 256⟩).Spline.ComponentToWorld
          ⟨(-200), (-200), 0⟩ = ⟨824, 312, 256⟩ ∧
      Rounded.TransformPosition M DefaultActor.Spline.ComponentToWorld
          ⟨(-200), (-200), 0⟩ = ⟨(-200), (-200), 0⟩ ∧
      Rounded.GetBox M (DefaultActor.Translate ⟨1024, 512, 256⟩).Spline.Bounds
          = ⟨⟨824, 312, 256⟩, ⟨1224, 712, 256⟩⟩ ∧
      Rounded.GetBox M DefaultActor.Spline.Bounds = ⟨⟨(-200), (-200), 0⟩, ⟨200, 200, 0⟩⟩ ∧
      M.Round (256 + 400) = 656 ∧ M.Round (0 + 400) = 400 := by
    intro M h1 h2 h3 h4 h5 h6 h7 h8 h9 h10 h11 h12 h13 h14
    norm_num [DefaultActor, AVolumetricAudioSource.Translate, AVolumetricAudioSource.Construct,
      DefaultSettings, DefaultSpline, Rounded.InverseTransformPosition, Rounded.TransformPosition,
      Rounded.UnrotateVector, Rounded.RotateVector, Rounded.GetBox, Rounded.Scale, Rounded.Sub,
      Rounded.Add, Rounded.Mul, Rounded.CrossProduct, Rounded.SafeReciprocal, FTransform.Identity,
      FQuat.Identity, SMALL_NUMBER,
        h1, h2, h3, h4, h5, h6, h7, h8, h9, h10, h11, h12, h13, h14]
  exact key Float32Math
    (by exact_mod_cast Float32Math_Round_neg_natCast 6000 (by norm_num))
    (by exact_mod_cast Float32Math_Round_neg_natCast 200 (by norm_num))
    (by exact_mod_cast Float32Math_Round_neg_natCast 199 (by norm_num))
    Round32_zero
    (Float32Math_Round_eq _ _ (-27) 11258999 (by norm_num) (by norm_num) (by norm_num)
      (by norm_num) (by norm_num))
    (by exact_mod_cast Float32Math_Round_natCast 1 (by norm_num))
    (by exact_mod_cast Float32Math_Round_natCast 200 (by norm_num))
    (by exact_mod_cast Float32Math_Round_natCast 256 (by norm_num))
    (by exact_mod_cast Float32Math_Round_natCast 312 (by norm_num))
    (by exact_mod_cast Float32Math_Round_natCast 400 (by norm_num))
    (by exact_mod_cast Float32Math_Round_natCast 656 (by norm_num))
    (by exact_mod_cast Float32Math_Round_natCast 712 (by norm_num))
    (by exact_mod_cast Float32Math_Round_natCast 824 (by norm_num))
    (by exact_mod_cast Float32Math_Round_natCast 1224 (by norm_num))

/-! ## The tick in single precision -/

/-- The single precision inverse square root at the squared side of the default square. -/
theorem Float32Math_InvSqrt_160000 :
    Float32Math.InvSqrt (4 * 200 * 200) = 5368709 / 2147483648 := by
  have h : (4 : ℚ) * 200 * 200 = 160000 := by norm_num
  rw [h]
  exact Float32Math_InvSqrt_eq _ (1 / 400) _ RationalMath_InvSqrt_160000
    (Float32Math_Round_eq _ _ (-9) 10737418 (by norm_num) (by norm_num) (by norm_num)
      (by norm_num) (by norm_num))

/-- The query of the tick in single precision at the centre of an actor with the default
square and the default height. -/
theorem Float32_centre_query (A : AVolumetricAudioSource) (hSpline : A.Spline = DefaultSpline 200)
    (hH : A.MaxHeight = 400) : IsInside Float32Math A ⟨0, 0, 0⟩ = some (true, ⟨0, 0, 0⟩) := by
  obtain ⟨-, -, -, -, -, -, h⟩ := IsInside_default_square_axis Float32Math A 200 0
    DefaultActor_conditions.1 hSpline DefaultActor_conditions.2.2.1
    (by rw [Float32Math_InvSqrt_160000]; norm_num)
  rw [h, if_neg (lt_irrefl _), if_neg (by rw [hH]; norm_num)]

/-- The context of the largest draw is a game tick whose listener is at the origin. -/
theorem MaxDrawContext_listener (TickType : ELevelTick) :
    ¬ TickActor.IsEditModeTick MaxDrawContext TickType ∧
      TickActor.AudioListenerLocation MaxDrawContext.World = ⟨0, 0, 0⟩ := by
  constructor
  · simp [TickActor.IsEditModeTick, MaxDrawContext, GameContext]
  · simp [TickActor.AudioListenerLocation, MaxDrawContext, GameContext]

/-- The redrawn countdown in single precision for MinDelay 2.3f, MaxDelay 7.9f and the
largest draw: 2.3f + (7.9f - 2.3f) * 1.0f is 8283751/1048576, one float above 7.9f. -/
theorem Float32_FRandRange_overshoot :
    FRandRange Float32Math (FRand Float32Math 32767 32767) (9646899 / 4194304)
      (16567501 / 2097152) = 8283751 / 1048576 := by
  have key : ∀ M : FMath, M.Round 1 = 1 →
      M.Round (23488103 / 4194304) = 2936013 / 524288 →
      M.Round (2936013 / 524288) = 2936013 / 524288 →
      M.Round (33135003 / 4194304) = 8283751 / 1048576 →
      FRandRange M (FRand M 32767 32767) (9646899 / 4194304) (16567501 / 2097152)
        = 8283751 / 1048576 := by
    intro M h1 h2 h3 h4
    norm_num [FRandRange, FRand, h1, h2, h3, h4]
  exact key Float32Math
    (by exact_mod_cast Float32Math_Round_natCast 1 (by norm_num))
    (Float32Math_Round_tie _ _ 2 11744052 (by norm_num) (by norm_num)
      (Or.inr (by norm_num)) (by norm_num) (by norm_num))
    (Float32Math_Round_eq _ _ 2 11744052 (by norm_num) (by norm_num) (by norm_num)
      (by norm_num) (by norm_num))
    (Float32Math_Round_tie _ _ 2 16567502 (by norm_num) (by norm_num)
      (Or.inr (by norm_num)) (by norm_num) (by norm_num))

/-- The single precision difference 0 - 1/64. -/
theorem Float32Math_Round_elapsed : Float32Math.Round (0 - 1 / 64) = -(1 / 64) := by
  have h : (0 : ℚ) - 1 / 64 = -(1 / 64) := by norm_num
  rw [h]
  exact Float32Math_Round_neg_eq _ _ (-6) 8388608 (by norm_num) (by norm_num) (by norm_num)
    (by norm_num) (by norm_num)

/-! ## The claims -/

set_option maxRecDepth 8192 in
set_option maxHeartbeats 1000000 in
/-- C1 fails on the code. The L-shaped hexagon (shoelace sum negative, identity transform,
MaxHeight 400) and the location (90, 90, 0), which is strictly inside the polygon next to
its reflex corner (100, 100) and whose height is in the band of the prism: the closest
boundary location is the reflex corner, the averaged normal kept there points into the
polygon, and IsInside returns false. -/
theorem C1_inside_point_at_reflex_corner_is_rejected :
    ShoelaceSum LShapeActor.Spline.Points < 0 ∧
    (LShapeActor.Spline.Bounds.GetBox.Min.Z ≤ 0 ∧
      0 ≤ LShapeActor.Spline.Bounds.GetBox.Max.Z + LShapeActor.MaxHeight) ∧
    IsInside RationalMath LShapeActor ⟨90, 90, 0⟩ = some (false, ⟨100, 100, 0⟩) := by
  have hr : List.range 6 = [0, 1, 2, 3, 4, 5] := by decide
  refine ⟨?_, ?_, ?_⟩
  · simp [ShoelaceSum, LShapeActor, LShapeSpline, hr]
    norm_num
  · norm_num [LShapeActor, LShapeSpline, DefaultActor, AVolumetricAudioSource.Construct,
      FBoxSphereBounds.GetBox]
  · simp [IsInside, IsInside.Loop, IsInside.Body, IsInside.Init, IsInside.Result, hr,
      IsInside.Edge, FDiv, LShapeActor, LShapeSpline, DefaultActor,
      AVolumetricAudioSource.Construct, FVector.Dot, FVector.GetSafeNormal,
      FVector.CrossProduct, FVector.UpVector, SMALL_NUMBER, FVector.DistSquared, MAX_FLT,
      FTransform.Identity, FTransform.InverseTransformPosition, FTransform.TransformPosition,
      FQuat.Identity, FQuat.RotateVector, FQuat.UnrotateVector, FVector.Scale,
      SafeReciprocal, FBoxSphereBounds.GetBox]
    norm_num [RationalMath_InvSqrt_L.1, RationalMath_InvSqrt_L.2]

/-- C2 fails on the code. The thin rectangle (200 long and 1/128 wide: a simple polygon of
four distinct vertices at height 0, wound like the default square, shoelace sum negative,
identity transform) and the location (0, 524288, 0), whose Y is above the Y of every
vertex, so that it is strictly outside the convex hull: in single precision the four
computed squared distances are the same float 2^38, the strict comparison keeps index 0,
the far side, whose normal points away from the query, and IsInside returns true. Without
rounding the near side is selected and the result is false. -/
theorem C2_outside_point_is_accepted_on_a_distance_tie :
    ShoelaceSum SliverActor.Spline.Points < 0 ∧
    SliverActor.Spline.ComponentToWorld = FTransform.Identity ∧
    (∀ p ∈ SliverActor.Spline.Points, p.Z = 0 ∧ p.Y < 524288) ∧
    Rounded.IsInside Float32Math SliverActor ⟨0, 524288, 0⟩
      = some (true, ⟨0, 524288, 0⟩) ∧
    IsInside RationalMath SliverActor ⟨0, 524288, 0⟩ = some (false, ⟨0, 1 / 128, 0⟩) := by
  have hr : List.range 4 = [0, 1, 2, 3] := by decide
  refine ⟨?_, rfl, ?_, Float32_sliver_query, ?_⟩
  · simp [ShoelaceSum, SliverActor, hr]
    norm_num
  · simp [SliverActor]
    norm_num
  · rw [← Rounded_IsInside_exact RationalMath (fun _ => rfl)]
    exact Exact_sliver_query

/-- C3 (amended): for every size S > 0 whose square reaches the tolerance of GetSafeNormal
and at which the inverse square root is positive, with the spline built by the
constructor (the square of side S around the origin at height 0, identity transform) and
MaxHeight at least zero, IsInside at the centre (0,0,0) returns true and the returned
closest location is the query location itself, at distance 0 from the query; the closest
location kept by the loop, which is not the one returned, is at distance S/2. -/
theorem C3_centre_of_default_square (M : FMath) (PluginSettings : UVolumeAudioSourceSettings)
    (A : AVolumetricAudioSource) (hS : 0 < PluginSettings.DefaultSize)
    (hSpline : A.Spline = (AVolumetricAudioSource.Construct PluginSettings).Spline)
    (hH : 0 ≤ A.MaxHeight)
    (hTol : SMALL_NUMBER ≤ PluginSettings.DefaultSize * PluginSettings.DefaultSize)
    (hInv : 0 < M.InvSqrt (PluginSettings.DefaultSize * PluginSettings.DefaultSize)) :
    IsInside M A ⟨0, 0, 0⟩ = some (true, ⟨0, 0, 0⟩) ∧
    ∃ st c, IsInside.Loop M A.Spline.Points ⟨0, 0, 0⟩ = some st ∧
      st.CachedLocationAndNormal[st.ClosestLocationIndex]? = some c ∧
      FVector.DistSquared ⟨0, 0, 0⟩ c.1
        = (PluginSettings.DefaultSize / 2) * (PluginSettings.DefaultSize / 2) := by
  have e : 4 * (PluginSettings.DefaultSize / 2) * (PluginSettings.DefaultSize / 2)
      = PluginSettings.DefaultSize * PluginSettings.DefaultSize := by ring
  obtain ⟨st, c, hloop, hcached, h1, h2, hres⟩ :=
    IsInside_default_square_axis M A (PluginSettings.DefaultSize / 2) 0 (by linarith)
      hSpline (by rw [e]; exact hTol) (by rw [e]; exact hInv)
  refine ⟨?_, st, c, hloop, hcached, ?_⟩
  · rw [hres, if_neg (lt_irrefl _), if_neg (not_lt.mpr hH)]
  · simp only [FVector.DistSquared, h2]
    rw [← h1]; ring

/-- C3 (amended) at the default settings. -/
theorem C3_centre_of_default_square_witness :
    IsInside RationalMath DefaultActor ⟨0, 0, 0⟩ = some (true, ⟨0, 0, 0⟩) ∧
    ∃ st c, IsInside.Loop RationalMath DefaultActor.Spline.Points ⟨0, 0, 0⟩ = some st ∧
      st.CachedLocationAndNormal[st.ClosestLocationIndex]? = some c ∧
      FVector.DistSquared ⟨0, 0, 0⟩ c.1
        = (DefaultSettings.DefaultSize / 2) * (DefaultSettings.DefaultSize / 2) :=
  C3_centre_of_default_square RationalMath DefaultSettings DefaultActor
    (by norm_num [DefaultSettings]) rfl
    (by norm_num [DefaultActor, AVolumetricAudioSource.Construct])
    (by norm_num [DefaultSettings, SMALL_NUMBER])
    (by
      have h : DefaultSettings.DefaultSize * DefaultSettings.DefaultSize = 160000 := by
        norm_num [DefaultSettings]
      rw [h, RationalMath_InvSqrt_160000]; norm_num)

/-- C3 as stated fails at the default size 400: IsInside at the centre does not return
true together with a closest location at distance 400/2 from the query. -/
theorem C3_returned_location_is_not_at_half_side :
    ¬ ∃ Out, IsInside RationalMath DefaultActor ⟨0, 0, 0⟩ = some (true, Out) ∧
      FVector.DistSquared ⟨0, 0, 0⟩ Out = (400 / 2) * (400 / 2) := by
  rintro ⟨Out, h, hd⟩
  obtain ⟨-, -, -, -, -, -, hres⟩ :=
    IsInside_default_square_axis RationalMath DefaultActor 200 0 DefaultActor_conditions.1
      DefaultActor_conditions.2.1 DefaultActor_conditions.2.2.1 DefaultActor_conditions.2.2.2
  have hH : ¬ (0 : ℚ) > DefaultActor.MaxHeight := by
    norm_num [DefaultActor, AVolumetricAudioSource.Construct]
  rw [hres, if_neg (lt_irrefl _), if_neg hH] at h
  have hOut : Out = ⟨0, 0, 0⟩ := by
    have := Option.some.inj h
    exact (congrArg Prod.snd this).symm
  rw [hOut] at hd
  norm_num [FVector.DistSquared] at hd

/-- C4 (amended): the loop of IsInside keeps the tuple of the first segment whose computed
squared distance is the least. For every rounding of the float operations, every polygon
and every local query such that the squared distance computed for at least one segment is
below MAX_FLT (so the polygon has at least one vertex): the loop ends, ClosestLocationIndex
is the index of a segment, the tuple cached there is the one computed for that segment, its
computed squared distance is ClosestLocationDistance, at most the computed squared distance
of every segment and strictly below that of every earlier segment. When no operation
rounds, the cached location lies on a segment Points[i] to Points[(i+1) mod n] of the
closed loop and no point of any such segment is strictly closer to the query. -/
theorem C4_loop_keeps_least_computed_distance (M : FMath) (Points : List FVector)
    (q : FVector)
    (hs : ∃ j r, j < Points.length ∧ Rounded.Edge M Points q j = some r ∧
      Rounded.DistSquared M r.1 q < MAX_FLT) :
    ∃ st c, Rounded.Loop M Points q = some st ∧
      st.CachedLocationAndNormal[st.ClosestLocationIndex]? = some c ∧
      st.ClosestLocationIndex < Points.length ∧
      Rounded.Edge M Points q st.ClosestLocationIndex = some c ∧
      st.ClosestLocationDistance = Rounded.DistSquared M c.1 q ∧
      (∀ j r, j < Points.length → Rounded.Edge M Points q j = some r →
        Rounded.DistSquared M c.1 q ≤ Rounded.DistSquared M r.1 q) ∧
      (∀ j r, j < st.ClosestLocationIndex → Rounded.Edge M Points q j = some r →
        Rounded.DistSquared M c.1 q < Rounded.DistSquared M r.1 q) ∧
      ((∀ x, M.Round x = x) →
        (∃ i S E, ∃ t : ℚ, i < Points.length ∧ Points[i]? = some S ∧
          Points[(i + 1) % Points.length]? = some E ∧ 0 ≤ t ∧ t ≤ 1 ∧
          c.1 = S + (E - S) * t) ∧
        ∀ i S E, ∀ t : ℚ, i < Points.length → Points[i]? = some S →
          Points[(i + 1) % Points.length]? = some E → 0 ≤ t → t ≤ 1 →
          ¬ FVector.DistSquared (S + (E - S) * t) q < FVector.DistSquared c.1 q) := by
  obtain ⟨j, r, hj, hr, hd⟩ := hs
  obtain ⟨st, hst, inv⟩ := Rounded_Loop_invariant M Points q Points.length (le_refl _)
  have hlt : st.ClosestLocationDistance < MAX_FLT := lt_of_le_of_lt (inv.least j hj r hr) hd
  obtain ⟨hidx, c, hc, hcd⟩ := inv.found hlt
  have hcached := inv.cached _ hidx
  rw [hc] at hcached
  refine ⟨st, c, hst, hcached, hidx, hc, hcd.symm, ?_, ?_, ?_⟩
  · intro i ri hi hri
    rw [hcd]
    exact inv.least i hi ri hri
  · intro i ri hi hri
    rw [hcd]
    exact inv.first i hi ri hri
  · intro hExact
    rw [Rounded_Edge_exact M hExact] at hc
    constructor
    · obtain ⟨S, E, -, -, hS, hE, -, -, -⟩ := Edge_spec M Points q _ hidx
      obtain ⟨⟨t, ht0, ht1, ht⟩, -⟩ := Edge_nearest M Points q _ c S E hidx hc hS hE
      exact ⟨_, S, E, t, hidx, hS, hE, ht0, ht1, ht⟩
    · intro i S E t hi hS hE ht0 ht1
      obtain ⟨ri, hri⟩ := Edge_isSome M Points q i hi
      have h1 := (Edge_nearest M Points q i ri S E hi hri hS hE).2 t ht0 ht1
      have h2 := inv.least i hi ri (by rw [Rounded_Edge_exact M hExact]; exact hri)
      rw [Rounded_DistSquared_exact M hExact] at h2
      rw [← Rounded_DistSquared_exact M hExact c.1 q, hcd]
      exact not_lt.mpr (le_trans h2 h1)

/-- C4 (amended) in single precision, at the default square and the local query
(-6000, -199, 0): the loop ends with a selected segment whose computed squared distance is
the least. -/
theorem C4_loop_keeps_least_computed_distance_witness :
    ∃ st c, Rounded.Loop Float32Math (DefaultSpline 200).Points ⟨-6000, -199, 0⟩ = some st ∧
      st.CachedLocationAndNormal[st.ClosestLocationIndex]? = some c ∧
      st.ClosestLocationIndex < (DefaultSpline 200).Points.length ∧
      st.ClosestLocationDistance = Rounded.DistSquared Float32Math c.1 ⟨-6000, -199, 0⟩ ∧
      ∀ j r, j < (DefaultSpline 200).Points.length →
        Rounded.Edge Float32Math (DefaultSpline 200).Points ⟨-6000, -199, 0⟩ j = some r →
        Rounded.DistSquared Float32Math c.1 ⟨-6000, -199, 0⟩
          ≤ Rounded.DistSquared Float32Math r.1 ⟨-6000, -199, 0⟩ := by
  obtain ⟨st0, n, hst0, hidx0, hc0, hd0⟩ := Float32_default_square_tie
  have hs : ∃ j r, j < (DefaultSpline 200).Points.length ∧
      Rounded.Edge Float32Math (DefaultSpline 200).Points ⟨-6000, -199, 0⟩ j = some r ∧
      Rounded.DistSquared Float32Math r.1 ⟨-6000, -199, 0⟩ < MAX_FLT := by
    obtain ⟨st1, hst1, inv1⟩ := Rounded_Loop_invariant Float32Math (DefaultSpline 200).Points
      ⟨-6000, -199, 0⟩ _ (le_refl _)
    have e : st1 = st0 := Option.some.inj (hst1.symm.trans hst0)
    have hlt : st1.ClosestLocationDistance < MAX_FLT := by
      rw [e, hd0]
      norm_num [MAX_FLT]
    obtain ⟨hi, r, hr, hrd⟩ := inv1.found hlt
    exact ⟨_, r, hi, hr, by rw [hrd]; exact hlt⟩
  obtain ⟨st, c, h1, h2, h3, -, h5, h6, -, -⟩ :=
    C4_loop_keeps_least_computed_distance Float32Math (DefaultSpline 200).Points
      ⟨-6000, -199, 0⟩ hs
  exact ⟨st, c, h1, h2, h3, h5, h6⟩

/-- C4 as stated fails on the code. In single precision, at the default square (side 400)
and the local query (-6000, -199, 0): the squared distance computed for some segment is
below MAX_FLT, the loop keeps the vertex (-200, -200, 0), and the point (-200, -199, 0) of
the segment from (-200, -200, 0) to (-200, 200, 0) is strictly closer to the query: the
squared distances 33640001 and 33640000 are the same float and the earlier segment is
kept. -/
theorem C4_float_tie_keeps_a_farther_vertex :
    (∃ j r, j < (DefaultSpline 200).Points.length ∧
      Rounded.Edge Float32Math (DefaultSpline 200).Points ⟨-6000, -199, 0⟩ j = some r ∧
      Rounded.DistSquared Float32Math r.1 ⟨-6000, -199, 0⟩ < MAX_FLT) ∧
    ∃ st c, Rounded.Loop Float32Math (DefaultSpline 200).Points ⟨-6000, -199, 0⟩ = some st ∧
      st.CachedLocationAndNormal[st.ClosestLocationIndex]? = some c ∧
      c.1 = ⟨-200, -200, 0⟩ ∧
      (DefaultSpline 200).Points[2]? = some ⟨-200, -200, 0⟩ ∧
      (DefaultSpline 200).Points[(2 + 1) % (DefaultSpline 200).Points.length]?
        = some ⟨-200, 200, 0⟩ ∧
      FVector.DistSquared
          ((⟨-200, -200, 0⟩ : FVector) + ((⟨-200, 200, 0⟩ : FVector) - ⟨-200, -200, 0⟩)
            * (1 / 400 : ℚ)) ⟨-6000, -199, 0⟩
        < FVector.DistSquared c.1 ⟨-6000, -199, 0⟩ := by
  obtain ⟨st0, n, hst0, hidx0, hc0, hd0⟩ := Float32_default_square_tie
  constructor
  · obtain ⟨st1, hst1, inv1⟩ := Rounded_Loop_invariant Float32Math (DefaultSpline 200).Points
      ⟨-6000, -199, 0⟩ _ (le_refl _)
    have e : st1 = st0 := Option.some.inj (hst1.symm.trans hst0)
    have hlt : st1.ClosestLocationDistance < MAX_FLT := by
      rw [e, hd0]
      norm_num [MAX_FLT]
    obtain ⟨hi, r, hr, hrd⟩ := inv1.found hlt
    exact ⟨_, r, hi, hr, by rw [hrd]; exact hlt⟩
  · refine ⟨st0, _, hst0, hc0, rfl, rfl, rfl, ?_⟩
    norm_num [FVector.DistSquared]

/-- C5 fails on the code. A playing emitter (MaxDistance 5, stop offset 500) whose listener
is 10 above the ceiling of the default prism is outside the prism at squared distance 100,
between 25 and 525; the tick issues Stop and the emitter ends stopped. -/
theorem C5_playing_loop_is_stopped_in_band :
    TickActor.ListenerQuery RationalMath (GameContext ⟨0, 0, 410⟩) (PlayingActor 5)
      ELevelTick.LEVELTICK_All (false, ⟨0, 0, 400⟩) ∧
    (PlayingActor 5).MaxDistance * (PlayingActor 5).MaxDistance
      < ((⟨0, 0, 410⟩ : FVector) - ⟨0, 0, 400⟩).SizeSquared ∧
    ((⟨0, 0, 410⟩ : FVector) - ⟨0, 0, 400⟩).SizeSquared
      ≤ (PlayingActor 5).MaxDistance * (PlayingActor 5).MaxDistance
        + DefaultSettings.StopPlayingSoundOffset ∧
    (PlayingActor 5).AudioComponent = some ⟨some ⟨5, 10⟩, ⟨0, 0, 0⟩, true⟩ ∧
    ∃ A1, TickActor RationalMath DefaultSettings (GameContext ⟨0, 0, 410⟩) (PlayingActor 5)
        (1 / 60) ELevelTick.LEVELTICK_All = some (A1, [FAudioCommand.Stop]) ∧
      A1.AudioComponent = some ⟨some ⟨5, 10⟩, ⟨0, 0, 0⟩, false⟩ := by
  have hq := PlayingActor_above 5 410 (by norm_num) ELevelTick.LEVELTICK_All
  have h1 : (PlayingActor 5).MaxDistance * (PlayingActor 5).MaxDistance
      < ((⟨0, 0, 410⟩ : FVector) - ⟨0, 0, 400⟩).SizeSquared := by
    norm_num [PlayingActor, FVector.SizeSquared]
  have h2 : ((⟨0, 0, 410⟩ : FVector) - ⟨0, 0, 400⟩).SizeSquared
      ≤ (PlayingActor 5).MaxDistance * (PlayingActor 5).MaxDistance
        + DefaultSettings.StopPlayingSoundOffset := by
    norm_num [PlayingActor, FVector.SizeSquared, DefaultSettings]
  refine ⟨hq, h1, h2, rfl, ?_⟩
  have hL := (GameContext_listener ⟨0, 0, 410⟩ ELevelTick.LEVELTICK_All).2
  have hd := Decide_band RationalMath DefaultSettings (PlayingActor 5) ⟨0, 0, 410⟩
    ⟨0, 0, 400⟩ h1 h2
  rw [← hL] at hd
  obtain ⟨A1, cmds, ht, -, hac, -, -⟩ := TickActor_stop RationalMath DefaultSettings
    (GameContext ⟨0, 0, 410⟩) (PlayingActor 5) (1 / 60) ELevelTick.LEVELTICK_All _ _
    hq.1 hq.2 (by rw [hd]) rfl
  obtain ⟨ha, hc⟩ := hac _ rfl
  rw [hc] at ht
  exact ⟨A1, ht, ha⟩

/-- C7: the inside case of the scheduler. For every tick whose listener query returns
true, the tick interval becomes 0 and, for the audio component of the actor, the emitter
ends playing at exactly the listener location, Play is issued exactly when it was not
playing already, and the backend is told to move the emitter to the listener location. -/
theorem C7_inside_tick (M : FMath) (PluginSettings : UVolumeAudioSourceSettings)
    (ctx : FTickContext) (A : AVolumetricAudioSource) (DeltaTime : ℚ) (TickType : ELevelTick)
    (c : FVector)
    (hq : TickActor.ListenerQuery M ctx A TickType (true, c)) :
    ∃ A1 cmds, TickActor M PluginSettings ctx A DeltaTime TickType = some (A1, cmds) ∧
      A1.TickInterval = 0 ∧
      ∀ ac, A.AudioComponent = some ac →
        A1.AudioComponent = some { ac with
          WorldLocation := TickActor.AudioListenerLocation ctx.World, bIsPlaying := true } ∧
        (FAudioCommand.Play ∈ cmds ↔ ac.bIsPlaying = false) ∧
        FAudioCommand.SetWorldLocation (TickActor.AudioListenerLocation ctx.World) ∈ cmds := by
  have hd := Decide_inside M PluginSettings A (TickActor.AudioListenerLocation ctx.World) c
  obtain ⟨A1, cmds, ht, hti, hac, -, -⟩ := TickActor_play M PluginSettings ctx A DeltaTime
    TickType _ (TickActor.AudioListenerLocation ctx.World) hq.1 hq.2 (by rw [hd])
    (by rw [hd])
  exact ⟨A1, cmds, ht, hti, hac⟩

/-- C7 at the example actor with the listener at the centre of the square. -/
theorem C7_inside_tick_witness :
    ∃ A1 cmds, TickActor RationalMath DefaultSettings (GameContext ⟨0, 0, 0⟩)
        (PlayingActor 5) (1 / 60) ELevelTick.LEVELTICK_All = some (A1, cmds) ∧
      A1.TickInterval = 0 ∧
      ∀ ac, (PlayingActor 5).AudioComponent = some ac →
        A1.AudioComponent = some { ac with
          WorldLocation := TickActor.AudioListenerLocation (GameContext ⟨0, 0, 0⟩).World,
          bIsPlaying := true } ∧
        (FAudioCommand.Play ∈ cmds ↔ ac.bIsPlaying = false) ∧
        FAudioCommand.SetWorldLocation
          (TickActor.AudioListenerLocation (GameContext ⟨0, 0, 0⟩).World) ∈ cmds :=
  C7_inside_tick RationalMath DefaultSettings (GameContext ⟨0, 0, 0⟩) (PlayingActor 5)
    (1 / 60) ELevelTick.LEVELTICK_All ⟨0, 0, 0⟩
    (PlayingActor_centre 5 ELevelTick.LEVELTICK_All)

/-- C9: MaxDistance always reflects the sound configuration. Starting from a state with no
primary sound, no audio component, an empty catalog and MaxDistance 0, after any sequence
of edits of SoundLoop or RandomSFX handled by PostEditChangeProperty, MaxDistance is the
max-distance of SoundLoop when a primary sound is set, and otherwise the maximum of 0 and
the max-distances of the catalog entries that are not null. In particular setting a
primary sound next gives exactly its max-distance, and clearing it again gives the catalog
maximum. -/
theorem C9_MaxDistance_follows_configuration (A0 : AVolumetricAudioSource)
    (events : List FEditEvent)
    (h1 : A0.SoundLoop = none) (h2 : A0.AudioComponent = none) (h3 : A0.RandomSFX = [])
    (h4 : A0.MaxDistance = 0) :
    (∀ s, (events.foldl FEditEvent.Apply A0).SoundLoop = some s →
      (events.foldl FEditEvent.Apply A0).MaxDistance = s.MaxDistance) ∧
    ((events.foldl FEditEvent.Apply A0).SoundLoop = none →
      (events.foldl FEditEvent.Apply A0).MaxDistance
        = CatalogMaxDistance (events.foldl FEditEvent.Apply A0).RandomSFX) ∧
    ∀ s : USoundBase,
      (FEditEvent.Apply (events.foldl FEditEvent.Apply A0)
        (FEditEvent.SetSoundLoop (some s))).MaxDistance = s.MaxDistance ∧
      (FEditEvent.Apply
        (FEditEvent.Apply (events.foldl FEditEvent.Apply A0)
          (FEditEvent.SetSoundLoop (some s)))
        (FEditEvent.SetSoundLoop none)).MaxDistance
        = CatalogMaxDistance (events.foldl FEditEvent.Apply A0).RandomSFX := by
  obtain ⟨-, ha, hb⟩ := Edit_sequence A0 events h1 h2 h3 h4
  refine ⟨ha, hb, ?_⟩
  intro s
  have e1 : (events ++ [FEditEvent.SetSoundLoop (some s)]).foldl FEditEvent.Apply A0
      = FEditEvent.Apply (events.foldl FEditEvent.Apply A0)
          (FEditEvent.SetSoundLoop (some s)) := by
    rw [List.foldl_append]; rfl
  have e2 : (events ++ [FEditEvent.SetSoundLoop (some s), FEditEvent.SetSoundLoop none]).foldl
      FEditEvent.Apply A0
      = FEditEvent.Apply (FEditEvent.Apply (events.foldl FEditEvent.Apply A0)
          (FEditEvent.SetSoundLoop (some s))) (FEditEvent.SetSoundLoop none) := by
    rw [List.foldl_append]; rfl
  obtain ⟨-, ha1, -⟩ := Edit_sequence A0 (events ++ [FEditEvent.SetSoundLoop (some s)])
    h1 h2 h3 h4
  obtain ⟨-, -, hb2⟩ := Edit_sequence A0
    (events ++ [FEditEvent.SetSoundLoop (some s), FEditEvent.SetSoundLoop none]) h1 h2 h3 h4
  rw [e1] at ha1
  rw [e2] at hb2
  refine ⟨ha1 s (SetSoundLoop_fields _ _).1, ?_⟩
  rw [hb2 (SetSoundLoop_fields _ _).1, (SetSoundLoop_fields _ _).2,
    (SetSoundLoop_fields _ _).2]

/-- C9 at the default actor: over a catalog whose largest max-distance is 200, setting a
primary sound of max-distance 300 gives 300, and clearing it again gives 200. -/
theorem C9_MaxDistance_follows_configuration_witness :
    (FEditEvent.Apply
      ([FEditEvent.SetRandomSFX [some ⟨200, 1⟩, none, some ⟨150, 2⟩]].foldl
        FEditEvent.Apply DefaultActor)
      (FEditEvent.SetSoundLoop (some ⟨300, 3⟩))).MaxDistance = 300 ∧
    (FEditEvent.Apply
      (FEditEvent.Apply
        ([FEditEvent.SetRandomSFX [some ⟨200, 1⟩, none, some ⟨150, 2⟩]].foldl
          FEditEvent.Apply DefaultActor)
        (FEditEvent.SetSoundLoop (some ⟨300, 3⟩)))
      (FEditEvent.SetSoundLoop none)).MaxDistance = 200 := by
  have h := (C9_MaxDistance_follows_configuration DefaultActor
    [FEditEvent.SetRandomSFX [some ⟨200, 1⟩, none, some ⟨150, 2⟩]] rfl rfl rfl rfl).2.2
    ⟨300, 3⟩
  refine ⟨h.1, ?_⟩
  rw [h.2]
  have e : ([FEditEvent.SetRandomSFX [some ⟨200, 1⟩, none, some ⟨150, 2⟩]].foldl
      FEditEvent.Apply DefaultActor).RandomSFX = [some ⟨200, 1⟩, none, some ⟨150, 2⟩] := by
    simp [FEditEvent.Apply, PostEditChangeProperty, UpdateMaxDistance, DefaultActor,
      AVolumetricAudioSource.Construct]
  rw [e]
  norm_num [CatalogMaxDistance]

/-- C11 (amended): translation invariance of IsInside when the translation is exact. For
every rounding of the float operations, every polygon, MaxHeight, query location q and
vector t such that moving by t does not round the world-space closest location kept by the
loop (its X and Y) nor the floor and the ceiling of the band of the prism: moving the
component transform, and with it the world-space vertices and the bounds, and the query by
the same t gives the same outcome with the same inside flag and the returned closest
location moved by t; the computed squared distance from the moved query to a moved location
is the one from the query to the location. -/
theorem C11_translation_invariance_when_exact (M : FMath) (A : AVolumetricAudioSource)
    (q t : FVector)
    (hClosest : ∀ st c,
      Rounded.Loop M A.Spline.Points
        (Rounded.InverseTransformPosition M A.Spline.ComponentToWorld q) = some st →
      st.CachedLocationAndNormal[st.ClosestLocationIndex]? = some c →
      (Rounded.TransformPosition M (A.Translate t).Spline.ComponentToWorld c.1).X
        = (Rounded.TransformPosition M A.Spline.ComponentToWorld c.1).X + t.X ∧
      (Rounded.TransformPosition M (A.Translate t).Spline.ComponentToWorld c.1).Y
        = (Rounded.TransformPosition M A.Spline.ComponentToWorld c.1).Y + t.Y)
    (hFloor : (Rounded.GetBox M (A.Translate t).Spline.Bounds).Min.Z
      = (Rounded.GetBox M A.Spline.Bounds).Min.Z + t.Z)
    (hCeiling : M.Round ((Rounded.GetBox M (A.Translate t).Spline.Bounds).Max.Z + A.MaxHeight)
      = M.Round ((Rounded.GetBox M A.Spline.Bounds).Max.Z + A.MaxHeight) + t.Z) :
    Rounded.IsInside M (A.Translate t) (q + t)
      = (Rounded.IsInside M A q).map (fun r => (r.1, r.2 + t)) ∧
    ∀ p : FVector,
      Rounded.DistSquared M (q + t) (p + t) = Rounded.DistSquared M q p := by
  constructor
  · unfold Rounded.IsInside
    have hP : (A.Translate t).Spline.Points = A.Spline.Points := rfl
    have hL : Rounded.InverseTransformPosition M (A.Translate t).Spline.ComponentToWorld
        (q + t) = Rounded.InverseTransformPosition M A.Spline.ComponentToWorld q :=
      Rounded_InverseTransform_translate M _ _ _
    rw [hP, hL]
    dsimp only
    cases ho : Rounded.Loop M A.Spline.Points
      (Rounded.InverseTransformPosition M A.Spline.ComponentToWorld q) with
    | none => rfl
    | some st =>
      simp only [Option.bind_eq_bind, Option.some_bind]
      cases hoc : st.CachedLocationAndNormal[st.ClosestLocationIndex]? with
      | none => rfl
      | some c =>
        obtain ⟨hX, hY⟩ := hClosest st c ho hoc
        simp only [Option.some_bind, Option.pure_def, Option.map_some',
          Rounded_Result_translate M A q t c hX hY hFloor hCeiling]
  · intro p
    unfold Rounded.DistSquared
    have hx : (p + t).X - (q + t).X = p.X - q.X := by simp only [FVector.add_def]; ring
    have hy : (p + t).Y - (q + t).Y = p.Y - q.Y := by simp only [FVector.add_def]; ring
    have hz : (p + t).Z - (q + t).Z = p.Z - q.Z := by simp only [FVector.add_def]; ring
    rw [hx, hy, hz]

/-- C11 (amended) in single precision, at the default actor, the query (-6000, -199, 0) and
the move by (1024, 512, 256), which is exact on the closest location (-200, -200, 0) and on
the band: the moved query has the same flag and the moved closest location. -/
theorem C11_translation_invariance_when_exact_witness :
    Rounded.IsInside Float32Math (DefaultActor.Translate ⟨1024, 512, 256⟩)
        (⟨-6000, -199, 0⟩ + ⟨1024, 512, 256⟩)
      = (Rounded.IsInside Float32Math DefaultActor ⟨-6000, -199, 0⟩).map
        (fun r => (r.1, r.2 + ⟨1024, 512, 256⟩)) := by
  obtain ⟨hLocal, hW1, hW0, hB1, hB0, hC1, hC0⟩ := Float32_moved_default_square
  obtain ⟨st0, n, hst0, -, hc0, -⟩ := Float32_default_square_tie
  have hH : DefaultActor.MaxHeight = 400 := rfl
  refine (C11_translation_invariance_when_exact Float32Math DefaultActor ⟨-6000, -199, 0⟩
    ⟨1024, 512, 256⟩ ?_ ?_ ?_).1
  · intro st c hst hc
    rw [hLocal, DefaultActor_conditions.2.1, hst0] at hst
    have e : st0 = st := Option.some.inj hst
    rw [← e, hc0] at hc
    have ec : c = (⟨-200, -200, 0⟩, n) := (Option.some.inj hc).symm
    rw [ec]
    show (Rounded.TransformPosition Float32Math _ ⟨-200, -200, 0⟩).X
        = (Rounded.TransformPosition Float32Math _ ⟨-200, -200, 0⟩).X + 1024 ∧
      (Rounded.TransformPosition Float32Math _ ⟨-200, -200, 0⟩).Y
        = (Rounded.TransformPosition Float32Math _ ⟨-200, -200, 0⟩).Y + 512
    rw [hW1, hW0]
    norm_num
  · rw [hB1, hB0]
    norm_num
  · rw [hB1, hB0, hH]
    show Float32Math.Round (256 + 400) = Float32Math.Round (0 + 400) + 256
    rw [hC1, hC0]
    norm_num

/-- C11 as stated fails on the code. In single precision, the square of half side 200.03
(the float 6554583/32768) with identity transform and the query (200, 0, 0): IsInside
returns true. The same square and query moved by t = (524288, 0, 0): the closest location
200.03 + 524288 rounds to 524488, the moved query, the direction is zero, the test
`< 0` fails and IsInside returns false. -/
theorem C11_translated_query_flips_the_flag :
    (⟨200, 0, 0⟩ : FVector) + ⟨524288, 0, 0⟩ = ⟨524488, 0, 0⟩ ∧
    Rounded.IsInside Float32Math WideSquareActor ⟨200, 0, 0⟩ = some (true, ⟨200, 0, 0⟩) ∧
    Rounded.IsInside Float32Math (WideSquareActor.Translate ⟨524288, 0, 0⟩) ⟨524488, 0, 0⟩
      = some (false, ⟨524488, 0, 0⟩) := by
  refine ⟨?_, Float32_wide_square_queries.1, Float32_wide_square_queries.2⟩
  norm_num

/-- C12 (amended): IsInside has no check for degenerate polygons. For every polygon, also
with fewer than 3 vertices or with a zero-length edge, and every location, IsInside
performs the query and returns an inside flag and a closest location exactly when the
polygon has at least one vertex; without any vertex the read of the cache is out of
range. -/
theorem C12_degenerate_polygons_are_queried (M : FMath) (A : AVolumetricAudioSource)
    (Location : FVector) :
    (∃ r, IsInside M A Location = some r) ↔ 0 < A.Spline.Points.length := by
  constructor
  · rintro ⟨r, hr⟩
    exact IsInside_some_pos M A Location r hr
  · intro hn
    obtain ⟨st, c, -, -, -, -, -, hres⟩ := IsInside_spec M A Location hn
    exact ⟨_, hres⟩

set_option maxRecDepth 8192 in
/-- C12 as stated fails: a polygon of two equal points has fewer than 3 vertices and
edges of length zero, and IsInside returns a flag and a closest location for it. -/
theorem C12_degenerate_polygon_returns_a_result :
    DegenerateActor.Spline.Points.length < 3 ∧
    DegenerateActor.Spline.Points[0]? = DegenerateActor.Spline.Points[1]? ∧
    IsInside RationalMath DegenerateActor ⟨1, 0, 0⟩ = some (false, ⟨0, 0, 0⟩) := by
  have hr : List.range 2 = [0, 1] := by decide
  refine ⟨by simp [DegenerateActor], by simp [DegenerateActor], ?_⟩
  simp [IsInside, IsInside.Loop, IsInside.Body, IsInside.Init, IsInside.Result, hr,
    IsInside.Edge, FDiv, DegenerateActor, DefaultActor, AVolumetricAudioSource.Construct,
    FVector.Dot, FVector.GetSafeNormal, FVector.ZeroVector,
    FVector.CrossProduct, FVector.UpVector, SMALL_NUMBER, FVector.DistSquared, MAX_FLT,
    FTransform.Identity, FTransform.InverseTransformPosition, FTransform.TransformPosition,
    FQuat.Identity, FQuat.RotateVector, FQuat.UnrotateVector, FVector.Scale,
    SafeReciprocal, FBoxSphereBounds.GetBox]
  norm_num

/-- C15 (amended): range of the redrawn countdown, in float arithmetic. For every tick with
MinDelay <= MaxDelay whose play decision is true, for every outcome of the random draw (a
value of Rand() up to RAND_MAX), and a rounding that is monotone and idempotent and keeps
1 and MinDelay: with a catalog that is not empty, if the float CurrentDelay - DeltaTime is
<= 0 the countdown is redrawn, and the new CurrentDelay is at least MinDelay and at most
the float value of MinDelay + (MaxDelay - MinDelay), which is at most MaxDelay when
MaxDelay - MinDelay and MaxDelay are kept by the rounding; if it is > 0 nothing fires and
the countdown becomes that float difference. With an empty catalog nothing fires and the
countdown is untouched, whatever CurrentDelay - DeltaTime. -/
theorem C15_countdown_redraw_range (M : FMath)
    (PluginSettings : UVolumeAudioSourceSettings) (ctx : FTickContext)
    (A : AVolumetricAudioSource) (DeltaTime : ℚ) (TickType : ELevelTick)
    (r : Bool × FVector)
    (hq : TickActor.ListenerQuery M ctx A TickType r)
    (hPlay : (TickActor.Decide M PluginSettings A
      (TickActor.AudioListenerLocation ctx.World) r).1 = true)
    (hDelay : A.MinDelay ≤ A.MaxDelay) (hRand : ctx.Rand.Delay ≤ ctx.RAND_MAX)
    (hmono : ∀ a b, a ≤ b → M.Round a ≤ M.Round b) (hOne : M.Round 1 = 1)
    (hidem : ∀ x, M.Round (M.Round x) = M.Round x)
    (hMin : M.Round A.MinDelay = A.MinDelay) :
    ∃ A1 cmds, TickActor M PluginSettings ctx A DeltaTime TickType = some (A1, cmds) ∧
      (0 < A.RandomSFX.length → M.Round (A.CurrentDelay - DeltaTime) ≤ 0 →
        A.MinDelay ≤ A1.CurrentDelay ∧
        A1.CurrentDelay ≤ M.Round (A.MinDelay + M.Round (A.MaxDelay - A.MinDelay)) ∧
        (M.Round (A.MaxDelay - A.MinDelay) = A.MaxDelay - A.MinDelay →
          M.Round A.MaxDelay = A.MaxDelay → A1.CurrentDelay ≤ A.MaxDelay)) ∧
      (0 < A.RandomSFX.length → 0 < M.Round (A.CurrentDelay - DeltaTime) →
        (∀ s l, FAudioCommand.PlaySoundAtLocation s l ∉ cmds) ∧
        A1.CurrentDelay = M.Round (A.CurrentDelay - DeltaTime)) ∧
      (A.RandomSFX.length = 0 →
        (∀ s l, FAudioCommand.PlaySoundAtLocation s l ∉ cmds) ∧
        A1.CurrentDelay = A.CurrentDelay) := by
  obtain ⟨B, Target, pcmds, hB1, hB2, hB3, hB4, hpc, hrun⟩ := TickActor_play_eq M
    PluginSettings ctx A DeltaTime TickType r hq.1 hq.2 hPlay
  by_cases hn : 0 < A.RandomSFX.length
  · by_cases hd : 0 < M.Round (A.CurrentDelay - DeltaTime)
    · obtain ⟨B1, hu, hw⟩ := UpdateRandomSFX_wait M ctx B DeltaTime Target
        (by rw [hB1]; exact hn) (by rw [hB2]; exact hd)
      obtain ⟨A1, ht, hcd⟩ := hrun B1 [] hu
      refine ⟨A1, _, ht, fun _ h => absurd hd (not_lt.mpr h), fun _ _ => ⟨?_, ?_⟩,
        fun h => absurd hn (by omega)⟩
      · intro s l hmem
        rw [List.append_nil] at hmem
        exact hpc _ hmem s l rfl
      · rw [hcd, hw, hB2]
    · obtain ⟨B1, rcmds, hu, hv⟩ := UpdateRandomSFX_redraw M ctx B DeltaTime Target
        (by rw [hB1]; exact hn) (by rw [hB2]; exact not_lt.mp hd)
      obtain ⟨A1, ht, hcd⟩ := hrun B1 rcmds hu
      have hb := FRandRange_bounds M ctx.RAND_MAX ctx.Rand.Delay A.MinDelay A.MaxDelay hRand
        hDelay hmono hOne hidem hMin
      refine ⟨A1, _, ht, fun _ _ => ?_, fun _ h => absurd h hd,
        fun h => absurd hn (by omega)⟩
      rw [hcd, hv, hB3, hB4]
      refine ⟨hb.1, hb.2, fun e1 e2 => le_trans hb.2 ?_⟩
      rw [e1]
      have e3 : A.MinDelay + (A.MaxDelay - A.MinDelay) = A.MaxDelay := by ring
      rw [e3, e2]
  · have hn0 : A.RandomSFX.length = 0 := by omega
    have hu := UpdateRandomSFX_empty M ctx B DeltaTime Target (by rw [hB1]; exact hn0)
    obtain ⟨A1, ht, hcd⟩ := hrun B [] hu
    refine ⟨A1, _, ht, fun h => absurd h hn, fun h => absurd h hn, fun _ => ⟨?_, ?_⟩⟩
    · intro s l hmem
      rw [List.append_nil] at hmem
      exact hpc _ hmem s l rfl
    · rw [hcd, hB2]

/-- C15 (amended) in single precision at the ambient example actor (MinDelay 5, MaxDelay
10), with the listener at the centre of the square and a countdown that has run out: the
redrawn countdown lies between MinDelay and MaxDelay. -/
theorem C15_countdown_redraw_range_witness :
    ∃ A1 cmds, TickActor Float32Math DefaultSettings (GameContext ⟨0, 0, 0⟩)
        (AmbientActor 0) (1 / 64) ELevelTick.LEVELTICK_All = some (A1, cmds) ∧
      (AmbientActor 0).MinDelay ≤ A1.CurrentDelay ∧
      A1.CurrentDelay ≤ (AmbientActor 0).MaxDelay := by
  have hq : TickActor.ListenerQuery Float32Math (GameContext ⟨0, 0, 0⟩) (AmbientActor 0)
      ELevelTick.LEVELTICK_All (true, ⟨0, 0, 0⟩) := by
    refine ⟨(GameContext_listener _ _).1, ?_⟩
    rw [(GameContext_listener _ ELevelTick.LEVELTICK_All).2]
    exact Float32_centre_query _ DefaultActor_conditions.2.1 rfl
  have h5 : Float32Math.Round 5 = 5 := by
    exact_mod_cast Float32Math_Round_natCast 5 (by norm_num)
  have h10 : Float32Math.Round 10 = 10 := by
    exact_mod_cast Float32Math_Round_natCast 10 (by norm_num)
  have hMin : (AmbientActor 0).MinDelay = 5 := rfl
  have hMax : (AmbientActor 0).MaxDelay = 10 := rfl
  obtain ⟨A1, cmds, ht, h1, -, -⟩ := C15_countdown_redraw_range Float32Math DefaultSettings
    (GameContext ⟨0, 0, 0⟩) (AmbientActor 0) (1 / 64) ELevelTick.LEVELTICK_All
    (true, ⟨0, 0, 0⟩) hq
    (by rw [Decide_inside])
    (by rw [hMin, hMax]; norm_num)
    (by simp [GameContext]) Round32_mono
    (by exact_mod_cast Float32Math_Round_natCast 1 (by norm_num)) Round32_idem
    (by rw [hMin]; exact h5)
  have h := h1 (by simp [AmbientActor])
    (by
      show Float32Math.Round (0 - 1 / 64) ≤ 0
      rw [Float32Math_Round_elapsed]
      norm_num)
  refine ⟨A1, cmds, ht, h.1, h.2.2 ?_ ?_⟩
  · rw [hMin, hMax]
    have e : (10 : ℚ) - 5 = 5 := by norm_num
    rw [e]
    exact h5
  · rw [hMax]
    exact h10

/-- C15 as stated fails on the code. (a) In single precision, in a playing tick (listener
at the centre of the default square) with a catalog of one sound, a countdown that has run
out, MinDelay 2.3f, MaxDelay 7.9f and the draw Rand() = RAND_MAX, the redrawn countdown is
2.3f + (7.9f - 2.3f) * 1.0f = 8283751/1048576, about 7.9000006, above MaxDelay. (b) In
a playing tick of an actor with an empty catalog, CurrentDelay 5 and DeltaTime 1/60, where
CurrentDelay - DeltaTime > 0, the countdown is still 5 after the tick: the block that
decrements it is skipped, so it is not decremented by DeltaTime. -/
theorem C15_redraw_above_MaxDelay_and_idle_countdown :
    (FloatDelayActor.MinDelay ≤ FloatDelayActor.MaxDelay ∧
      0 < FloatDelayActor.RandomSFX.length ∧
      MaxDrawContext.Rand.Delay ≤ MaxDrawContext.RAND_MAX ∧
      Float32Math.Round (FloatDelayActor.CurrentDelay - 1 / 64) ≤ 0 ∧
      TickActor.ListenerQuery Float32Math MaxDrawContext FloatDelayActor
        ELevelTick.LEVELTICK_All (true, ⟨0, 0, 0⟩) ∧
      (TickActor.Decide Float32Math DefaultSettings FloatDelayActor
        (TickActor.AudioListenerLocation MaxDrawContext.World) (true, ⟨0, 0, 0⟩)).1 = true ∧
      ∃ A1 cmds, TickActor Float32Math DefaultSettings MaxDrawContext FloatDelayActor
          (1 / 64) ELevelTick.LEVELTICK_All = some (A1, cmds) ∧
        A1.CurrentDelay = 8283751 / 1048576 ∧
        FloatDelayActor.MaxDelay < A1.CurrentDelay) ∧
    ((EmptyCatalogActor 5).RandomSFX = [] ∧
      0 < (EmptyCatalogActor 5).CurrentDelay - 1 / 60 ∧
      TickActor.ListenerQuery RationalMath (GameContext ⟨0, 0, 0⟩) (EmptyCatalogActor 5)
        ELevelTick.LEVELTICK_All (true, ⟨0, 0, 0⟩) ∧
      (TickActor.Decide RationalMath DefaultSettings (EmptyCatalogActor 5)
        (TickActor.AudioListenerLocation (GameContext ⟨0, 0, 0⟩).World)
        (true, ⟨0, 0, 0⟩)).1 = true ∧
      ∃ A1 cmds, TickActor RationalMath DefaultSettings (GameContext ⟨0, 0, 0⟩)
          (EmptyCatalogActor 5) (1 / 60) ELevelTick.LEVELTICK_All = some (A1, cmds) ∧
        A1.CurrentDelay = 5 ∧
        A1.CurrentDelay ≠ (EmptyCatalogActor 5).CurrentDelay - 1 / 60) := by
  constructor
  · have hq : TickActor.ListenerQuery Float32Math MaxDrawContext FloatDelayActor
        ELevelTick.LEVELTICK_All (true, ⟨0, 0, 0⟩) := by
      refine ⟨(MaxDrawContext_listener _).1, ?_⟩
      rw [(MaxDrawContext_listener ELevelTick.LEVELTICK_All).2]
      exact Float32_centre_query _ DefaultActor_conditions.2.1 rfl
    have hPlay : (TickActor.Decide Float32Math DefaultSettings FloatDelayActor
        (TickActor.AudioListenerLocation MaxDrawContext.World) (true, ⟨0, 0, 0⟩)).1 = true := by
      rw [Decide_inside]
    have hMin : FloatDelayActor.MinDelay = 9646899 / 4194304 := rfl
    have hMax : FloatDelayActor.MaxDelay = 16567501 / 2097152 := rfl
    have hcd : FloatDelayActor.CurrentDelay = 0 := rfl
    have hd : Float32Math.Round (FloatDelayActor.CurrentDelay - 1 / 64) ≤ 0 := by
      rw [hcd, Float32Math_Round_elapsed]
      norm_num
    refine ⟨by rw [hMin, hMax]; norm_num, by simp [FloatDelayActor, AmbientActor],
      by simp [MaxDrawContext, GameContext], hd, hq, hPlay, ?_⟩
    obtain ⟨B, Target, pcmds, hB1, hB2, hB3, hB4, -, hrun⟩ := TickActor_play_eq Float32Math
      DefaultSettings MaxDrawContext FloatDelayActor (1 / 64) ELevelTick.LEVELTICK_All
      (true, ⟨0, 0, 0⟩) hq.1 hq.2 hPlay
    obtain ⟨B1, rcmds, hu, hv⟩ := UpdateRandomSFX_redraw Float32Math MaxDrawContext B (1 / 64)
      Target (by rw [hB1]; simp [FloatDelayActor, AmbientActor]) (by rw [hB2]; exact hd)
    obtain ⟨A1, ht, hA1⟩ := hrun B1 rcmds hu
    have hval : A1.CurrentDelay = 8283751 / 1048576 := by
      rw [hA1, hv, hB3, hB4, hMin, hMax]
      exact Float32_FRandRange_overshoot
    refine ⟨A1, _, ht, hval, ?_⟩
    rw [hval, hMax]
    norm_num
  · have hq := EmptyCatalogActor_centre 5 ELevelTick.LEVELTICK_All
    have hPlay : (TickActor.Decide RationalMath DefaultSettings (EmptyCatalogActor 5)
        (TickActor.AudioListenerLocation (GameContext ⟨0, 0, 0⟩).World)
        (true, ⟨0, 0, 0⟩)).1 = true := by rw [Decide_inside]
    have hcd : (EmptyCatalogActor 5).CurrentDelay = 5 := rfl
    have hd : (0 : ℚ) < (EmptyCatalogActor 5).CurrentDelay - 1 / 60 := by
      rw [hcd]; norm_num
    refine ⟨rfl, hd, hq, hPlay, ?_⟩
    obtain ⟨B, Target, pcmds, hB1, hB2, -, -, -, hrun⟩ := TickActor_play_eq RationalMath
      DefaultSettings (GameContext ⟨0, 0, 0⟩) (EmptyCatalogActor 5) (1 / 60)
      ELevelTick.LEVELTICK_All (true, ⟨0, 0, 0⟩) hq.1 hq.2 hPlay
    have hu := UpdateRandomSFX_empty RationalMath (GameContext ⟨0, 0, 0⟩) B (1 / 60) Target
      (by rw [hB1]; rfl)
    obtain ⟨A1, ht, hA1⟩ := hrun B [] hu
    have h5 : A1.CurrentDelay = 5 := by
      rw [hA1, hB2, hcd]
    refine ⟨A1, _, ht, h5, ?_⟩
    rw [h5, hcd]
    norm_num

set_option maxRecDepth 8192 in
set_option maxHeartbeats 1000000 in
/-- C17 fails on the code. The default square, and the same square with the component
transform turned by half a turn about the vertical axis (the quaternion (0,0,1,0), which
sends (x,y,z) to (-x,-y,z); the bounds of the square are the same box): the location
(100,50,0) is inside and IsInside returns true, while for the turned square and the turned
location (-100,-50,0) IsInside returns false, because the normal kept by the loop is in
local space and the direction to the closest location is in world space. -/
theorem C17_half_turn_flips_the_inside_flag :
    (∀ V : FVector, HalfTurnActor.Spline.ComponentToWorld.TransformPosition V
      = ⟨-V.X, -V.Y, V.Z⟩) ∧
    HalfTurnActor.Spline.Points = DefaultActor.Spline.Points ∧
    HalfTurnActor.Spline.Bounds = DefaultActor.Spline.Bounds ∧
    IsInside RationalMath DefaultActor ⟨100, 50, 0⟩ = some (true, ⟨100, 50, 0⟩) ∧
    IsInside RationalMath HalfTurnActor ⟨-100, -50, 0⟩ = some (false, ⟨-200, -50, 0⟩) := by
  have hr : List.range 4 = [0, 1, 2, 3] := by decide
  refine ⟨?_, rfl, rfl, ?_, ?_⟩
  · intro V
    simp [HalfTurnActor, FTransform.TransformPosition, FTransform.Identity,
      FQuat.RotateVector, FVector.Scale, FVector.CrossProduct]
    constructor <;> ring
  · simp [IsInside, IsInside.Loop, IsInside.Body, IsInside.Init, IsInside.Result, hr,
      IsInside.Edge, FDiv, DefaultActor, AVolumetricAudioSource.Construct, DefaultSettings,
      DefaultSpline, FVector.Dot, FVector.GetSafeNormal,
      FVector.CrossProduct, FVector.UpVector, SMALL_NUMBER, FVector.DistSquared, MAX_FLT,
      FTransform.Identity, FTransform.InverseTransformPosition, FTransform.TransformPosition,
      FQuat.Identity, FQuat.RotateVector, FQuat.UnrotateVector, FVector.Scale,
      SafeReciprocal, FBoxSphereBounds.GetBox]
    norm_num [RationalMath_InvSqrt_160000]
  · simp [IsInside, IsInside.Loop, IsInside.Body, IsInside.Init, IsInside.Result, hr,
      IsInside.Edge, FDiv, HalfTurnActor, DefaultActor, AVolumetricAudioSource.Construct,
      DefaultSettings, DefaultSpline, FVector.Dot, FVector.GetSafeNormal,
      FVector.CrossProduct, FVector.UpVector, SMALL_NUMBER, FVector.DistSquared, MAX_FLT,
      FTransform.Identity, FTransform.InverseTransformPosition, FTransform.TransformPosition,
      FQuat.Identity, FQuat.RotateVector, FQuat.UnrotateVector, FVector.Scale,
      SafeReciprocal, FBoxSphereBounds.GetBox]
    norm_num [RationalMath_InvSqrt_160000]

set_option maxRecDepth 8192 in
set_option maxHeartbeats 1000000 in
/-- C18: the inside test depends on the order of the vertices. For the default square
(side 400, identity transform) with its four vertices listed in reverse order, IsInside
at the centre of the square returns false, while for the same square in the order of the
constructor it returns true. -/
theorem C18_reversed_square_rejects_its_centre :
    ReversedActor.Spline.Points = DefaultActor.Spline.Points.reverse ∧
    IsInside RationalMath ReversedActor ⟨0, 0, 0⟩ = some (false, ⟨-200, 0, 0⟩) ∧
    IsInside RationalMath DefaultActor ⟨0, 0, 0⟩ = some (true, ⟨0, 0, 0⟩) := by
  have hr : List.range 4 = [0, 1, 2, 3] := by decide
  refine ⟨rfl, ?_, ?_⟩
  · simp [IsInside, IsInside.Loop, IsInside.Body, IsInside.Init, IsInside.Result, hr,
      IsInside.Edge, FDiv, ReversedActor, DefaultActor, AVolumetricAudioSource.Construct,
      DefaultSettings, DefaultSpline, FVector.Dot, FVector.GetSafeNormal,
      FVector.CrossProduct, FVector.UpVector, SMALL_NUMBER, FVector.DistSquared, MAX_FLT,
      FTransform.Identity, FTransform.InverseTransformPosition, FTransform.TransformPosition,
      FQuat.Identity, FQuat.RotateVector, FQuat.UnrotateVector, FVector.Scale,
      SafeReciprocal, FBoxSphereBounds.GetBox]
    norm_num [RationalMath_InvSqrt_160000]
  · obtain ⟨-, -, -, -, -, -, h⟩ := IsInside_default_square_axis RationalMath DefaultActor
      200 0 DefaultActor_conditions.1 DefaultActor_conditions.2.1
      DefaultActor_conditions.2.2.1 DefaultActor_conditions.2.2.2
    have hH : ¬ (0 : ℚ) > DefaultActor.MaxHeight := by
      show ¬ (0 : ℚ) > 400
      norm_num
    rw [h, if_neg (lt_irrefl _), if_neg hH]

end VolumetricAudioSource
